import Mathlib

/-!
# Verification development for the `io` network kit (EventLoop, StreamSocket)

Shallow embedding of `src/kits/network/libnetapi/EventLoop.cpp`,
`headers/os/net/EventLoop.h` and `headers/os/net/StreamSocket.h`, followed by
`headers/private/kernel/util/fs_trim_support.h` and
`src/apps/haikudepot/textview/TextDocument.cpp`.

Conventions of the embedding:

* C++ callables (`std::function`) are data: a tag naming the callable and
  the list of calls it makes on the object it was handed to.  Invoking a
  callable appends an event to a ghost `trace` and performs those calls.
* Kernel services (`event_queue_wait`, `event_queue_select`, `recv`, `send`,
  `connect`, the clock) are oracles: their results are inputs of the model.
* Constants of the system headers that are not part of the sources
  (`B_EVENT_READ`, `EAGAIN`, ...) are fields of `OSHeaders`.
-/

set_option autoImplicit false

namespace io

/-! ## Constants of the system headers -/

/-- Constants declared by the system headers (`OS.h`, `errno.h`), which the
sources use by name only. -/
structure OSHeaders where
  B_EVENT_READ : Nat
  B_EVENT_WRITE : Nat
  B_EVENT_ERROR : Nat
  B_EVENT_SELECT : Nat
  B_EVENT_ONE_SHOT : Nat
  B_OBJECT_TYPE_FD : Nat
  B_OBJECT_TYPE_PORT : Nat
  B_OBJECT_TYPE_SEMAPHORE : Nat
  B_OBJECT_TYPE_THREAD : Nat
  B_ABSOLUTE_REAL_TIME_TIMEOUT : Nat
  B_INFINITE_TIMEOUT : Int
  B_ERROR : Int
  EAGAIN : Int
  EWOULDBLOCK : Int
  EINPROGRESS : Int

/-- Modelled from the spec: `B_OK`, the success status; the spec calls every
failure of the wait "a negative error code" and every success a count, so the
success status is `0`. -/
def B_OK : Int := 0

/-- One concrete choice of the header constants, used to evaluate the model
on concrete inputs (event bits are distinct single bits; the error numbers
are the negative values of the Haiku headers). -/
def haiku : OSHeaders where
  B_EVENT_READ := 0x0001
  B_EVENT_WRITE := 0x0002
  B_EVENT_ERROR := 0x0004
  B_EVENT_SELECT := 0x2000
  B_EVENT_ONE_SHOT := 0x4000
  B_OBJECT_TYPE_FD := 0
  B_OBJECT_TYPE_SEMAPHORE := 1
  B_OBJECT_TYPE_PORT := 2
  B_OBJECT_TYPE_THREAD := 3
  B_ABSOLUTE_REAL_TIME_TIMEOUT := 0x44
  B_INFINITE_TIMEOUT := 9223372036854775807
  B_ERROR := -1
  EAGAIN := -2147483637
  EWOULDBLOCK := -2147483637
  EINPROGRESS := -2147454940

/-! ## EventLoop: data model (`EventLoop.h`) -/

mutual
/-- A call a callable makes on the event loop it runs on. -/
inductive LoopCall where
  | ExecuteLater (function : Function)
  | ExecuteAt (function : Function) (time : Int)
/-- Embedding of `EventLoop::Function`, a `std::function<void ()>`: `tag` names the
callable, `body` lists the calls it makes on the loop when invoked. -/
inductive Function where
  | mk (tag : Nat) (body : List LoopCall)
end

/-- The name of a callable. -/
def Function.tag : Function → Nat
  | .mk t _ => t

/-- The calls a callable makes on the loop. -/
def Function.body : Function → List LoopCall
  | .mk _ b => b

/-- Embedding of `EventLoop::timer`. -/
structure timer where
  expiration : Int
  function : Function

/-- Embedding of `timer::operator<`: `expiration < other.expiration`. -/
def timer.lt (a other : timer) : Bool :=
  decide (a.expiration < other.expiration)

/-- Embedding of `EventCallback`, a `std::function<void (int)>`, as the loop sees it
through the `user_data` cookie: `addr` is the address of the callback object,
`body` the calls it makes on the loop when invoked. -/
structure EventCallback where
  addr : Nat
  body : List LoopCall

/-- Embedding of `event_wait_info`; `user_data` points to an `EventCallback`. -/
structure event_wait_info where
  object : Int
  type : Nat
  events : Nat
  user_data : EventCallback

/-- What an observer of the loop sees, in order. -/
inductive LoopEvent where
  /-- a deferred work item was run by `_DispatchWork` -/
  | work (tag : Nat)
  /-- a timer function was fired by `_DispatchTimers` -/
  | fired (tag : Nat) (expiration : Int)
  /-- the kernel call `event_queue_wait` was made -/
  | wait (queue : Int) (capacity : Nat) (flags : Nat) (timeout : Int)
  /-- an event callback was invoked with an event mask -/
  | event (addr : Nat) (events : Int)
  deriving DecidableEq, Repr

/-- The state of an `EventLoop`, with the ghost `trace` of what it did. -/
structure EventLoop where
  fWorkQueue : List Function
  fTimers : List timer
  fEventQueue : Int
  trace : List LoopEvent

/-! ## The heap algorithms of `<algorithm>`

`std::push_heap` and `std::pop_heap` without a comparator order the range by
`operator<` of the element type and keep the element that is greatest for
`operator<` at the front.  They are embedded as libstdc++ implements them
(`bits/stl_heap.h`); loops run on a fuel that bounds their iterations. -/

/-- The loop of `std::__push_heap`: move the hole up while the parent is
less than `value`, then store `value` in the hole. -/
def __push_heap : Nat → List timer → Nat → Nat → timer → List timer
  | 0, first, holeIndex, _, value => first.set holeIndex value
  | fuel + 1, first, holeIndex, topIndex, value =>
    let parent := (holeIndex - 1) / 2
    match first[parent]? with
    | some p =>
      if holeIndex > topIndex && p.lt value then
        __push_heap fuel (first.set holeIndex p) parent topIndex value
      else
        first.set holeIndex value
    | none => first.set holeIndex value

/-- Embedding of `std::push_heap(first, last)`: the element at `last - 1` is inserted into
the heap `[first, last - 1)`. -/
def push_heap (v : List timer) : List timer :=
  match v.getLast? with
  | some value => __push_heap (v.length - 1) v (v.length - 1) 0 value
  | none => v

/-- The first loop of `std::__adjust_heap`: move the hole down to the greater
child while the hole has two children.  Returns the range and the hole. -/
def __adjust_heap_down : Nat → List timer → Nat → Nat → List timer × Nat
  | 0, first, holeIndex, _ => (first, holeIndex)
  | fuel + 1, first, holeIndex, len =>
    if holeIndex < (len - 1) / 2 then
      let secondChild := 2 * (holeIndex + 1)
      match first[secondChild]?, first[secondChild - 1]? with
      | some r, some l =>
        let secondChild := if r.lt l then secondChild - 1 else secondChild
        match first[secondChild]? with
        | some c => __adjust_heap_down fuel (first.set holeIndex c) secondChild len
        | none => (first, holeIndex)
      | _, _ => (first, holeIndex)
    else
      (first, holeIndex)

/-- Embedding of `std::__adjust_heap(first, holeIndex, len, value)` (called with
`len >= 1` only, where the unsigned arithmetic below agrees with the signed
arithmetic of the library). -/
def __adjust_heap (first : List timer) (holeIndex len : Nat) (value : timer) :
    List timer :=
  let topIndex := holeIndex
  let (first, holeIndex) := __adjust_heap_down len first holeIndex len
  let (first, holeIndex) :=
    if len % 2 = 0 ∧ holeIndex = (len - 2) / 2 then
      let secondChild := 2 * (holeIndex + 1)
      match first[secondChild - 1]? with
      | some c => (first.set holeIndex c, secondChild - 1)
      | none => (first, holeIndex)
    else
      (first, holeIndex)
  __push_heap holeIndex first holeIndex topIndex value

/-- Embedding of `std::pop_heap(first, last)`: the front element is moved to `last - 1`
and `[first, last - 1)` is made a heap again. -/
def pop_heap (v : List timer) : List timer :=
  if v.length > 1 then
    let last := v.length - 1
    match v[last]?, v[0]? with
    | some value, some front => __adjust_heap (v.set last front) 0 last value
    | _, _ => v
  else
    v

/-! ## EventLoop: operations (`EventLoop.cpp`, `EventLoop.h`) -/

/-- Embedding of `EventLoop::ExecuteLater`: `fWorkQueue.emplace_back(function)`. -/
def EventLoop.ExecuteLater (function : Function) (L : EventLoop) : EventLoop :=
  { L with fWorkQueue := L.fWorkQueue ++ [function] }

/-- Embedding of `EventLoop::_ExecuteAt`: `fTimers.push_back({ time, function })`, then
`std::push_heap(fTimers.begin(), fTimers.end())`. -/
def EventLoop._ExecuteAt (function : Function) (time : Int) (L : EventLoop) :
    EventLoop :=
  { L with fTimers := push_heap (L.fTimers ++ [{ expiration := time, function := function }]) }

/-- Embedding of `EventLoop::ExecuteAt`: wraps the callable and calls `_ExecuteAt`. -/
def EventLoop.ExecuteAt (function : Function) (time : Int) (L : EventLoop) :
    EventLoop :=
  L._ExecuteAt function time

/-- One call made by a running callable on the loop. -/
def LoopCall.run : LoopCall → EventLoop → EventLoop
  | .ExecuteLater f, L => L.ExecuteLater f
  | .ExecuteAt f t, L => L.ExecuteAt f t

/-- The calls of a running callable, in order. -/
def runCalls (body : List LoopCall) (L : EventLoop) : EventLoop :=
  body.foldl (fun L c => c.run L) L

/-- Embedding of `work()` in `_DispatchWork`: the work item is observed, then its calls
take effect. -/
def EventLoop.runWork (L : EventLoop) (work : Function) : EventLoop :=
  runCalls work.body { L with trace := L.trace ++ [LoopEvent.work work.tag] }

/-- Embedding of `EventLoop::_DispatchWork`.  The range-for evaluates `begin()` and `end()`
once, so it visits the items that are queued when the loop starts;
`emplace_back` on a deque leaves the queued items in place, and items
appended by a running item lie behind the saved end.  Then
`fWorkQueue.clear()` empties the queue. -/
def EventLoop._DispatchWork (L : EventLoop) : EventLoop :=
  let L := L.fWorkQueue.foldl EventLoop.runWork L
  { L with fWorkQueue := [] }

/-- Embedding of `fTimers[0].function()` in `_DispatchTimers`. -/
def EventLoop.fire (L : EventLoop) (t : timer) : EventLoop :=
  runCalls t.function.body
    { L with trace := L.trace ++ [LoopEvent.fired t.function.tag t.expiration] }

/-- Embedding of `EventLoop::_DispatchTimers`, with `current` the value of
`real_time_clock_usecs()`.  While the vector is not empty and
`fTimers[0].expiration > current` is false: call `fTimers[0].function`, then
`pop_heap` and `pop_back`.  The loop need not end (a timer function may
enqueue timers), so it runs on fuel: `none` is "fuel exhausted". -/
def EventLoop._DispatchTimers : Nat → Int → EventLoop → Option EventLoop
  | fuel, current, L =>
    match L.fTimers with
    | [] => some L
    | t0 :: _ =>
      if t0.expiration > current then
        some L
      else
        match fuel with
        | 0 => none
        | fuel + 1 =>
          let L := L.fire t0
          EventLoop._DispatchTimers fuel current
            { L with fTimers := (pop_heap L.fTimers).dropLast }

/-- Embedding of `EventLoop::_DetermineTimeout`. -/
def EventLoop._DetermineTimeout (os : OSHeaders) (L : EventLoop) : Int :=
  match L.fTimers with
  | [] => os.B_INFINITE_TIMEOUT
  | t0 :: _ => t0.expiration

/-- Embedding of `EVENTS_TO_READ` in `RunOnce`. -/
def EVENTS_TO_READ : Nat := 50

/-- Embedding of `(*wrapper)(events)` in `RunOnce`: the callback behind the cookie is
observed with the event mask, then its calls take effect. -/
def EventLoop.dispatch (L : EventLoop) (info : event_wait_info) : EventLoop :=
  runCalls info.user_data.body
    { L with trace := L.trace ++ [LoopEvent.event info.user_data.addr info.events] }

/-- Embedding of `EventLoop::RunOnce`.  `current` is the clock read by `_DispatchTimers`;
`result` and `infos` are what `event_queue_wait` returns and writes into the
array; `result` is an event count or a `status_t` error code, so its
conversion to the `status_t` return type keeps its value.  Returns the status
and the loop; `none` is "fuel exhausted". -/
def EventLoop.RunOnce (os : OSHeaders) (fuel : Nat) (current : Int)
    (result : Int) (infos : Nat → event_wait_info) (L : EventLoop) :
    Option (Int × EventLoop) :=
  let L := L._DispatchWork
  match L._DispatchTimers fuel current with
  | none => none
  | some L =>
    let timeout := L._DetermineTimeout os
    let L := { L with trace := L.trace ++
      [LoopEvent.wait L.fEventQueue EVENTS_TO_READ os.B_ABSOLUTE_REAL_TIME_TIMEOUT timeout] }
    if result < B_OK then
      some (result, L)
    else
      some (result, (List.range result.toNat).foldl (fun L i => L.dispatch (infos i)) L)

/-- A fresh loop: what the constructor leaves, with `queue` the handle
returned by `event_queue_create`. -/
def EventLoop.new (queue : Int) : EventLoop :=
  { fWorkQueue := [], fTimers := [], fEventQueue := queue, trace := [] }

/-- The registration that `_WaitForObject` hands to `event_queue_select`.
`type` and `events` are `uint16` parameters, and `info.events` is a `uint16`
field: values are reduced modulo `2^16` where they are converted. -/
def EventLoop.selectInfo (os : OSHeaders) (object : Int) (type : Int) (events : Int)
    (callback : EventCallback) (oneShot : Bool) : event_wait_info :=
  { object := object
    type := (type % 65536).toNat
    events := ((events % 65536).toNat ||| os.B_EVENT_SELECT
      ||| (if oneShot then os.B_EVENT_ONE_SHOT else 0)) % 65536
    user_data := callback }

/-- Embedding of `EventLoop::_WaitForObject`.  `event_queue_select` is the kernel call: it
is given the queue and the registration and returns its status and the
`events` field of the registration as the kernel left it. -/
def EventLoop._WaitForObject (os : OSHeaders) (L : EventLoop)
    (event_queue_select : Int → event_wait_info → Int × Nat)
    (object : Int) (type : Int) (events : Int) (callback : EventCallback)
    (oneShot : Bool) : Int :=
  let info := EventLoop.selectInfo os object type events callback oneShot
  let (result, infoEvents) := event_queue_select L.fEventQueue info
  if result = os.B_ERROR then
    infoEvents
  else if result ≠ B_OK then
    result
  else
    B_OK

/-- Embedding of `EventLoop::WaitForFD`; `oneShot` defaults to `true` as in
the declaration. -/
def EventLoop.WaitForFD (os : OSHeaders) (L : EventLoop)
    (event_queue_select : Int → event_wait_info → Int × Nat)
    (fd : Int) (events : Int) (callback : EventCallback) (oneShot : Bool := true) : Int :=
  L._WaitForObject os event_queue_select fd os.B_OBJECT_TYPE_FD events callback oneShot

/-- Embedding of `EventLoop::WaitForPort`; `oneShot` defaults to `true` as in
the declaration. -/
def EventLoop.WaitForPort (os : OSHeaders) (L : EventLoop)
    (event_queue_select : Int → event_wait_info → Int × Nat)
    (port : Int) (events : Int) (callback : EventCallback) (oneShot : Bool := true) : Int :=
  L._WaitForObject os event_queue_select port os.B_OBJECT_TYPE_PORT events callback oneShot

/-- Embedding of `EventLoop::WaitForSemaphore`; `oneShot` defaults to `true`
as in the declaration. -/
def EventLoop.WaitForSemaphore (os : OSHeaders) (L : EventLoop)
    (event_queue_select : Int → event_wait_info → Int × Nat)
    (semaphore : Int) (events : Int) (callback : EventCallback) (oneShot : Bool := true) :
    Int :=
  L._WaitForObject os event_queue_select semaphore os.B_OBJECT_TYPE_SEMAPHORE events
    callback oneShot

/-- Embedding of `EventLoop::WaitForThread`; `oneShot` defaults to `true` as
in the declaration. -/
def EventLoop.WaitForThread (os : OSHeaders) (L : EventLoop)
    (event_queue_select : Int → event_wait_info → Int × Nat)
    (thread : Int) (events : Int) (callback : EventCallback) (oneShot : Bool := true) :
    Int :=
  L._WaitForObject os event_queue_select thread os.B_OBJECT_TYPE_THREAD events
    callback oneShot

/-! ## StreamSocket: data model (`StreamSocket.h`, `BaseSocket.h`) -/

mutual
/-- A call a completion callback makes on the socket that completed. -/
inductive SocketCall where
  | AsyncConnect (peer : Nat) (callback : IOCallback)
  | AsyncRecv (buffer : Nat) (size : Nat) (flags : Int) (callback : IOCallback)
  | AsyncSend (buffer : Nat) (size : Nat) (flags : Int) (callback : IOCallback)
/-- Embedding of `IOCallback`, a `std::function<void (ssize_t)>`: empty (`nullptr`), or a
callable named `tag` that makes the calls `body` on the socket when invoked. -/
inductive IOCallback where
  | null
  | fn (tag : Nat) (body : List SocketCall)
end

/-- Whether a `std::function` is empty. -/
def IOCallback.isNull : IOCallback → Bool
  | .null => true
  | .fn _ _ => false

/-- The name of a callable (`none` for an empty `std::function`). -/
def IOCallback.tag? : IOCallback → Option Nat
  | .null => none
  | .fn t _ => some t

/-- Embedding of `StreamSocket::IORequest`; `buffer` is an address. -/
structure IORequest where
  buffer : Nat
  size : Nat
  flags : Int
  callback : IOCallback

/-- The fields of a `StreamSocket` (`fSocket` is the field of `BaseSocket`);
`fEventLoop` is the loop the socket refers to. -/
structure StreamSocket where
  fSocket : Int
  fEventLoop : EventLoop
  fEventCallback : EventCallback
  fSendRequest : IORequest
  fRecvRequest : IORequest
  fConnectCallback : IOCallback
  fWaitingRead : Bool
  fWaitingWrite : Bool
  fWaitingConnect : Bool

/-- What a kernel call returns: its return value, the value of `errno` after
it, (for `event_queue_select`) the `events` field it left in the
registration, and (for `getsockopt` of `SO_ERROR`) the value it stored in
`error`. -/
structure SysResult where
  ret : Int
  errno : Int
  events : Nat := 0
  error : Int := 0

/-- What an observer of a socket sees, in order. -/
inductive SocketEvent where
  | recv (fd : Int) (buffer size : Nat) (flags : Int)
  | send (fd : Int) (buffer size : Nat) (flags : Int)
  | connect (fd : Int) (peer : Nat)
  /-- the kernel call `event_queue_select` was made with this registration -/
  | select (queue : Int) (object : Int) (type : Nat) (events : Nat) (user_data : Nat)
  /-- a completion callback was invoked with this argument -/
  | callback (tag : Nat) (result : Int)
  | accept (fd : Int)
  /-- the kernel call `getsockopt(fd, SOL_SOCKET, SO_ERROR, ...)` was made -/
  | getsockopt (fd : Int)
  | socket (family type protocol : Int)
  | close (fd : Int)
  | bind (fd : Int) (address length : Nat)
  /-- the kernel call `ioctl(fd, FIONBIO, &option)` was made -/
  | ioctl (fd : Int) (option : Int)
  | listen (fd : Int) (backlog : Int)
  deriving DecidableEq, Repr

/-- A socket in its environment: `calls` counts the kernel calls made so far
(the `k`-th call is answered by the oracle at `k`), `trace` is the ghost
record of kernel calls and callback invocations. -/
structure SocketWorld where
  socket : StreamSocket
  calls : Nat
  trace : List SocketEvent

/-- C++ exceptions that leave the socket code. -/
inductive Exception where
  | system_error (code : Int)
  | bad_function_call
  deriving DecidableEq, Repr

/-- How a call ends: it returns, it throws, or the model ran out of fuel. -/
inductive Outcome where
  | returned (w : SocketWorld)
  | threw (e : Exception) (w : SocketWorld)
  | exhausted

/-- Sequencing of statements: the next statement runs if the previous one
returned. -/
def Outcome.andThen (o : Outcome) (next : SocketWorld → Outcome) : Outcome :=
  match o with
  | .returned w => next w
  | .threw e w => .threw e w
  | .exhausted => .exhausted

/-- The world an outcome leaves, if any. -/
def Outcome.world? : Outcome → Option SocketWorld
  | .returned w => some w
  | .threw _ w => some w
  | .exhausted => none

/-- The trace an outcome leaves, if any. -/
def Outcome.trace? (o : Outcome) : Option (List SocketEvent) :=
  o.world?.map (fun w => w.trace)

/-- The exception an outcome carries, if any. -/
def Outcome.exception? : Outcome → Option Exception
  | .threw e _ => some e
  | _ => none

/-- A kernel call: it is recorded, and answered by the oracle. -/
def SocketWorld.syscall (kernel : Nat → SysResult) (w : SocketWorld)
    (call : SocketEvent) : SysResult × SocketWorld :=
  (kernel w.calls, { w with calls := w.calls + 1, trace := w.trace ++ [call] })

/-! ## StreamSocket: operations

`call` is how `callback(result)` is performed: `IOCallback.call` below. -/

section StreamSocketOps

variable (os : OSHeaders) (kernel : Nat → SysResult)
variable (call : IOCallback → Int → SocketWorld → Outcome)

/-- Embedding of `fEventLoop.WaitForFD(this->fSocket, events, fEventCallback)` followed by
the `throw` of `_WaitForRead` and `_WaitForWrite` when the result is not
`B_OK`. -/
def StreamSocket.waitForFD (events : Nat) (w : SocketWorld) : Outcome :=
  let info := EventLoop.selectInfo os w.socket.fSocket os.B_OBJECT_TYPE_FD events
    w.socket.fEventCallback true
  let (reply, w1) := w.syscall kernel
    (SocketEvent.select w.socket.fEventLoop.fEventQueue info.object info.type
      info.events info.user_data.addr)
  let result := w.socket.fEventLoop.WaitForFD os
    (fun _ _ => (reply.ret, reply.events)) w.socket.fSocket events
    w.socket.fEventCallback true
  if result ≠ B_OK then
    Outcome.threw (Exception.system_error result) w1
  else
    Outcome.returned w1

/-- Embedding of `StreamSocket::_WaitForRead`. -/
def StreamSocket._WaitForRead (w : SocketWorld) : Outcome :=
  StreamSocket.waitForFD os kernel os.B_EVENT_READ w

/-- Embedding of `StreamSocket::_WaitForWrite`. -/
def StreamSocket._WaitForWrite (w : SocketWorld) : Outcome :=
  StreamSocket.waitForFD os kernel os.B_EVENT_WRITE w

/-- Embedding of `StreamSocket::AsyncConnect`. -/
def StreamSocket.AsyncConnect (peer : Nat) (callback : IOCallback)
    (w : SocketWorld) : Outcome :=
  let (reply, w) := w.syscall kernel (SocketEvent.connect w.socket.fSocket peer)
  let result := reply.ret
  let errno := reply.errno
  if result = 0 ∨ errno ≠ os.EINPROGRESS then
    call callback (if result = 0 then 0 else errno) w
  else
    let w := { w with socket := { w.socket with fWaitingConnect := true } }
    let w := { w with socket := { w.socket with fConnectCallback := callback } }
    StreamSocket._WaitForWrite os kernel w

/-- Embedding of `StreamSocket::AsyncRecv`. -/
def StreamSocket.AsyncRecv (buffer size : Nat) (flags : Int) (callback : IOCallback)
    (w : SocketWorld) : Outcome :=
  let (reply, w) := w.syscall kernel (SocketEvent.recv w.socket.fSocket buffer size flags)
  let received := reply.ret
  let errno := reply.errno
  if received ≥ 0 ∨ (errno ≠ os.EAGAIN ∧ errno ≠ os.EWOULDBLOCK) then
    call callback (if received ≥ 0 then received else errno) w
  else
    let w := { w with socket := { w.socket with
      fRecvRequest := { buffer := buffer, size := size, flags := flags, callback := callback } } }
    let w := { w with socket := { w.socket with fWaitingRead := true } }
    StreamSocket._WaitForRead os kernel w

/-- Embedding of `StreamSocket::AsyncSend`. -/
def StreamSocket.AsyncSend (buffer size : Nat) (flags : Int) (callback : IOCallback)
    (w : SocketWorld) : Outcome :=
  let (reply, w) := w.syscall kernel (SocketEvent.send w.socket.fSocket buffer size flags)
  let sent := reply.ret
  let errno := reply.errno
  if sent ≥ 0 ∨ (errno ≠ os.EAGAIN ∧ errno ≠ os.EWOULDBLOCK) then
    call callback (if sent ≥ 0 then sent else errno) w
  else
    let w := { w with socket := { w.socket with
      fSendRequest := { buffer := buffer, size := size, flags := flags, callback := callback } } }
    let w := { w with socket := { w.socket with fWaitingWrite := true } }
    StreamSocket._WaitForWrite os kernel w

/-- Embedding of `StreamSocket::_HandleRecv`. -/
def StreamSocket._HandleRecv (w : SocketWorld) : Outcome :=
  let (reply, w) := w.syscall kernel (SocketEvent.recv w.socket.fSocket
    w.socket.fRecvRequest.buffer w.socket.fRecvRequest.size w.socket.fRecvRequest.flags)
  let received := reply.ret
  let errno := reply.errno
  if received ≥ 0 ∨ (errno ≠ os.EAGAIN ∧ errno ≠ os.EWOULDBLOCK) then
    let w := { w with socket := { w.socket with fWaitingRead := false } }
    (call w.socket.fRecvRequest.callback (if received ≥ 0 then received else errno) w).andThen
      fun w => Outcome.returned { w with socket := { w.socket with
        fRecvRequest := { w.socket.fRecvRequest with callback := IOCallback.null } } }
  else
    StreamSocket._WaitForRead os kernel w

/-- Embedding of `StreamSocket::_HandleSend`; the `send` is issued with the fields of
`fRecvRequest`, as in the source. -/
def StreamSocket._HandleSend (w : SocketWorld) : Outcome :=
  let (reply, w) := w.syscall kernel (SocketEvent.send w.socket.fSocket
    w.socket.fRecvRequest.buffer w.socket.fRecvRequest.size w.socket.fRecvRequest.flags)
  let sent := reply.ret
  let errno := reply.errno
  if sent ≥ 0 ∨ (errno ≠ os.EAGAIN ∧ errno ≠ os.EWOULDBLOCK) then
    let w := { w with socket := { w.socket with fWaitingWrite := false } }
    (call w.socket.fSendRequest.callback (if sent ≥ 0 then sent else errno) w).andThen
      fun w => Outcome.returned { w with socket := { w.socket with
        fSendRequest := { w.socket.fSendRequest with callback := IOCallback.null } } }
  else
    StreamSocket._WaitForWrite os kernel w

/-- Embedding of `StreamSocket::_HandleConnect`. -/
def StreamSocket._HandleConnect (w : SocketWorld) : Outcome :=
  let w := { w with socket := { w.socket with fWaitingConnect := false } }
  (call w.socket.fConnectCallback 0 w).andThen
    fun w => Outcome.returned { w with socket := { w.socket with
      fConnectCallback := IOCallback.null } }

/-- Embedding of `StreamSocket::_HandleEvents`. -/
def StreamSocket._HandleEvents (events : Nat) (w : SocketWorld) : Outcome :=
  let o :=
    if events &&& os.B_EVENT_READ ≠ 0 ∧ w.socket.fWaitingRead = true then
      StreamSocket._HandleRecv os kernel call w
    else
      Outcome.returned w
  o.andThen fun w =>
    if events &&& os.B_EVENT_WRITE ≠ 0 then
      let o :=
        if w.socket.fWaitingConnect = true then
          StreamSocket._HandleConnect call w
        else
          Outcome.returned w
      o.andThen fun w =>
        if w.socket.fWaitingWrite = true then
          StreamSocket._HandleSend os kernel call w
        else
          Outcome.returned w
    else
      Outcome.returned w

/-- One call made by a running completion callback on the socket. -/
def SocketCall.run : SocketCall → SocketWorld → Outcome
  | .AsyncConnect peer cb, w => StreamSocket.AsyncConnect os kernel call peer cb w
  | .AsyncRecv buffer size flags cb, w =>
    StreamSocket.AsyncRecv os kernel call buffer size flags cb w
  | .AsyncSend buffer size flags cb, w =>
    StreamSocket.AsyncSend os kernel call buffer size flags cb w

/-- The calls of a running completion callback, in order; an exception ends
them. -/
def runSocketCalls : List SocketCall → SocketWorld → Outcome
  | [], w => Outcome.returned w
  | c :: cs, w => (c.run os kernel call w).andThen (runSocketCalls cs)

end StreamSocketOps

/-- Embedding of `callback(result)`: an empty `std::function` throws
`std::bad_function_call`; otherwise the invocation is observed and the calls
of the callable take effect.  Callbacks invoked by those calls run with one
unit of fuel less; `Outcome.exhausted` is "fuel exhausted". -/
def IOCallback.call (os : OSHeaders) (kernel : Nat → SysResult) :
    Nat → IOCallback → Int → SocketWorld → Outcome
  | _, .null, _, w => Outcome.threw Exception.bad_function_call w
  | 0, .fn _ _, _, _ => Outcome.exhausted
  | fuel + 1, .fn tag body, result, w =>
    runSocketCalls os kernel (IOCallback.call os kernel fuel) body
      { w with trace := w.trace ++ [SocketEvent.callback tag result] }

/-- A `StreamSocket` as the constructor `StreamSocket(eventLoop, socket)`
leaves it, in a world where nothing has happened yet.  The constructor does
not initialise `buffer`, `size` and `flags` of the two requests: the `0`
given to them here is one of the values they may hold, and a statement that
shows such a field (a `send` issued with the fields of a recv slot that was
never filled) holds for that value only. -/
def StreamSocket.new (eventLoop : EventLoop) (socket : Int) (callbackAddr : Nat) :
    SocketWorld :=
  { socket :=
      { fSocket := socket
        fEventLoop := eventLoop
        fEventCallback := { addr := callbackAddr, body := [] }
        fSendRequest := { buffer := 0, size := 0, flags := 0, callback := IOCallback.null }
        fRecvRequest := { buffer := 0, size := 0, flags := 0, callback := IOCallback.null }
        fConnectCallback := IOCallback.null
        fWaitingRead := false
        fWaitingWrite := false
        fWaitingConnect := false }
    calls := 0
    trace := [] }

/-! ## BaseSocket (`BaseSocket.h`) -/

/-- The protocol parameter of a socket: the values of `Family()`, `Type()`
(here `SocketType`, as `Type` is reserved) and `Protocol()`. -/
structure SocketProtocol where
  Family : Int
  SocketType : Int
  Protocol : Int

/-- The field of a `BaseSocket`. -/
structure BaseSocket where
  fSocket : Int

/-- A `BaseSocket` in its environment (`calls` and `trace` as for
`SocketWorld`). -/
structure BaseWorld where
  socket : BaseSocket
  calls : Nat
  trace : List SocketEvent

/-- A kernel call made by a `BaseSocket`: it is recorded, and answered by the
oracle. -/
def BaseWorld.syscall (kernel : Nat → SysResult) (w : BaseWorld)
    (call : SocketEvent) : SysResult × BaseWorld :=
  (kernel w.calls, { w with calls := w.calls + 1, trace := w.trace ++ [call] })

/-- Embedding of the constructor `BaseSocket()`: an unopened socket. -/
def BaseSocket.new : BaseWorld :=
  { socket := { fSocket := -1 }, calls := 0, trace := [] }

/-- Embedding of `BaseSocket::Adopt`. -/
def BaseSocket.Adopt (socket : Int) (w : BaseWorld) : BaseWorld :=
  { w with socket := { fSocket := socket } }

/-- Embedding of `BaseSocket::Open`: returns the status and the world. -/
def BaseSocket.Open (kernel : Nat → SysResult) (protocol : SocketProtocol) (w : BaseWorld) :
    Int × BaseWorld :=
  let (reply, w) := w.syscall kernel
    (SocketEvent.socket protocol.Family protocol.SocketType protocol.Protocol)
  let w := { w with socket := { fSocket := reply.ret } }
  if w.socket.fSocket = -1 then
    (reply.errno, w)
  else
    (0, w)

/-- Embedding of `BaseSocket::Close`: returns the status and the world. -/
def BaseSocket.Close (kernel : Nat → SysResult) (w : BaseWorld) : Int × BaseWorld :=
  let (reply, w) := w.syscall kernel (SocketEvent.close w.socket.fSocket)
  let result := reply.ret
  if result ≠ 0 then
    (reply.errno, w)
  else
    (0, w)

/-- Embedding of the destructor `BaseSocket::~BaseSocket`. -/
def BaseSocket.destroy (kernel : Nat → SysResult) (w : BaseWorld) : BaseWorld :=
  if w.socket.fSocket ≠ -1 then
    (BaseSocket.Close kernel w).2
  else
    w

/-- The value `BaseSocket::Error` returns, given what its
`getsockopt(fSocket, SOL_SOCKET, SO_ERROR, &error, &length)` returned: `error`
when the call returned `0`, `errno` otherwise. -/
def BaseSocket.errorOf (reply : SysResult) : Int :=
  let result := reply.ret
  if result = 0 then
    reply.error
  else
    reply.errno

/-- Embedding of `BaseSocket::Error`: returns the error and the world. -/
def BaseSocket.Error (kernel : Nat → SysResult) (w : BaseWorld) : Int × BaseWorld :=
  let (reply, w) := w.syscall kernel (SocketEvent.getsockopt w.socket.fSocket)
  (BaseSocket.errorOf reply, w)

/-! ## ServerSocket: data model (`ServerSocket.h`) -/

mutual
/-- A call an accept callback makes on the server socket that completed;
`socket` is the address of the peer socket object handed to `AsyncAccept`. -/
inductive ServerCall where
  | AsyncAccept (socket : Nat) (callback : AcceptCallback)
/-- The callable stored in `fAcceptCallback`, a `std::function<void (int)>`:
empty (`nullptr`), or a callable named `tag` that makes the calls `body` on
the server socket when invoked. -/
inductive AcceptCallback where
  | null
  | fn (tag : Nat) (body : List ServerCall)
end

/-- The name of an accept callback (`none` for an empty `std::function`). -/
def AcceptCallback.tag? : AcceptCallback → Option Nat
  | .null => none
  | .fn t _ => some t

/-- The fields of a `ServerSocket` (`fSocket` is the field of `BaseSocket`);
`fAcceptSocket` is a pointer to a peer socket object, `none` for `nullptr`. -/
structure ServerSocket where
  fSocket : Int
  fEventLoop : EventLoop
  fEventCallback : EventCallback
  fAcceptSocket : Option Nat
  fAcceptCallback : AcceptCallback

/-- A server socket in its environment: `peers` gives the descriptor
(`fSocket`) of the peer socket object at each address; `calls` and `trace`
as for `SocketWorld`. -/
structure ServerWorld where
  server : ServerSocket
  peers : Nat → Int
  calls : Nat
  trace : List SocketEvent

/-- How a call on a server socket ends: it returns, it throws, the program is
stopped (a failed `assert`, or a null pointer is dereferenced), or the model
ran out of fuel. -/
inductive ServerOutcome where
  | returned (w : ServerWorld)
  | threw (e : Exception) (w : ServerWorld)
  | aborted (w : ServerWorld)
  | exhausted

/-- Sequencing of statements: the next statement runs if the previous one
returned. -/
def ServerOutcome.andThen (o : ServerOutcome) (next : ServerWorld → ServerOutcome) :
    ServerOutcome :=
  match o with
  | .returned w => next w
  | .threw e w => .threw e w
  | .aborted w => .aborted w
  | .exhausted => .exhausted

/-- The world an outcome leaves, if any. -/
def ServerOutcome.world? : ServerOutcome → Option ServerWorld
  | .returned w => some w
  | .threw _ w => some w
  | .aborted w => some w
  | .exhausted => none

/-- The trace an outcome leaves, if any. -/
def ServerOutcome.trace? (o : ServerOutcome) : Option (List SocketEvent) :=
  o.world?.map (fun w => w.trace)

/-- A kernel call made by a server socket: it is recorded, and answered by the
oracle. -/
def ServerWorld.syscall (kernel : Nat → SysResult) (w : ServerWorld)
    (call : SocketEvent) : SysResult × ServerWorld :=
  (kernel w.calls, { w with calls := w.calls + 1, trace := w.trace ++ [call] })

/-- Embedding of `socket.Adopt(result)` on the peer socket object at address
`socket`. -/
def ServerWorld.adopt (w : ServerWorld) (socket : Nat) (result : Int) : ServerWorld :=
  { w with peers := fun a => if a = socket then result else w.peers a }

/-! ## ServerSocket: operations

`call` is how the accept callback is invoked: `AcceptCallback.call` below. -/

section ServerSocketOps

variable (os : OSHeaders) (kernel : Nat → SysResult)
variable (call : AcceptCallback → Int → ServerWorld → ServerOutcome)

/-- Embedding of `ServerSocket::_WaitForRead`. -/
def ServerSocket._WaitForRead (w : ServerWorld) : ServerOutcome :=
  let info := EventLoop.selectInfo os w.server.fSocket os.B_OBJECT_TYPE_FD os.B_EVENT_READ
    w.server.fEventCallback true
  let (reply, w1) := w.syscall kernel
    (SocketEvent.select w.server.fEventLoop.fEventQueue info.object info.type
      info.events info.user_data.addr)
  let result := w.server.fEventLoop.WaitForFD os
    (fun _ _ => (reply.ret, reply.events)) w.server.fSocket os.B_EVENT_READ
    w.server.fEventCallback
  if result ≠ B_OK then
    ServerOutcome.threw (Exception.system_error result) w1
  else
    ServerOutcome.returned w1

/-- Embedding of `ServerSocket::AsyncAccept`; `socket` is the address of the
peer socket object. -/
def ServerSocket.AsyncAccept (socket : Nat) (callback : AcceptCallback)
    (w : ServerWorld) : ServerOutcome :=
  let (reply, w) := w.syscall kernel (SocketEvent.accept w.server.fSocket)
  let result := reply.ret
  let errno := reply.errno
  if result = -1 ∧ errno ≠ os.EAGAIN ∧ errno ≠ os.EWOULDBLOCK then
    call callback result w
  else if result ≥ 0 then
    let w := w.adopt socket result
    call callback 0 w
  else
    let w := { w with server := { w.server with fAcceptSocket := some socket } }
    let w := { w with server := { w.server with fAcceptCallback := callback } }
    ServerSocket._WaitForRead os kernel w

/-- Embedding of `this->Error()` in `ServerSocket::_HandleEvents`
(`BaseSocket::Error` on the descriptor of the server socket). -/
def ServerSocket.Error (w : ServerWorld) : Int × ServerWorld :=
  let (reply, w) := w.syscall kernel (SocketEvent.getsockopt w.server.fSocket)
  (BaseSocket.errorOf reply, w)

/-- Embedding of `ServerSocket::_HandleEvents`. -/
def ServerSocket._HandleEvents (events : Nat) (w : ServerWorld) : ServerOutcome :=
  if events &&& os.B_EVENT_ERROR ≠ 0 then
    let (error, w) := ServerSocket.Error kernel w
    call w.server.fAcceptCallback error w
  else if ¬ (events &&& os.B_EVENT_READ ≠ 0) then
    ServerOutcome.aborted w
  else
    let (reply, w) := w.syscall kernel (SocketEvent.accept w.server.fSocket)
    let result := reply.ret
    let errno := reply.errno
    if result = -1 ∧ errno ≠ os.EAGAIN ∧ errno ≠ os.EWOULDBLOCK then
      call w.server.fAcceptCallback result w
    else if result ≥ 0 then
      match w.server.fAcceptSocket with
      | none => ServerOutcome.aborted w
      | some socket =>
        let w := w.adopt socket result
        (call w.server.fAcceptCallback 0 w).andThen fun w =>
          let w := { w with server := { w.server with fAcceptSocket := none } }
          let w := { w with server := { w.server with fAcceptCallback := AcceptCallback.null } }
          ServerOutcome.returned w
    else
      ServerSocket._WaitForRead os kernel w

/-- One call made by a running accept callback on the server socket. -/
def ServerCall.run : ServerCall → ServerWorld → ServerOutcome
  | .AsyncAccept socket cb, w => ServerSocket.AsyncAccept os kernel call socket cb w

/-- The calls of a running accept callback, in order; an exception ends
them. -/
def runServerCalls : List ServerCall → ServerWorld → ServerOutcome
  | [], w => ServerOutcome.returned w
  | c :: cs, w => (c.run os kernel call w).andThen (runServerCalls cs)

end ServerSocketOps

/-- Embedding of `callback(result)` and `fAcceptCallback(result)`: an empty
`std::function` throws `std::bad_function_call`; otherwise the invocation is
observed and the calls of the callable take effect.  Callbacks invoked by
those calls run with one unit of fuel less; `ServerOutcome.exhausted` is
"fuel exhausted". -/
def AcceptCallback.call (os : OSHeaders) (kernel : Nat → SysResult) :
    Nat → AcceptCallback → Int → ServerWorld → ServerOutcome
  | _, .null, _, w => ServerOutcome.threw Exception.bad_function_call w
  | 0, .fn _ _, _, _ => ServerOutcome.exhausted
  | fuel + 1, .fn tag body, result, w =>
    runServerCalls os kernel (AcceptCallback.call os kernel fuel) body
      { w with trace := w.trace ++ [SocketEvent.callback tag result] }

/-- A `ServerSocket` as the constructor `ServerSocket(eventLoop, socket)`
leaves it, in a world where nothing has happened yet and every peer socket
object is unopened.  The constructor does not initialise the pointer
`fAcceptSocket`: the null pointer given to it here is one of the values it
may hold, and it is assigned by `AsyncAccept` before it is read. -/
def ServerSocket.new (eventLoop : EventLoop) (socket : Int) (callbackAddr : Nat) :
    ServerWorld :=
  { server :=
      { fSocket := socket
        fEventLoop := eventLoop
        fEventCallback := { addr := callbackAddr, body := [] }
        fAcceptSocket := none
        fAcceptCallback := AcceptCallback.null }
    peers := fun _ => -1
    calls := 0
    trace := [] }

/-! ## BaseSocket and ServerSocket: the remaining synchronous operations -/

/-- The address parameter of `Bind`: what `SockAddr()` points to and what
`Length()` returns. -/
structure AddressType where
  SockAddr : Nat
  Length : Nat

/-- Embedding of `BaseSocket::SetNonBlocking`: returns the status and the
world. -/
def BaseSocket.SetNonBlocking (kernel : Nat → SysResult) (nonBlocking : Bool)
    (w : BaseWorld) : Int × BaseWorld :=
  let option : Int := if nonBlocking then 1 else 0
  let (reply, w) := w.syscall kernel (SocketEvent.ioctl w.socket.fSocket option)
  let result := reply.ret
  if result ≠ 0 then
    (reply.errno, w)
  else
    (0, w)

/-- Embedding of `BaseSocket::Bind`: returns the status and the world. -/
def BaseSocket.Bind (kernel : Nat → SysResult) (address : AddressType) (w : BaseWorld) :
    Int × BaseWorld :=
  let (reply, w) := w.syscall kernel
    (SocketEvent.bind w.socket.fSocket address.SockAddr address.Length)
  let result := reply.ret
  if result = -1 then
    (reply.errno, w)
  else
    (0, w)

/-- Embedding of `ServerSocket::Listen`: returns the status and the world. -/
def ServerSocket.Listen (kernel : Nat → SysResult) (backlog : Int) (w : ServerWorld) :
    Int × ServerWorld :=
  let (reply, w) := w.syscall kernel (SocketEvent.listen w.server.fSocket backlog)
  let result := reply.ret
  if result ≠ 0 then
    (reply.errno, w)
  else
    (0, w)

/-! ## EventLoop: one iteration of the loop of `_DispatchTimers` -/

/-- The body of the `while` loop of `_DispatchTimers`, once: `none` when the
loop ends (the vector is empty, or `fTimers[0].expiration > current`),
otherwise the loop after `fTimers[0].function()`, `pop_heap` and `pop_back`. -/
def EventLoop.dispatchTimerOnce (current : Int) (L : EventLoop) : Option EventLoop :=
  match L.fTimers with
  | [] => none
  | t0 :: _ =>
    if t0.expiration > current then
      none
    else
      let L := L.fire t0
      some { L with fTimers := (pop_heap L.fTimers).dropLast }

/-! ## Status codes of `Errors.h` -/

/-- Status codes declared by `Errors.h`, which the sources below use by name
only (`B_OK` is above). -/
structure StatusCodes where
  B_BAD_ADDRESS : Int
  B_BAD_VALUE : Int
  B_NO_MEMORY : Int

/-- The values these codes have in the Haiku headers
(`B_GENERAL_ERROR_BASE = INT_MIN`, `B_OS_ERROR_BASE = INT_MIN + 0x1000`),
used to evaluate the model on concrete inputs. -/
def haikuStatus : StatusCodes where
  B_BAD_ADDRESS := -2147478783
  B_BAD_VALUE := -2147483643
  B_NO_MEMORY := -2147483648

/-! ## Kernel trim support (`fs_trim_support.h`)

`uint32` and `size_t` arithmetic is unsigned and wraps: every operation is
followed by the reduction modulo `2 ^ 32`, respectively `2 ^ w`, where `w` is
the width of `size_t` (a parameter: `32` or `64`).  `sizeof(fs_trim_data)`
comes from `Drivers.h`, which is not among the sources, and is a parameter
too. -/

/-- What the kernel services answer for the `buffer` argument of
`copy_trim_data_from_user`: `IS_USER_ADDRESS(buffer)`, the `uint32` stored at
the start of the buffer, whether `user_memcpy` of `n` bytes from the buffer
succeeds, and whether `malloc(n)` succeeds. -/
structure UserBuffer where
  isUserAddress : Bool
  count : Nat
  user_memcpy : Nat → Bool
  malloc : Nat → Bool

/-- The expression `(count - 1) * sizeof(uint64) * 2 + sizeof(fs_trim_data)`:
the subtraction is done in `uint32`, the product and the sum in `size_t`
(`w` bits). -/
def trimBytes (w sizeofTrimData count : Nat) : Nat :=
  ((((count % 2 ^ 32 + 2 ^ 32 - 1) % 2 ^ 32) * 8 % 2 ^ w) * 2 % 2 ^ w
    + sizeofTrimData) % 2 ^ w

/-- Embedding of `copy_trim_data_from_user(buffer, size, _trimData)`: the
status returned, and the number of bytes copied into `_trimData` when it is
assigned. -/
def copy_trim_data_from_user (st : StatusCodes) (w sizeofTrimData : Nat)
    (buffer : UserBuffer) (size : Nat) : Int × Option Nat :=
  if !buffer.isUserAddress then (st.B_BAD_ADDRESS, none)
  else if !buffer.user_memcpy 4 then (st.B_BAD_ADDRESS, none)
  else
    let bytes := trimBytes w sizeofTrimData buffer.count
    if bytes > size then (st.B_BAD_VALUE, none)
    else if !buffer.malloc bytes then (st.B_NO_MEMORY, none)
    else if !buffer.user_memcpy bytes then (st.B_BAD_ADDRESS, none)
    else (B_OK, some bytes)

/-! ## Text documents: the classes `TextDocument.cpp` builds on

`String.cpp`, `TextSpan.cpp`, `Paragraph.cpp` and `List.h` are not among the
sources.  The operations that `TextDocument.cpp` calls on them are modelled
by what their declarations and the API documentation say they do, on the
text they hold; the merging of neighbouring spans of equal style, which does
not change the text, is left out, and no allocation fails.  Character and
paragraph styles are tags.  `int32` quantities are integers and their sums
are exact: signed arithmetic has no defined wrap-around in C++. -/

/-- Modelled from the API, `BString` being absent from the sources: the
characters of the string.  The texts considered are made of single-byte
characters, for which byte offsets and character offsets coincide. -/
abbrev BString := List Char

/-- Modelled from the API: `BString::CountChars()`. -/
def BString.CountChars (s : BString) : Int := s.length

/-- Modelled from the API: `BString::FindFirst(char, int32 fromOffset)`, the
offset of the first occurrence of `c` at or after `fromOffset`, and `B_ERROR`
(`-1`) when there is none or when `fromOffset` is negative. -/
def BString.FindFirst (s : BString) (c : Char) (fromOffset : Int) : Int :=
  if fromOffset < 0 then -1
  else
    let rest := s.drop fromOffset.toNat
    let k := rest.indexOf c
    if k < rest.length then fromOffset + k else -1

/-- Modelled from the API: `BString::CopyCharsInto(into, fromCharOffset,
charCount)`, the value given to `into`. -/
def BString.CopyCharsInto (s : BString) (fromCharOffset charCount : Int) : BString :=
  (s.drop fromCharOffset.toNat).take charCount.toNat

/-- Modelled from its declaration, `TextSpan.cpp` being absent: a text with
one character style. -/
structure TextSpan where
  fText : BString
  fStyle : Nat
  deriving DecidableEq, Repr

/-- Modelled from its declaration: `TextSpan::CountChars()`. -/
def TextSpan.CountChars (span : TextSpan) : Int := BString.CountChars span.fText

/-- Modelled from its declaration: `TextSpan::SubSpan(start, count)`. -/
def TextSpan.SubSpan (span : TextSpan) (start count : Int) : TextSpan :=
  ⟨BString.CopyCharsInto span.fText start count, span.fStyle⟩

/-- Modelled from its declaration, `Paragraph.cpp` being absent: a paragraph
style and the list of the spans of the paragraph. -/
structure Paragraph where
  fStyle : Nat
  fTextSpans : List TextSpan
  deriving DecidableEq, Repr

/-- The constructor `Paragraph(const ParagraphStyle&)`: no span. -/
def Paragraph.new (style : Nat) : Paragraph := ⟨style, []⟩

/-- Modelled from its declaration: `Paragraph::Length()`, the sum of the
character counts of the spans. -/
def Paragraph.Length (p : Paragraph) : Int := (p.fTextSpans.map TextSpan.CountChars).sum

/-- Modelled from its declaration: `Paragraph::IsEmpty()`. -/
def Paragraph.IsEmpty (p : Paragraph) : Bool := p.fTextSpans.isEmpty

/-- Modelled from its declaration: `Paragraph::Append(span)`; the value
returned and the paragraph afterwards. -/
def Paragraph.Append (p : Paragraph) (span : TextSpan) : Bool × Paragraph :=
  (true, { p with fTextSpans := p.fTextSpans ++ [span] })

/-- Modelled from its declaration: `Paragraph::Prepend(span)`; the value
returned and the paragraph afterwards. -/
def Paragraph.Prepend (p : Paragraph) (span : TextSpan) : Bool × Paragraph :=
  (true, { p with fTextSpans := span :: p.fTextSpans })

/-- The spans of a paragraph after `newSpan` is inserted at `offset`: the
span that holds the offset is split there. -/
def Paragraph.insertSpan : List TextSpan → Int → TextSpan → List TextSpan
  | [], _, newSpan => [newSpan]
  | span :: rest, offset, newSpan =>
    if offset - span.CountChars < 0 then
      if offset ≤ 0 then newSpan :: span :: rest
      else span.SubSpan 0 offset :: newSpan
        :: span.SubSpan offset (span.CountChars - offset) :: rest
    else span :: Paragraph.insertSpan rest (offset - span.CountChars) newSpan

/-- Modelled from its declaration: `Paragraph::Insert(offset, span)`; the
value returned and the paragraph afterwards. -/
def Paragraph.Insert (p : Paragraph) (offset : Int) (span : TextSpan) : Bool × Paragraph :=
  (true, { p with fTextSpans := Paragraph.insertSpan p.fTextSpans offset span })

/-- Modelled from its declaration: `Paragraph::Text(start, length)`, the
characters of the paragraph from `start` on, at most `length` of them. -/
def Paragraph.Text (p : Paragraph) (start length : Int) : BString :=
  BString.CopyCharsInto (p.fTextSpans.flatMap TextSpan.fText) start length

/-- Modelled from `List.h`, which is absent: `List::Add(item, index)`,
`none` when it returns `false` (index out of range). -/
def List.Add {α : Type} (items : List α) (item : α) (index : Int) : Option (List α) :=
  if index < 0 ∨ index > items.length then none
  else some (items.take index.toNat ++ item :: items.drop index.toNat)

/-- Modelled from `List.h`: `List::Remove(index)`, which does nothing when
the index is out of range. -/
def List.Remove {α : Type} (items : List α) (index : Int) : List α :=
  if index < 0 ∨ index ≥ items.length then items else items.eraseIdx index.toNat

/-- Modelled from `List.h`: `List::Replace(index, item)`, `none` when it
returns `false` (index out of range). -/
def List.Replace {α : Type} (items : List α) (index : Int) (item : α) : Option (List α) :=
  if index < 0 ∨ index ≥ items.length then none else some (items.set index.toNat item)

/-! ## Text documents (`TextDocument.cpp`) -/

/-- The data members of `TextDocument` that the operations below use. -/
structure TextDocument where
  fParagraphs : List Paragraph
  fEmptyLastParagraph : Paragraph
  fDefaultCharacterStyle : Nat
  deriving DecidableEq, Repr

/-- The loop of `TextDocument::ParagraphIndexFor`, from index `i` on, over
the paragraphs that remain; the result is the value returned and the final
value of `paragraphOffset`. -/
def TextDocument.ParagraphIndexFor_loop (textOffset count : Int) :
    List Paragraph → Int → Int → Int → Int × Int
  | [], _, _, paragraphOffset => (-1, paragraphOffset)
  | paragraph :: rest, i, textLength, paragraphOffset =>
    let paragraphLength := paragraph.Length
    let textLength := textLength + paragraphLength
    if textLength > textOffset ∨ (i = count - 1 ∧ textLength = textOffset) then
      (i, paragraphOffset)
    else
      TextDocument.ParagraphIndexFor_loop textOffset count rest (i + 1) textLength
        (paragraphOffset + paragraphLength)

/-- Embedding of `TextDocument::ParagraphIndexFor(textOffset,
paragraphOffset)`: the index returned and the value left in
`paragraphOffset`. -/
def TextDocument.ParagraphIndexFor (doc : TextDocument) (textOffset : Int) : Int × Int :=
  TextDocument.ParagraphIndexFor_loop textOffset doc.fParagraphs.length doc.fParagraphs 0 0 0

/-- Embedding of `TextDocument::ParagraphAt(int32 index)`. -/
def TextDocument.ParagraphAt (doc : TextDocument) (index : Int) : Paragraph :=
  if index ≥ 0 ∧ index < doc.fParagraphs.length then
    doc.fParagraphs.getD index.toNat doc.fEmptyLastParagraph
  else doc.fEmptyLastParagraph

/-- Embedding of `TextDocument::Length()`. -/
def TextDocument.Length (doc : TextDocument) : Int :=
  doc.fParagraphs.foldl (fun textLength paragraph => textLength + paragraph.Length) 0

/-- The loop of `TextDocument::Text(start, length)` over the paragraphs that
remain, `text` being the string built so far. -/
def TextDocument.Text_loop : List Paragraph → Int → Int → BString → BString
  | [], _, _, text => text
  | paragraph :: rest, start, length, text =>
    let paragraphLength := paragraph.Length
    if paragraphLength = 0 then TextDocument.Text_loop rest start length text
    else if start > paragraphLength then
      TextDocument.Text_loop rest (start - paragraphLength) length text
    else
      let paragraphLength := paragraphLength - start
      let copyLength := min paragraphLength length
      let text := text ++ paragraph.Text start copyLength
      let length := length - copyLength
      if length = 0 then text else TextDocument.Text_loop rest 0 length text

/-- Embedding of `TextDocument::Text(int32 start, int32 length)`. -/
def TextDocument.TextRange (doc : TextDocument) (start length : Int) : BString :=
  TextDocument.Text_loop doc.fParagraphs (if start < 0 then 0 else start) length []

/-- Embedding of `TextDocument::Text()`. -/
def TextDocument.Text (doc : TextDocument) : BString :=
  doc.TextRange 0 doc.Length

/-- The first loop of `TextDocument::Insert`: the spans of the paragraph at
`index` are divided between `paragraph1` and `paragraph2` at `textOffset`. -/
def TextDocument.Insert_split :
    List TextSpan → Int → Paragraph → Paragraph → Paragraph × Paragraph
  | [], _, paragraph1, paragraph2 => (paragraph1, paragraph2)
  | span :: rest, textOffset, paragraph1, paragraph2 =>
    let spanLength := span.CountChars
    if textOffset ≥ spanLength then
      TextDocument.Insert_split rest (textOffset - spanLength)
        (paragraph1.Append span).2 paragraph2
    else if textOffset > 0 then
      TextDocument.Insert_split rest 0
        (paragraph1.Append (span.SubSpan 0 textOffset)).2
        (paragraph2.Append (span.SubSpan textOffset (spanLength - textOffset))).2
    else
      TextDocument.Insert_split rest textOffset paragraph1 (paragraph2.Append span).2

/-- The `while (chunkStart < length)` loop of `TextDocument::Insert`, with
one unit of fuel for each iteration.  The result is `none` when the fuel runs
out, and otherwise the status (`B_OK` when the loop ends, `B_NO_MEMORY` when
it returns early) with `fParagraphs`, `index`, `paragraph1` and `paragraph2`
at that point. -/
def TextDocument.Insert_chunks (st : StatusCodes) (text : BString)
    (characterStyle paragraphStyle : Nat) (length : Int) :
    Nat → List Paragraph → Int → Paragraph → Paragraph → Int →
      Option (Int × List Paragraph × Int × Paragraph × Paragraph)
  | 0, fParagraphs, index, paragraph1, paragraph2, chunkStart =>
    if chunkStart < length then none
    else some (B_OK, fParagraphs, index, paragraph1, paragraph2)
  | fuel + 1, fParagraphs, index, paragraph1, paragraph2, chunkStart =>
    if chunkStart < length then
      let chunkEnd := BString.FindFirst text '\n' chunkStart
      let foundLineBreak := decide (chunkEnd ≥ chunkStart)
      let chunkEnd := if foundLineBreak then chunkEnd + 1 else length
      let chunk := BString.CopyCharsInto text chunkStart (chunkEnd - chunkStart)
      let span : TextSpan := ⟨chunk, characterStyle⟩
      if foundLineBreak then
        match paragraph1.Append span with
        | (false, paragraph1) =>
          some (st.B_NO_MEMORY, fParagraphs, index, paragraph1, paragraph2)
        | (true, paragraph1) =>
          if paragraph1.Length > 0 then
            match List.Add fParagraphs paragraph1 index with
            | none => some (st.B_NO_MEMORY, fParagraphs, index, paragraph1, paragraph2)
            | some fParagraphs =>
              TextDocument.Insert_chunks st text characterStyle paragraphStyle length fuel
                fParagraphs (index + 1) (Paragraph.new paragraphStyle) paragraph2
                (chunkEnd + 1)
          else
            TextDocument.Insert_chunks st text characterStyle paragraphStyle length fuel
              fParagraphs index (Paragraph.new paragraphStyle) paragraph2 (chunkEnd + 1)
      else
        match paragraph2.Prepend span with
        | (false, paragraph2) =>
          some (st.B_NO_MEMORY, fParagraphs, index, paragraph1, paragraph2)
        | (true, paragraph2) =>
          TextDocument.Insert_chunks st text characterStyle paragraphStyle length fuel
            fParagraphs index paragraph1 paragraph2 (chunkEnd + 1)
    else some (B_OK, fParagraphs, index, paragraph1, paragraph2)

/-- Embedding of `TextDocument::Insert(textOffset, text, characterStyle,
paragraphStyle)`: the status returned and the document afterwards.  The
chunk loop advances `chunkStart` by at least one in each iteration, so it is
given as many units of fuel as `text` has characters; `none` would mean that
this fuel ran out. -/
def TextDocument.Insert (st : StatusCodes) (doc : TextDocument) (textOffset : Int)
    (text : BString) (characterStyle paragraphStyle : Nat) : Option (Int × TextDocument) :=
  let (index, paragraphOffset) := doc.ParagraphIndexFor textOffset
  if index < 0 then some (st.B_BAD_VALUE, doc)
  else
    let textOffset := textOffset - paragraphOffset
    let hasLineBreaks := decide (BString.FindFirst text '\n' 0 ≥ 0)
    if hasLineBreaks then
      let (paragraph1, paragraph2) :=
        TextDocument.Insert_split (doc.ParagraphAt index).fTextSpans textOffset
          (Paragraph.new (doc.ParagraphAt index).fStyle) (Paragraph.new paragraphStyle)
      let fParagraphs := List.Remove doc.fParagraphs index
      let length := BString.CountChars text
      match TextDocument.Insert_chunks st text characterStyle paragraphStyle length
          text.length fParagraphs index paragraph1 paragraph2 0 with
      | none => none
      | some (status, fParagraphs, index, paragraph1, paragraph2) =>
        if status ≠ B_OK then some (status, { doc with fParagraphs := fParagraphs })
        else
          let paragraph2 :=
            if paragraph2.IsEmpty then
              (paragraph2.Append
                ⟨[], (paragraph1.fTextSpans.getLast?.getD ⟨[], 0⟩).fStyle⟩).2
            else paragraph2
          match List.Add fParagraphs paragraph2 index with
          | none => some (st.B_NO_MEMORY, { doc with fParagraphs := fParagraphs })
          | some fParagraphs => some (B_OK, { doc with fParagraphs := fParagraphs })
    else
      let paragraph := (doc.ParagraphAt index).Insert textOffset ⟨text, characterStyle⟩
      match List.Replace doc.fParagraphs index paragraph.2 with
      | none => some (st.B_NO_MEMORY, doc)
      | some fParagraphs => some (B_OK, { doc with fParagraphs := fParagraphs })

/-! ## Observations and worlds named in the statements -/

/-- The observation of a fired timer. -/
def firedEvent (t : timer) : LoopEvent :=
  LoopEvent.fired t.function.tag t.expiration

/-- The observation of a dispatched event. -/
def dispatchedEvent (info : event_wait_info) : LoopEvent :=
  LoopEvent.event info.user_data.addr info.events

/-- Whether an observation is a deferred work item being run. -/
def LoopEvent.isWork : LoopEvent → Bool
  | .work _ => true
  | _ => false

/-- Whether a call is an `ExecuteAt`. -/
def LoopCall.isExecuteAt : LoopCall → Bool
  | .ExecuteAt _ _ => true
  | .ExecuteLater _ => false

/-- A callable that makes no `ExecuteAt` call. -/
def Function.enqueuesNoTimer (f : Function) : Prop :=
  ∀ c ∈ f.body, c.isExecuteAt = false

/-- The world after one kernel call `call` was made and recorded. -/
def SocketWorld.afterCall (w : SocketWorld) (call : SocketEvent) : SocketWorld :=
  { w with calls := w.calls + 1, trace := w.trace ++ [call] }

/-- The record of the `event_queue_select` that registers the socket of `w`
for `events`, one-shot. -/
def SocketWorld.selectEvent (os : OSHeaders) (w : SocketWorld) (events : Nat) :
    SocketEvent :=
  let info := EventLoop.selectInfo os w.socket.fSocket os.B_OBJECT_TYPE_FD events
    w.socket.fEventCallback true
  SocketEvent.select w.socket.fEventLoop.fEventQueue info.object info.type
    info.events info.user_data.addr

/-- The world in which the recv slot holds a request and `fWaitingRead` is
set. -/
def SocketWorld.storeRecv (w : SocketWorld) (buffer size : Nat) (flags : Int)
    (callback : IOCallback) : SocketWorld :=
  { w with socket := { w.socket with
      fRecvRequest := { buffer := buffer, size := size, flags := flags, callback := callback }
      fWaitingRead := true } }

/-- The world in which the connect callback is stored and `fWaitingConnect`
is set. -/
def SocketWorld.storeConnect (w : SocketWorld) (callback : IOCallback) : SocketWorld :=
  { w with socket := { w.socket with
      fConnectCallback := callback
      fWaitingConnect := true } }

/-- The world in which `fWaitingRead` is cleared (first statement of the
completing branch of `_HandleRecv`). -/
def SocketWorld.clearWaitingRead (w : SocketWorld) : SocketWorld :=
  { w with socket := { w.socket with fWaitingRead := false } }

/-- The world in which `fWaitingWrite` is cleared (first statement of the
completing branch of `_HandleSend`). -/
def SocketWorld.clearWaitingWrite (w : SocketWorld) : SocketWorld :=
  { w with socket := { w.socket with fWaitingWrite := false } }

/-- The world in which the callback of the recv slot is reset (last statement
of the completing branch of `_HandleRecv`). -/
def SocketWorld.resetRecvCallback (w : SocketWorld) : SocketWorld :=
  { w with socket := { w.socket with
      fRecvRequest := { w.socket.fRecvRequest with callback := IOCallback.null } } }

/-- The world in which the callback of the send slot is reset (last statement
of the completing branch of `_HandleSend`). -/
def SocketWorld.resetSendCallback (w : SocketWorld) : SocketWorld :=
  { w with socket := { w.socket with
      fSendRequest := { w.socket.fSendRequest with callback := IOCallback.null } } }

/-- The world in which the send slot holds a request and `fWaitingWrite` is
set. -/
def SocketWorld.storeSend (w : SocketWorld) (buffer size : Nat) (flags : Int)
    (callback : IOCallback) : SocketWorld :=
  { w with socket := { w.socket with
      fSendRequest := { buffer := buffer, size := size, flags := flags, callback := callback }
      fWaitingWrite := true } }

/-- The server world after one kernel call `call` was made and recorded. -/
def ServerWorld.afterCall (w : ServerWorld) (call : SocketEvent) : ServerWorld :=
  { w with calls := w.calls + 1, trace := w.trace ++ [call] }

/-- The record of the `event_queue_select` that registers the server socket
of `w` for `B_EVENT_READ`, one-shot. -/
def ServerWorld.selectEvent (os : OSHeaders) (w : ServerWorld) : SocketEvent :=
  let info := EventLoop.selectInfo os w.server.fSocket os.B_OBJECT_TYPE_FD os.B_EVENT_READ
    w.server.fEventCallback true
  SocketEvent.select w.server.fEventLoop.fEventQueue info.object info.type
    info.events info.user_data.addr

/-- The server world in which the pending-accept slot holds the peer socket
address and the callback. -/
def ServerWorld.storeAccept (w : ServerWorld) (socket : Nat) (callback : AcceptCallback) :
    ServerWorld :=
  { w with server := { w.server with
      fAcceptSocket := some socket
      fAcceptCallback := callback } }

/-- Whether an observation is the call of `event_queue_wait`. -/
def LoopEvent.isWait : LoopEvent → Bool
  | .wait _ _ _ _ => true
  | _ => false

/-- Whether an observation is the invocation of an event callback. -/
def LoopEvent.isEvent : LoopEvent → Bool
  | .event _ _ => true
  | _ => false

/-- The status `_WaitForObject` derives from what `event_queue_select`
returned (its result and the `events` field it left), as the three branches
of the source spell it. -/
def EventLoop.selectStatus (os : OSHeaders) (reply : Int × Nat) : Int :=
  if reply.1 = os.B_ERROR then reply.2 else if reply.1 ≠ B_OK then reply.1 else B_OK

/-- The registration that the claims expect `WaitFor*` to hand to
`event_queue_select`: object `id`, type `tag`, the mask with
`B_EVENT_SELECT` and, when `oneShot`, `B_EVENT_ONE_SHOT`, and the address of
the callback. -/
def EventLoop.expectedInfo (os : OSHeaders) (id : Int) (tag : Nat) (mask : Int)
    (callback : EventCallback) (oneShot : Bool) : event_wait_info :=
  { object := id
    type := tag
    events := mask.toNat ||| os.B_EVENT_SELECT ||| (if oneShot then os.B_EVENT_ONE_SHOT else 0)
    user_data := callback }

/-- The binary min-heap property on expiration, in the words of the claim:
for every index `i > 0` of the vector,
`fTimers[(i-1)/2].expiration <= fTimers[i].expiration`. -/
def timersMinHeap (fTimers : List timer) : Bool :=
  (List.range fTimers.length).all fun i =>
    i = 0 || match fTimers[(i - 1) / 2]?, fTimers[i]? with
      | some parent, some child => decide (parent.expiration ≤ child.expiration)
      | _, _ => true

/-- The timers of a loop, as pairs of the name of the function and the
expiration, in vector order. -/
def EventLoop.timerTags (L : EventLoop) : List (Nat × Int) :=
  L.fTimers.map (fun t => (t.function.tag, t.expiration))

/-- The world after `_HandleConnect` completed a connect whose callback,
named `tag`, makes no call: `fWaitingConnect` is cleared, the invocation
with `0` is recorded and the stored callback is reset. -/
def SocketWorld.connectCompleted (w : SocketWorld) (tag : Nat) : SocketWorld :=
  { w with
    socket := { w.socket with fWaitingConnect := false, fConnectCallback := IOCallback.null }
    trace := w.trace ++ [SocketEvent.callback tag 0] }

/-- Whether a call on a server socket stopped the program. -/
def ServerOutcome.isAborted : ServerOutcome → Bool
  | .aborted _ => true
  | _ => false

/-- The record of the `recv` that `_HandleRecv` makes for the request stored
in the recv slot of `w`. -/
def SocketWorld.recvEvent (w : SocketWorld) : SocketEvent :=
  SocketEvent.recv w.socket.fSocket w.socket.fRecvRequest.buffer
    w.socket.fRecvRequest.size w.socket.fRecvRequest.flags

/-- The descriptors of the peer socket objects that an outcome leaves, if
any. -/
def ServerOutcome.peers? (o : ServerOutcome) : Option (Nat → Int) :=
  o.world?.map (fun w => w.peers)

/-- The exact value of `16 * (count - 1) + sizeof(fs_trim_data)`, computed
in the integers. -/
def trimBytesExact (sizeofTrimData count : Nat) : Int :=
  16 * ((count : Int) - 1) + sizeofTrimData

/-- The sum of the lengths of the paragraphs of the document before index
`i`. -/
def TextDocument.lengthBefore (doc : TextDocument) (i : Int) : Int :=
  ((doc.fParagraphs.take i.toNat).map Paragraph.Length).sum

/-- The world after the READ part of a delivery whose `recv` would block:
the `recv` and the READ registration are recorded, and nothing else
changes. -/
def SocketWorld.reRegistered (os : OSHeaders) (w : SocketWorld) : SocketWorld :=
  (w.afterCall w.recvEvent).afterCall (w.selectEvent os os.B_EVENT_READ)

/-! ## Sample inputs -/

/-- Sample callables: `sampleFn n` does nothing but be observed under the
name `n`. -/
def sampleFn (n : Nat) : Function := Function.mk n []

/-- A sample array of delivered events: entry `i` carries the callback at
address `100 + i` and the event mask `i + 1`. -/
def sampleInfos (i : Nat) : event_wait_info :=
  { object := 7, type := 0, events := i + 1, user_data := { addr := 100 + i, body := [] } }

/-- A sample loop: two deferred work items (the first one enqueues a timer
that is already due), and one timer that is due at time `40`. -/
def sampleLoop : EventLoop :=
  (((EventLoop.new 3).ExecuteLater
      (Function.mk 1 [LoopCall.ExecuteAt (sampleFn 11) 20])).ExecuteLater
      (sampleFn 2)).ExecuteAt (sampleFn 12) 40

/-- The sample loop after one `RunOnce` at time `100` that delivers two
events. -/
def sampleLoopAfter : EventLoop :=
  ((sampleLoop.RunOnce haiku 5 100 2 sampleInfos).map Prod.snd).getD sampleLoop

/-- The loop used to show what the timer heap does: `ExecuteAt(f, 50)` then
`ExecuteAt(g, 300)`, with `f` named `1` and `g` named `2`. -/
def twoTimers : EventLoop :=
  ((EventLoop.new 3).ExecuteAt (sampleFn 1) 50).ExecuteAt (sampleFn 2) 300

/-- The loop of the timer-ordering scenario with `now = 1000`: timers
registered at `now + 100`, `now + 50`, `now + 200`, named by their offsets. -/
def threeTimers : EventLoop :=
  (((EventLoop.new 3).ExecuteAt (sampleFn 100) 1100).ExecuteAt
      (sampleFn 50) 1050).ExecuteAt (sampleFn 200) 1200

/-- The functions of the sample sequence of `ExecuteLater` calls. -/
def sampleWork : List Function := [sampleFn 21, sampleFn 22, sampleFn 23]

/-- The sample loop after the sample `ExecuteLater` calls and one `RunOnce`
at time `100` that delivers one event. -/
def sampleWorkAfter : EventLoop :=
  (((sampleWork.foldl (fun L f => L.ExecuteLater f) sampleLoop).RunOnce
      haiku 5 100 1 sampleInfos).map Prod.snd).getD sampleLoop

/-- The loop of the work-during-dispatch scenario: one queued work item,
named `1`, that calls `ExecuteLater(h)` with `h` named `2`. -/
def reentrantWork : EventLoop :=
  (EventLoop.new 3).ExecuteLater
    (Function.mk 1 [LoopCall.ExecuteLater (sampleFn 2)])

/-- A sample socket: descriptor `5`, on the loop with queue `3`, event
callback at address `900`; nothing is pending. -/
def sampleSocket : SocketWorld := StreamSocket.new (EventLoop.new 3) 5 900

/-- A sample kernel in which every call returns `3`. -/
def kernelReturns3 : Nat → SysResult := fun _ => { ret := 3, errno := 0 }

/-- A sample kernel in which every call returns `0`. -/
def kernelReturns0 : Nat → SysResult := fun _ => { ret := 0, errno := 0 }

/-- A sample kernel in which every call fails with the error `-2147454964`. -/
def kernelFails : Nat → SysResult := fun _ => { ret := -1, errno := -2147454964 }

/-- A sample kernel in which the first call fails with `errno` and every
later call returns `0`. -/
def kernelFailsOnce (errno : Int) : Nat → SysResult := fun k =>
  if k = 0 then { ret := -1, errno := errno } else { ret := 0, errno := 0 }

/-- A sample socket with a pending recv (callback `1`, 10 bytes into the
buffer at `500`) and a pending send (callback `2`, 8 bytes from the buffer at
`600`). -/
def pendingSocket : SocketWorld :=
  { sampleSocket with socket := { sampleSocket.socket with
      fRecvRequest := { buffer := 500, size := 10, flags := 0, callback := IOCallback.fn 1 [] }
      fSendRequest := { buffer := 600, size := 8, flags := 0, callback := IOCallback.fn 2 [] }
      fWaitingRead := true
      fWaitingWrite := true } }

/-- The kernel of the resubmission scenario: the first `recv` would block and
the registration is accepted; the `recv` of the first READ delivery returns 3
bytes; the `recv` of the `AsyncRecv` made by the completion callback would
block and the registration is accepted; the `recv` of the second READ
delivery returns 5 bytes. -/
def resubmitKernel : Nat → SysResult := fun k =>
  match k with
  | 0 => { ret := -1, errno := haiku.EAGAIN }
  | 1 => { ret := 0, errno := 0 }
  | 2 => { ret := 3, errno := 0 }
  | 3 => { ret := -1, errno := haiku.EAGAIN }
  | 4 => { ret := 0, errno := 0 }
  | _ => { ret := 5, errno := 0 }

/-- The callback of the resubmission scenario, named `1`: on completion it
submits `AsyncRecv(500, 10, 0, cb2)` with `cb2` named `2`. -/
def resubmitCallback : IOCallback :=
  IOCallback.fn 1 [SocketCall.AsyncRecv 500 10 0 (IOCallback.fn 2 [])]

/-- The resubmission scenario up to and including the first READ delivery:
`AsyncRecv(500, 10, 0, cb1)` on the sample socket, then `_HandleEvents(READ)`. -/
def resubmitFirstDelivery : Outcome :=
  (StreamSocket.AsyncRecv haiku resubmitKernel (IOCallback.call haiku resubmitKernel 2)
      500 10 0 resubmitCallback sampleSocket).andThen
    (StreamSocket._HandleEvents haiku resubmitKernel
      (IOCallback.call haiku resubmitKernel 2) haiku.B_EVENT_READ)

/-- The resubmission scenario with the second READ delivery, the one that
answers the registration armed by the `AsyncRecv` of the callback. -/
def resubmitSecondDelivery : Outcome :=
  resubmitFirstDelivery.andThen
    (StreamSocket._HandleEvents haiku resubmitKernel
      (IOCallback.call haiku resubmitKernel 2) haiku.B_EVENT_READ)

/-- The kernel of the refused-connect scenario: `connect` fails with
`EINPROGRESS`, the registration is accepted, and from then on the pending
socket-level error is `-2147454953`: a `getsockopt` of `SO_ERROR` would
return `0` and store that error. -/
def refusedKernel : Nat → SysResult := fun k =>
  match k with
  | 0 => { ret := -1, errno := haiku.EINPROGRESS }
  | 1 => { ret := 0, errno := 0 }
  | _ => { ret := 0, errno := 0, error := -2147454953 }

/-- The refused-connect scenario: `AsyncConnect(80, cb)` with `cb` named `1`
on the sample socket, then the delivery of write-readiness. -/
def refusedConnect : Outcome :=
  (StreamSocket.AsyncConnect haiku refusedKernel (IOCallback.call haiku refusedKernel 1)
      80 (IOCallback.fn 1 []) sampleSocket).andThen
    (StreamSocket._HandleEvents haiku refusedKernel
      (IOCallback.call haiku refusedKernel 1) haiku.B_EVENT_WRITE)

/-- The kernel of the pending-send scenario: the `recv` and the `send` of the
submissions would block and their registrations are accepted; the `send`
made on write-readiness returns `10`. -/
def pendingSendKernel : Nat → SysResult := fun k =>
  match k with
  | 0 => { ret := -1, errno := haiku.EAGAIN }
  | 1 => { ret := 0, errno := 0 }
  | 2 => { ret := -1, errno := haiku.EAGAIN }
  | 3 => { ret := 0, errno := 0 }
  | _ => { ret := 10, errno := 0 }

/-- The pending-send scenario: `AsyncRecv(500, 10, 0, cb1)`, then
`AsyncSend(600, 8, 0, cb2)`, then the delivery of write-readiness. -/
def pendingSend : Outcome :=
  ((StreamSocket.AsyncRecv haiku pendingSendKernel (IOCallback.call haiku pendingSendKernel 1)
      500 10 0 (IOCallback.fn 1 []) sampleSocket).andThen
    (StreamSocket.AsyncSend haiku pendingSendKernel (IOCallback.call haiku pendingSendKernel 1)
      600 8 0 (IOCallback.fn 2 []))).andThen
    (StreamSocket._HandleEvents haiku pendingSendKernel
      (IOCallback.call haiku pendingSendKernel 1) haiku.B_EVENT_WRITE)

/-- The kernel of the close scenario: `socket` returns the descriptor `5`
and every `close` returns `0`. -/
def closeKernel : Nat → SysResult := fun k =>
  match k with
  | 0 => { ret := 5, errno := 0 }
  | _ => { ret := 0, errno := 0 }

/-- The close scenario: a socket opened by `Open`, then closed by `Close()`. -/
def closedSocket : BaseWorld :=
  (BaseSocket.Close closeKernel
    (BaseSocket.Open closeKernel { Family := 2, SocketType := 1, Protocol := 0 }
      BaseSocket.new).2).2

/-- A sample server socket: listening descriptor `5`, on the loop with queue
`3`, event callback at address `900`; nothing is pending, and the peer
socket objects are unopened. -/
def sampleServer : ServerWorld := ServerSocket.new (EventLoop.new 3) 5 900

/-- A sample kernel in which every call returns `9`. -/
def kernelReturns9 : Nat → SysResult := fun _ => { ret := 9, errno := 0 }

/-- The kernel of the failed-accept scenario: the first `accept` would
block, the registration is accepted, and the `accept` made on read-readiness
fails with the error `-2147454964`. -/
def failedAcceptKernel : Nat → SysResult := fun k =>
  match k with
  | 0 => { ret := -1, errno := haiku.EAGAIN }
  | 1 => { ret := 0, errno := 0 }
  | _ => { ret := -1, errno := -2147454964 }

/-- The failed-accept scenario on the readiness path: `AsyncAccept(s, cb)`
with `s` at address `700` and `cb` named `1`, then the delivery of
read-readiness. -/
def failedAccept : ServerOutcome :=
  (ServerSocket.AsyncAccept haiku failedAcceptKernel
      (AcceptCallback.call haiku failedAcceptKernel 1) 700 (AcceptCallback.fn 1 [])
      sampleServer).andThen
    (ServerSocket._HandleEvents haiku failedAcceptKernel
      (AcceptCallback.call haiku failedAcceptKernel 1) haiku.B_EVENT_READ)

/-- A sample server socket with a pending accept: peer socket at address
`700`, callback named `1`. -/
def pendingServer : ServerWorld := sampleServer.storeAccept 700 (AcceptCallback.fn 1 [])

/-- A sample event callback object, at address `900`. -/
def sampleCallback : EventCallback := { addr := 900, body := [] }

/-- A sample `event_queue_select` that fails with the sentinel `B_ERROR` and
leaves in the `events` field the events it was given. -/
def selectEchoes : Int → event_wait_info → Int × Nat :=
  fun _ info => (haiku.B_ERROR, info.events)

/-- A sample `event_queue_select` that fails with the sentinel `B_ERROR` and
leaves `0` in the `events` field. -/
def selectFailsWithZero : Int → event_wait_info → Int × Nat :=
  fun _ _ => (haiku.B_ERROR, 0)

/-- A sample `event_queue_select` that returns `B_OK`. -/
def selectSucceeds : Int → event_wait_info → Int × Nat :=
  fun _ info => (B_OK, info.events)

/-- The sample loop after one `RunOnce` at time `100` whose wait fails with
`-5`. -/
def sampleLoopWaitFailed : EventLoop :=
  ((sampleLoop.RunOnce haiku 5 100 (-5) sampleInfos).map Prod.snd).getD sampleLoop

/-- A sample unopened socket object. -/
def sampleBase : BaseWorld := BaseSocket.new

/-- A sample address. -/
def sampleAddress : AddressType := { SockAddr := 4000, Length := 16 }

/-- A sample protocol value: family `2`, type `1`, protocol `0`. -/
def sampleProtocol : SocketProtocol := { Family := 2, SocketType := 1, Protocol := 0 }

/-- The timer function of the displacement scenario, named `1`: when fired it
calls `ExecuteAt(h, 300)` with `h` named `2`. -/
def enqueuesLater : Function :=
  Function.mk 1 [LoopCall.ExecuteAt (sampleFn 2) 300]

/-- The loop of the displacement scenario, with the trace `tr`: one
registered timer, at `50`, whose function is `enqueuesLater`. -/
def displacedLoop (tr : List LoopEvent) : EventLoop :=
  { fWorkQueue := [], fTimers := [{ expiration := 50, function := enqueuesLater }],
    fEventQueue := 3, trace := tr }

/-- The loop of the expired-timer scenario: one registered timer, at `50`,
named `1`, whose function calls `ExecuteAt(h, 40)` with `h` named `2`. -/
def enqueuesExpired : EventLoop :=
  (EventLoop.new 3).ExecuteAt (Function.mk 1 [LoopCall.ExecuteAt (sampleFn 2) 40]) 50

/-- The kernel of the connect-and-send scenario: `connect` fails with
`EINPROGRESS`, the `send` of `AsyncSend` would block, both registrations are
accepted, and the `send` made on write-readiness returns `8`. -/
def bothPendingKernel : Nat → SysResult := fun k =>
  match k with
  | 0 => { ret := -1, errno := haiku.EINPROGRESS }
  | 1 => { ret := 0, errno := 0 }
  | 2 => { ret := -1, errno := haiku.EAGAIN }
  | 3 => { ret := 0, errno := 0 }
  | _ => { ret := 8, errno := 0 }

/-- The connect-and-send scenario: `AsyncConnect(80, cb1)`, then
`AsyncSend(600, 8, 0, cb2)`, both left pending. -/
def bothPending : Outcome :=
  (StreamSocket.AsyncConnect haiku bothPendingKernel
      (IOCallback.call haiku bothPendingKernel 1) 80 (IOCallback.fn 1 []) sampleSocket).andThen
    (StreamSocket.AsyncSend haiku bothPendingKernel
      (IOCallback.call haiku bothPendingKernel 1) 600 8 0 (IOCallback.fn 2 []))

/-- The connect-and-send scenario followed by the delivery of
write-readiness. -/
def bothPendingWritable : Outcome :=
  bothPending.andThen
    (StreamSocket._HandleEvents haiku bothPendingKernel
      (IOCallback.call haiku bothPendingKernel 1) haiku.B_EVENT_WRITE)

/-- A sample kernel in which the socket-level error is pending: every call
returns `0`, and a `getsockopt` of `SO_ERROR` stores the error
`-2147454953`. -/
def kernelWithSocketError : Nat → SysResult :=
  fun _ => { ret := 0, errno := 0, error := -2147454953 }

/-- A sample kernel in which the first call (a `recv`) returns `3` and the
socket-level error is pending: a later `getsockopt` of `SO_ERROR` returns `0`
and stores the error `-2147454953`. -/
def kernelRecvWithSocketError : Nat → SysResult := fun k =>
  match k with
  | 0 => { ret := 3, errno := 0 }
  | _ => { ret := 0, errno := 0, error := -2147454953 }

/-- A sample world in which the sample socket has a connect and a send
pending: connect callback named `1`, send of 8 bytes from the buffer at
`600` with the callback named `2`. -/
def connectAndSendPending : SocketWorld :=
  (sampleSocket.storeConnect (IOCallback.fn 1 [])).storeSend 600 8 0 (IOCallback.fn 2 [])

/-- The kernel of the spurious-readiness scenario: the `recv` of the first
delivery would block, the registration is accepted, and the `recv` of the
second delivery returns `3`. -/
def spuriousKernel : Nat → SysResult := fun k =>
  match k with
  | 0 => { ret := -1, errno := haiku.EAGAIN }
  | 1 => { ret := 0, errno := 0 }
  | _ => { ret := 3, errno := 0 }

/-- The callback of the send resubmission scenario, named `1`: on completion
it submits `AsyncSend(600, 8, 0, cb2)` with `cb2` named `2`. -/
def resubmitSendCallback : IOCallback :=
  IOCallback.fn 1 [SocketCall.AsyncSend 600 8 0 (IOCallback.fn 2 [])]

/-- The send resubmission scenario: `AsyncSend(600, 8, 0, cb1)` would block;
on write-readiness the `send` returns `3` and `cb1` submits the next
`AsyncSend`, which would block. -/
def resubmitSend : Outcome :=
  (StreamSocket.AsyncSend haiku resubmitKernel (IOCallback.call haiku resubmitKernel 2)
      600 8 0 resubmitSendCallback sampleSocket).andThen
    (StreamSocket._HandleEvents haiku resubmitKernel
      (IOCallback.call haiku resubmitKernel 2) haiku.B_EVENT_WRITE)

/-- The kernel of the connect resubmission scenario: every `connect` fails
with `EINPROGRESS` and every registration is accepted. -/
def resubmitConnectKernel : Nat → SysResult := fun k =>
  match k with
  | 0 => { ret := -1, errno := haiku.EINPROGRESS }
  | 1 => { ret := 0, errno := 0 }
  | 2 => { ret := -1, errno := haiku.EINPROGRESS }
  | _ => { ret := 0, errno := 0 }

/-- The callback of the connect resubmission scenario, named `1`: on
completion it submits `AsyncConnect(81, cb2)` with `cb2` named `2`. -/
def resubmitConnectCallback : IOCallback :=
  IOCallback.fn 1 [SocketCall.AsyncConnect 81 (IOCallback.fn 2 [])]

/-- The connect resubmission scenario: `AsyncConnect(80, cb1)` is left
pending; on write-readiness `cb1` submits the next `AsyncConnect`, which is
left pending. -/
def resubmitConnect : Outcome :=
  (StreamSocket.AsyncConnect haiku resubmitConnectKernel
      (IOCallback.call haiku resubmitConnectKernel 2) 80 resubmitConnectCallback
      sampleSocket).andThen
    (StreamSocket._HandleEvents haiku resubmitConnectKernel
      (IOCallback.call haiku resubmitConnectKernel 2) haiku.B_EVENT_WRITE)

/-- The kernel of the accept loop scenario: the first `accept` would block
and the registration is accepted; the `accept` of the first READ delivery
returns the descriptor `9`; the `accept` of the `AsyncAccept` made by the
callback would block and the registration is accepted; the `accept` of the
second READ delivery returns the descriptor `10`. -/
def acceptLoopKernel : Nat → SysResult := fun k =>
  match k with
  | 0 => { ret := -1, errno := haiku.EAGAIN }
  | 1 => { ret := 0, errno := 0 }
  | 2 => { ret := 9, errno := 0 }
  | 3 => { ret := -1, errno := haiku.EAGAIN }
  | 4 => { ret := 0, errno := 0 }
  | _ => { ret := 10, errno := 0 }

/-- The callback of the accept loop scenario, named `1`: on completion it
calls `AsyncAccept(s2, cb2)` with `s2` at address `701` and `cb2` named `2`. -/
def acceptLoopCallback : AcceptCallback :=
  AcceptCallback.fn 1 [ServerCall.AsyncAccept 701 (AcceptCallback.fn 2 [])]

/-- The accept loop scenario up to and including the first READ delivery:
`AsyncAccept(s1, cb1)` with `s1` at address `700`, then
`_HandleEvents(READ)`. -/
def acceptLoopFirstDelivery : ServerOutcome :=
  (ServerSocket.AsyncAccept haiku acceptLoopKernel
      (AcceptCallback.call haiku acceptLoopKernel 2) 700 acceptLoopCallback
      sampleServer).andThen
    (ServerSocket._HandleEvents haiku acceptLoopKernel
      (AcceptCallback.call haiku acceptLoopKernel 2) haiku.B_EVENT_READ)

/-- The accept loop scenario with the second READ delivery, the one that
answers the registration armed by the `AsyncAccept` of the callback. -/
def acceptLoopSecondDelivery : ServerOutcome :=
  acceptLoopFirstDelivery.andThen
    (ServerSocket._HandleEvents haiku acceptLoopKernel
      (AcceptCallback.call haiku acceptLoopKernel 2) haiku.B_EVENT_READ)

/-- A user buffer that starts with the range count `count`, for which every
kernel service succeeds. -/
def sampleTrimBuffer (count : Nat) : UserBuffer where
  isUserAddress := true
  count := count
  user_memcpy := fun _ => true
  malloc := fun _ => true

/-- A document of one paragraph, `xy`, in one span. -/
def sampleDocument : TextDocument where
  fParagraphs := [⟨0, [⟨['x', 'y'], 0⟩]⟩]
  fEmptyLastParagraph := ⟨0, []⟩
  fDefaultCharacterStyle := 0

/-- A document of two paragraphs, `ab` followed by a line break, and `cde`. -/
def twoParagraphs : TextDocument where
  fParagraphs := [⟨0, [⟨['a', 'b', '\n'], 0⟩]⟩, ⟨0, [⟨['c'], 0⟩, ⟨['d', 'e'], 1⟩]⟩]
  fEmptyLastParagraph := ⟨0, []⟩
  fDefaultCharacterStyle := 0

/-! ## EventLoop: what each phase of `RunOnce` adds to the trace -/

/-- A call made by a callable changes neither the trace nor the queue handle. -/
theorem LoopCall.run_trace (c : LoopCall) (L : EventLoop) :
    (c.run L).trace = L.trace ∧ (c.run L).fEventQueue = L.fEventQueue := by
  cases c <;> exact ⟨rfl, rfl⟩

/-- The calls of a callable change neither the trace nor the queue handle. -/
theorem runCalls_trace (body : List LoopCall) (L : EventLoop) :
    (runCalls body L).trace = L.trace ∧ (runCalls body L).fEventQueue = L.fEventQueue := by
  induction body generalizing L with
  | nil => exact ⟨rfl, rfl⟩
  | cons c cs ih =>
    have h1 := ih (c.run L)
    have h2 := c.run_trace L
    simp only [runCalls, List.foldl_cons] at h1 ⊢
    exact ⟨h1.1.trans h2.1, h1.2.trans h2.2⟩

/-- Running work items one after the other records them in order. -/
theorem foldl_runWork_trace (ws : List Function) (L : EventLoop) :
    (ws.foldl EventLoop.runWork L).trace
        = L.trace ++ ws.map (fun f => LoopEvent.work f.tag)
      ∧ (ws.foldl EventLoop.runWork L).fEventQueue = L.fEventQueue := by
  induction ws generalizing L with
  | nil => simp
  | cons w ws ih =>
    have h1 := ih (L.runWork w)
    have h2 := runCalls_trace w.body
      { L with trace := L.trace ++ [LoopEvent.work w.tag] }
    simp only [List.foldl_cons, List.map_cons]
    refine ⟨?_, ?_⟩
    · rw [h1.1]
      simp only [EventLoop.runWork]
      rw [h2.1]
      simp
    · rw [h1.2]
      simp only [EventLoop.runWork]
      rw [h2.2]

/-- The function `_DispatchWork` records the queued work items in queue order and leaves the
queue empty. -/
theorem DispatchWork_trace (L : EventLoop) :
    L._DispatchWork.trace = L.trace ++ L.fWorkQueue.map (fun f => LoopEvent.work f.tag)
      ∧ L._DispatchWork.fEventQueue = L.fEventQueue
      ∧ L._DispatchWork.fWorkQueue = [] := by
  have h := foldl_runWork_trace L.fWorkQueue L
  exact ⟨h.1, h.2, rfl⟩

/-- Firing a timer records exactly that firing. -/
theorem EventLoop.fire_trace (L : EventLoop) (t : timer) :
    (L.fire t).trace = L.trace ++ [firedEvent t]
      ∧ (L.fire t).fEventQueue = L.fEventQueue := by
  have h := runCalls_trace t.function.body
    { L with trace := L.trace ++ [LoopEvent.fired t.function.tag t.expiration] }
  exact ⟨h.1, h.2⟩

/-- The function `_DispatchTimers` records timer firings only, all of timers that have
expired. -/
theorem DispatchTimers_trace (current : Int) :
    ∀ (fuel : Nat) (L L' : EventLoop), L._DispatchTimers fuel current = some L' →
      ∃ ts : List timer, L'.trace = L.trace ++ ts.map firedEvent
        ∧ (∀ t ∈ ts, t.expiration ≤ current)
        ∧ L'.fEventQueue = L.fEventQueue := by
  intro fuel
  induction fuel with
  | zero =>
    intro L L' h
    unfold EventLoop._DispatchTimers at h
    split at h
    · cases h; exact ⟨[], by simp, by simp, rfl⟩
    · split at h
      · cases h; exact ⟨[], by simp, by simp, rfl⟩
      · cases h
  | succ n ih =>
    intro L L' h
    unfold EventLoop._DispatchTimers at h
    split at h
    · cases h; exact ⟨[], by simp, by simp, rfl⟩
    · rename_i t0 rest hT
      split at h
      · cases h; exact ⟨[], by simp, by simp, rfl⟩
      · rename_i hle
        obtain ⟨ts, h1, h2, h3⟩ := ih _ _ h
        have hf := L.fire_trace t0
        refine ⟨t0 :: ts, ?_, ?_, ?_⟩
        · rw [h1]; simp only [List.map_cons]; rw [hf.1]; simp
        · intro t ht
          rcases List.mem_cons.mp ht with rfl | ht
          · exact not_lt.mp hle
          · exact h2 t ht
        · rw [h3]; exact hf.2

/-- Dispatching an event records exactly that callback invocation. -/
theorem EventLoop.dispatch_trace (L : EventLoop) (info : event_wait_info) :
    (L.dispatch info).trace = L.trace ++ [dispatchedEvent info] := by
  have h := runCalls_trace info.user_data.body
    { L with trace := L.trace ++ [LoopEvent.event info.user_data.addr info.events] }
  exact h.1

/-- Dispatching events one after the other records them in order. -/
theorem foldl_dispatch_trace (infos : Nat → event_wait_info) (is : List Nat)
    (L : EventLoop) :
    (is.foldl (fun L i => L.dispatch (infos i)) L).trace
      = L.trace ++ is.map (fun i => dispatchedEvent (infos i)) := by
  induction is generalizing L with
  | nil => simp
  | cons i is ih =>
    simp only [List.foldl_cons, List.map_cons]
    rw [ih, EventLoop.dispatch_trace]
    simp

/-- A sequence of `ExecuteLater` calls appends the functions in call order. -/
theorem foldl_ExecuteLater (fs : List Function) (L : EventLoop) :
    fs.foldl (fun L f => L.ExecuteLater f) L
      = { L with fWorkQueue := L.fWorkQueue ++ fs } := by
  induction fs generalizing L with
  | nil => simp
  | cons f fs ih =>
    rw [List.foldl_cons, ih]
    simp [EventLoop.ExecuteLater]

/-- Timer firings are not work items. -/
theorem firedEvent_not_work (ts : List timer) :
    (ts.map firedEvent).filter LoopEvent.isWork = [] := by
  induction ts with
  | nil => rfl
  | cons t ts ih => simp [firedEvent, LoopEvent.isWork]

/-- Event callback invocations are not work items. -/
theorem dispatchedEvent_not_work (infos : Nat → event_wait_info) (is : List Nat) :
    (is.map (fun i => dispatchedEvent (infos i))).filter LoopEvent.isWork = [] := by
  induction is with
  | nil => rfl
  | cons i is ih => simp [dispatchedEvent, LoopEvent.isWork]

/-- Work item observations are work items. -/
theorem workEvent_all_work (fs : List Function) :
    (fs.map (fun f => LoopEvent.work f.tag)).filter LoopEvent.isWork
      = fs.map (fun f => LoopEvent.work f.tag) := by
  induction fs with
  | nil => rfl
  | cons f fs ih => simp [LoopEvent.isWork]

/-! ## The heap algorithms move elements, they neither add nor drop any -/

/-- The function `__push_heap` keeps the length of the range. -/
theorem push_heap_loop_length (fuel : Nat) :
    ∀ (first : List timer) (holeIndex topIndex : Nat) (value : timer),
      (__push_heap fuel first holeIndex topIndex value).length = first.length := by
  induction fuel with
  | zero => intro first h t v; simp [__push_heap]
  | succ n ih =>
    intro first h t v
    unfold __push_heap
    simp only
    split
    · split
      · rw [ih]; simp
      · simp
    · simp

/-- The function `__push_heap` stores elements of the range or `value`. -/
theorem push_heap_loop_mem (fuel : Nat) :
    ∀ (first : List timer) (holeIndex topIndex : Nat) (value x : timer),
      x ∈ __push_heap fuel first holeIndex topIndex value → x ∈ first ∨ x = value := by
  induction fuel with
  | zero =>
    intro first h t v x hx
    exact List.mem_or_eq_of_mem_set hx
  | succ n ih =>
    intro first h t v x hx
    unfold __push_heap at hx
    simp only at hx
    split at hx
    · rename_i p hp
      split at hx
      · rcases ih _ _ _ _ _ hx with h1 | h1
        · rcases List.mem_or_eq_of_mem_set h1 with h2 | h2
          · exact Or.inl h2
          · exact Or.inl (h2 ▸ List.getElem?_mem hp)
        · exact Or.inr h1
      · exact List.mem_or_eq_of_mem_set hx
    · exact List.mem_or_eq_of_mem_set hx

/-- The descent of `__adjust_heap` keeps the length of the range. -/
theorem adjust_heap_down_length (fuel : Nat) :
    ∀ (first : List timer) (holeIndex len : Nat),
      (__adjust_heap_down fuel first holeIndex len).1.length = first.length := by
  induction fuel with
  | zero => intro first h len; rfl
  | succ n ih =>
    intro first h len
    unfold __adjust_heap_down
    split
    · simp only
      split
      · split
        · rw [ih]; simp
        · rfl
      · rfl
    · rfl

/-- The descent of `__adjust_heap` stores elements of the range. -/
theorem adjust_heap_down_mem (fuel : Nat) :
    ∀ (first : List timer) (holeIndex len : Nat) (x : timer),
      x ∈ (__adjust_heap_down fuel first holeIndex len).1 → x ∈ first := by
  induction fuel with
  | zero => intro first h len x hx; exact hx
  | succ n ih =>
    intro first h len x hx
    unfold __adjust_heap_down at hx
    split at hx
    · simp only at hx
      split at hx
      · split at hx
        · rename_i c hc
          rcases List.mem_or_eq_of_mem_set (ih _ _ _ _ hx) with h2 | h2
          · exact h2
          · exact h2 ▸ List.getElem?_mem hc
        · exact hx
      · exact hx
    · exact hx

/-- The function `__adjust_heap` keeps the length of the range. -/
theorem adjust_heap_length (first : List timer) (holeIndex len : Nat) (value : timer) :
    (__adjust_heap first holeIndex len value).length = first.length := by
  unfold __adjust_heap
  simp only
  rw [push_heap_loop_length]
  split
  · split
    · simp [adjust_heap_down_length]
    · simp [adjust_heap_down_length]
  · simp [adjust_heap_down_length]

/-- The function `__adjust_heap` stores elements of the range or `value`. -/
theorem adjust_heap_mem (first : List timer) (holeIndex len : Nat) (value x : timer)
    (hx : x ∈ __adjust_heap first holeIndex len value) : x ∈ first ∨ x = value := by
  unfold __adjust_heap at hx
  simp only at hx
  rcases push_heap_loop_mem _ _ _ _ _ _ hx with h1 | h1
  · left
    split at h1
    · split at h1
      · rename_i c hc
        rcases List.mem_or_eq_of_mem_set h1 with h2 | h2
        · exact adjust_heap_down_mem _ _ _ _ _ h2
        · exact adjust_heap_down_mem _ _ _ _ _ (h2 ▸ List.getElem?_mem hc)
      · exact adjust_heap_down_mem _ _ _ _ _ h1
    · exact adjust_heap_down_mem _ _ _ _ _ h1
  · exact Or.inr h1

/-- The function `pop_heap` keeps the length of the vector. -/
theorem pop_heap_length (v : List timer) : (pop_heap v).length = v.length := by
  unfold pop_heap
  split
  · simp only
    split
    · rw [adjust_heap_length]; simp
    · rfl
  · rfl

/-- The function `pop_heap` stores elements of the vector. -/
theorem pop_heap_mem (v : List timer) (x : timer) (hx : x ∈ pop_heap v) : x ∈ v := by
  unfold pop_heap at hx
  split at hx
  · simp only at hx
    split at hx
    · rename_i value front hv hf
      rcases adjust_heap_mem _ _ _ _ _ hx with h1 | h1
      · rcases List.mem_or_eq_of_mem_set h1 with h2 | h2
        · exact h2
        · exact h2 ▸ List.getElem?_mem hf
      · exact h1 ▸ List.getElem?_mem hv
    · exact hx
  · exact hx

/-! ## `RunOnce` returns when no timer function enqueues a timer -/

/-- A callable that makes no `ExecuteAt` call leaves the timers alone. -/
theorem runCalls_fTimers (body : List LoopCall) (h : ∀ c ∈ body, c.isExecuteAt = false)
    (L : EventLoop) : (runCalls body L).fTimers = L.fTimers := by
  induction body generalizing L with
  | nil => rfl
  | cons c cs ih =>
    have hc := h c (List.mem_cons_self _ _)
    have h1 := ih (fun d hd => h d (List.mem_cons_of_mem _ hd)) (c.run L)
    simp only [runCalls, List.foldl_cons] at h1 ⊢
    rw [h1]
    cases c with
    | ExecuteLater f => rfl
    | ExecuteAt f t => simp [LoopCall.isExecuteAt] at hc

/-- When no registered timer function makes an `ExecuteAt` call, `_DispatchTimers`
ends within as many iterations as there are timers. -/
theorem DispatchTimers_returns (current : Int) :
    ∀ (fuel : Nat) (L : EventLoop), L.fTimers.length ≤ fuel →
      (∀ t ∈ L.fTimers, t.function.enqueuesNoTimer) →
      ∃ L', L._DispatchTimers fuel current = some L' := by
  intro fuel
  induction fuel with
  | zero =>
    intro L hlen _
    have hnil : L.fTimers = [] := List.length_eq_zero.mp (Nat.le_zero.mp hlen)
    unfold EventLoop._DispatchTimers
    rw [hnil]
    exact ⟨L, rfl⟩
  | succ n ih =>
    intro L hlen hq
    unfold EventLoop._DispatchTimers
    split
    · exact ⟨L, rfl⟩
    · rename_i t0 rest hT
      split
      · exact ⟨L, rfl⟩
      · have ht0 : t0 ∈ L.fTimers := by rw [hT]; exact List.mem_cons_self _ _
        have hfire : (L.fire t0).fTimers = L.fTimers :=
          runCalls_fTimers t0.function.body (hq t0 ht0) _
        apply ih
        · simp only [List.length_dropLast, pop_heap_length, hfire]
          omega
        · intro t ht
          simp only at ht
          have h1 := pop_heap_mem _ _ (List.mem_of_mem_dropLast ht)
          rw [hfire] at h1
          exact hq t h1

/-- When no timer function registered after the work dispatch makes an
`ExecuteAt` call, `RunOnce` returns, with fuel the number of those timers. -/
theorem RunOnce_returns (os : OSHeaders) (current result : Int)
    (infos : Nat → event_wait_info) (L : EventLoop)
    (hq : ∀ t ∈ L._DispatchWork.fTimers, t.function.enqueuesNoTimer) :
    ∃ r L', L.RunOnce os L._DispatchWork.fTimers.length current result infos
      = some (r, L') := by
  obtain ⟨L1, h1⟩ := DispatchTimers_returns current _ L._DispatchWork (le_refl _) hq
  unfold EventLoop.RunOnce
  simp only [h1]
  split
  · exact ⟨_, _, rfl⟩
  · exact ⟨_, _, rfl⟩

/-! ## EventLoop: the claims about one iteration -/

/-- C1: in a `RunOnce` whose wait succeeds, the trace added by the iteration
is: the deferred work items that were queued before the call, in queue order;
then timer firings only; then the one `event_queue_wait`; then the callbacks
of the returned events, in the order of the returned array. -/
theorem RunOnce_phase_order (os : OSHeaders) (fuel : Nat) (current result : Int)
    (infos : Nat → event_wait_info) (L L' : EventLoop) (r : Int)
    (h : L.RunOnce os fuel current result infos = some (r, L'))
    (hwait : B_OK ≤ result) :
    r = result ∧ ∃ (ts : List timer) (timeout : Int),
      L'.trace = L.trace
        ++ L.fWorkQueue.map (fun f => LoopEvent.work f.tag)
        ++ ts.map firedEvent
        ++ [LoopEvent.wait L.fEventQueue EVENTS_TO_READ
              os.B_ABSOLUTE_REAL_TIME_TIMEOUT timeout]
        ++ (List.range result.toNat).map (fun i => dispatchedEvent (infos i)) := by
  unfold EventLoop.RunOnce at h
  simp only at h
  split at h
  · cases h
  · rename_i L1 hT
    obtain ⟨ts, h1, _, h3⟩ := DispatchTimers_trace current fuel _ _ hT
    have hw := DispatchWork_trace L
    rw [if_neg (not_lt.mpr hwait)] at h
    cases h
    refine ⟨rfl, ts, L1._DetermineTimeout os, ?_⟩
    rw [foldl_dispatch_trace]
    simp only
    rw [h1, hw.1, h3, hw.2.1]

/-- The statement of `RunOnce_phase_order` on the sample loop. -/
theorem RunOnce_phase_order_witness :
    sampleLoop.RunOnce haiku 5 100 2 sampleInfos = some (2, sampleLoopAfter)
      ∧ B_OK ≤ 2
      ∧ ((2 : Int) = 2 ∧ ∃ (ts : List timer) (timeout : Int),
        sampleLoopAfter.trace = sampleLoop.trace
          ++ sampleLoop.fWorkQueue.map (fun f => LoopEvent.work f.tag)
          ++ ts.map firedEvent
          ++ [LoopEvent.wait sampleLoop.fEventQueue EVENTS_TO_READ
                haiku.B_ABSOLUTE_REAL_TIME_TIMEOUT timeout]
          ++ (List.range (2 : Int).toNat).map (fun i => dispatchedEvent (sampleInfos i))) :=
  ⟨rfl, by decide,
    RunOnce_phase_order haiku 5 100 2 sampleInfos sampleLoop sampleLoopAfter 2 rfl
      (by decide)⟩

/-- C2 (the code at the failing input): with timers registered at `50` and
`300`, a dispatch at time `100` fires nothing and removes nothing, whatever
the fuel: the timer at `50` has expired and stays registered, because
`fTimers[0]` is the timer at `300`. -/
theorem DispatchTimers_leaves_expired_timer (fuel : Nat) :
    (twoTimers._DispatchTimers fuel 100).map
        (fun L => (L.trace, L.fTimers.map (fun t => (t.function.tag, t.expiration))))
      = some ([], [(2, 300), (1, 50)]) := by
  cases fuel <;> rfl

/-- C3 (the code at the failing input): timers registered at `now + 100`,
`now + 50`, `now + 200` and dispatched at `now + 250` fire in the order
`200, 100, 50`; and `ExecuteAt(f, 50)` followed by `ExecuteAt(g, 300)`,
dispatched at `300`, fires `g` before `f`. -/
theorem DispatchTimers_fires_latest_first :
    (threeTimers._DispatchTimers 3 1250).map (fun L => L.trace)
        = some [LoopEvent.fired 200 1200, LoopEvent.fired 100 1100, LoopEvent.fired 50 1050]
      ∧ (twoTimers._DispatchTimers 2 300).map (fun L => L.trace)
        = some [LoopEvent.fired 2 300, LoopEvent.fired 1 50] := by
  constructor <;> rfl

/-- C4 (the code at the failing input): with timers registered at `50` and
`300`, `_DetermineTimeout` returns `300`, and a `RunOnce` at time `10` passes
`300` to `event_queue_wait`; the smallest expiration is `50`. -/
theorem DetermineTimeout_returns_latest :
    twoTimers._DetermineTimeout haiku = 300
      ∧ (twoTimers.RunOnce haiku 0 10 0 sampleInfos).map (fun p => p.2.trace)
        = some [LoopEvent.wait 3 50 haiku.B_ABSOLUTE_REAL_TIME_TIMEOUT 300]
      ∧ twoTimers.fTimers.map (fun t => t.expiration) = [300, 50] := by
  refine ⟨rfl, rfl, rfl⟩

/-- C5: after any sequence `fs` of `ExecuteLater` calls made on a loop (not
from inside work dispatch), the work queue is the old queue followed by `fs`
in call order; the work dispatch of the next `RunOnce` runs exactly these
functions, once each and in that order; and the whole `RunOnce` iteration
runs no work item besides them. -/
theorem ExecuteLater_fifo (fs : List Function) (L : EventLoop) :
    (fs.foldl (fun L f => L.ExecuteLater f) L).fWorkQueue = L.fWorkQueue ++ fs
      ∧ (fs.foldl (fun L f => L.ExecuteLater f) L)._DispatchWork.trace
          = L.trace ++ (L.fWorkQueue ++ fs).map (fun f => LoopEvent.work f.tag)
      ∧ ∀ (os : OSHeaders) (fuel : Nat) (current result : Int)
          (infos : Nat → event_wait_info) (r : Int) (L' : EventLoop),
          (fs.foldl (fun L f => L.ExecuteLater f) L).RunOnce os fuel current result infos
              = some (r, L') →
          ∃ rest : List LoopEvent,
            L'.trace = L.trace
              ++ (L.fWorkQueue ++ fs).map (fun f => LoopEvent.work f.tag) ++ rest
            ∧ rest.filter LoopEvent.isWork = [] := by
  rw [foldl_ExecuteLater]
  refine ⟨rfl, ?_, ?_⟩
  · exact (DispatchWork_trace _).1
  · intro os fuel current result infos r L' h
    unfold EventLoop.RunOnce at h
    simp only at h
    split at h
    · cases h
    · rename_i L1 hT
      obtain ⟨ts, h1, _, _⟩ := DispatchTimers_trace current fuel _ _ hT
      have hw := DispatchWork_trace { L with fWorkQueue := L.fWorkQueue ++ fs }
      split at h
      · cases h
        refine ⟨ts.map firedEvent ++ [LoopEvent.wait L1.fEventQueue EVENTS_TO_READ
          os.B_ABSOLUTE_REAL_TIME_TIMEOUT (L1._DetermineTimeout os)], ?_, ?_⟩
        · simp only
          rw [h1, hw.1]
          simp
        · rw [List.filter_append, firedEvent_not_work]
          rfl
      · cases h
        refine ⟨ts.map firedEvent ++ [LoopEvent.wait L1.fEventQueue EVENTS_TO_READ
          os.B_ABSOLUTE_REAL_TIME_TIMEOUT (L1._DetermineTimeout os)]
          ++ (List.range result.toNat).map (fun i => dispatchedEvent (infos i)), ?_, ?_⟩
        · rw [foldl_dispatch_trace]
          simp only
          rw [h1, hw.1]
          simp
        · rw [List.filter_append, List.filter_append, firedEvent_not_work,
            dispatchedEvent_not_work]
          rfl

/-- The statement of `ExecuteLater_fifo` on the sample loop and sample work. -/
theorem ExecuteLater_fifo_witness :
    (sampleWork.foldl (fun L f => L.ExecuteLater f) sampleLoop).RunOnce
          haiku 5 100 1 sampleInfos = some (1, sampleWorkAfter)
      ∧ ∃ rest : List LoopEvent,
          sampleWorkAfter.trace = sampleLoop.trace
            ++ (sampleLoop.fWorkQueue ++ sampleWork).map (fun f => LoopEvent.work f.tag)
            ++ rest
          ∧ rest.filter LoopEvent.isWork = [] :=
  ⟨rfl, (ExecuteLater_fifo sampleWork sampleLoop).2.2 haiku 5 100 1 sampleInfos 1
    sampleWorkAfter rfl⟩

/-- C6 (the code at the failing input): a work item that calls
`ExecuteLater(h)` while `_DispatchWork` runs it.  After the first `RunOnce`
the work queue is empty, and after a second `RunOnce` the trace of both
iterations holds the first work item only: `h` is never run. -/
theorem DispatchWork_drops_work_enqueued_during_dispatch :
    (reentrantWork.RunOnce haiku 0 10 0 sampleInfos).map
        (fun p => (p.2.fWorkQueue.length, p.2.trace.filter LoopEvent.isWork))
      = some (0, [LoopEvent.work 1])
    ∧ ((reentrantWork.RunOnce haiku 0 10 0 sampleInfos).bind
        (fun p => p.2.RunOnce haiku 0 20 0 sampleInfos)).map
        (fun p => p.2.trace.filter LoopEvent.isWork)
      = some [LoopEvent.work 1] := by
  constructor <;> rfl

/-! ## StreamSocket: registration -/

/-- Both `_WaitForRead` and `_WaitForWrite` make exactly one `event_queue_select`, for
the descriptor, one-shot; they return when the kernel answers `B_OK` (and
the sentinel `B_ERROR` is distinct from `B_OK`), and throw otherwise. -/
theorem waitForFD_world (os : OSHeaders) (kernel : Nat → SysResult) (events : Nat)
    (w : SocketWorld) :
    (StreamSocket.waitForFD os kernel events w).world?
        = some (w.afterCall (w.selectEvent os events))
      ∧ ((kernel w.calls).ret = B_OK → os.B_ERROR ≠ B_OK →
          StreamSocket.waitForFD os kernel events w
            = Outcome.returned (w.afterCall (w.selectEvent os events))) := by
  constructor
  · unfold StreamSocket.waitForFD
    simp only [SocketWorld.syscall]
    split <;> rfl
  · intro hret hne
    unfold StreamSocket.waitForFD
    have hne2 : ¬ (B_OK = os.B_ERROR) := fun h => hne h.symm
    simp only [SocketWorld.syscall, EventLoop.WaitForFD, EventLoop._WaitForObject, hret,
      if_neg hne2, ne_eq, not_true_eq_false, if_false]
    rfl

/-! ## StreamSocket: the claims about submission and completion -/

/-- C7 (the code at the failing input): the completion callback of a pending
`AsyncRecv` submits the next `AsyncRecv(…, cb2)`, which would block.  When
`_HandleEvents` returns, `fWaitingRead` is set and a READ registration was
made for `cb2`, but the stored callback is empty.  On the READ delivery for
that registration `recv` returns 5 bytes, `cb2` is not invoked, and
`std::bad_function_call` is thrown. -/
theorem resubmitted_recv_never_completes :
    resubmitFirstDelivery.world?.map
        (fun w => (w.socket.fWaitingRead, w.socket.fRecvRequest.callback.tag?, w.trace))
      = some (true, none,
          [SocketEvent.recv 5 500 10 0, SocketEvent.select 3 5 0 0x6001 900,
            SocketEvent.recv 5 500 10 0, SocketEvent.callback 1 3,
            SocketEvent.recv 5 500 10 0, SocketEvent.select 3 5 0 0x6001 900])
    ∧ resubmitSecondDelivery.exception? = some Exception.bad_function_call
    ∧ resubmitSecondDelivery.trace?
      = some [SocketEvent.recv 5 500 10 0, SocketEvent.select 3 5 0 0x6001 900,
          SocketEvent.recv 5 500 10 0, SocketEvent.callback 1 3,
          SocketEvent.recv 5 500 10 0, SocketEvent.select 3 5 0 0x6001 900,
          SocketEvent.recv 5 500 10 0] := by
  refine ⟨?_, ?_, ?_⟩ <;> rfl

/-- C8: `AsyncRecv(buffer, size, flags, cb)` makes one `recv`.  If it returns
`n >= 0`, the only further effect is the invocation of `cb` with `n`, on a
socket whose fields are unchanged.  If it fails with an error other than
`EAGAIN`/`EWOULDBLOCK`, the only further effect is the invocation of `cb` with
that error, on a socket whose fields are unchanged.  Otherwise `cb` is not
invoked: the request is stored in the recv slot, `fWaitingRead` is set, and
one `event_queue_select` is made, for the descriptor, `B_EVENT_READ`,
one-shot; when the kernel accepts it the call returns. -/
theorem AsyncRecv_outcomes (os : OSHeaders) (kernel : Nat → SysResult)
    (call : IOCallback → Int → SocketWorld → Outcome)
    (buffer size : Nat) (flags : Int) (cb : IOCallback) (w : SocketWorld) :
    ((kernel w.calls).ret ≥ 0 →
      StreamSocket.AsyncRecv os kernel call buffer size flags cb w
        = call cb (kernel w.calls).ret
            (w.afterCall (SocketEvent.recv w.socket.fSocket buffer size flags)))
    ∧ ((kernel w.calls).ret < 0 → (kernel w.calls).errno ≠ os.EAGAIN →
        (kernel w.calls).errno ≠ os.EWOULDBLOCK →
      StreamSocket.AsyncRecv os kernel call buffer size flags cb w
        = call cb (kernel w.calls).errno
            (w.afterCall (SocketEvent.recv w.socket.fSocket buffer size flags)))
    ∧ ((kernel w.calls).ret < 0 →
        ((kernel w.calls).errno = os.EAGAIN ∨ (kernel w.calls).errno = os.EWOULDBLOCK) →
      (StreamSocket.AsyncRecv os kernel call buffer size flags cb w).world?
          = some (((w.afterCall (SocketEvent.recv w.socket.fSocket buffer size flags)).storeRecv
              buffer size flags cb).afterCall (w.selectEvent os os.B_EVENT_READ))
        ∧ ((kernel (w.calls + 1)).ret = B_OK → os.B_ERROR ≠ B_OK →
          StreamSocket.AsyncRecv os kernel call buffer size flags cb w
            = Outcome.returned
                (((w.afterCall (SocketEvent.recv w.socket.fSocket buffer size flags)).storeRecv
                  buffer size flags cb).afterCall (w.selectEvent os os.B_EVENT_READ)))) := by
  refine ⟨?_, ?_, ?_⟩
  · intro h
    unfold StreamSocket.AsyncRecv
    simp only [SocketWorld.syscall]
    rw [if_pos (Or.inl h), if_pos h]
    rfl
  · intro h h1 h2
    unfold StreamSocket.AsyncRecv
    simp only [SocketWorld.syscall]
    rw [if_pos (Or.inr ⟨h1, h2⟩), if_neg (not_le.mpr h)]
    rfl
  · intro h he
    have hcond : ¬ ((kernel w.calls).ret ≥ 0 ∨
        ((kernel w.calls).errno ≠ os.EAGAIN ∧ (kernel w.calls).errno ≠ os.EWOULDBLOCK)) := by
      rintro (h0 | ⟨h1, h2⟩)
      · exact absurd h (not_lt.mpr h0)
      · rcases he with he | he
        · exact h1 he
        · exact h2 he
    have hw := waitForFD_world os kernel os.B_EVENT_READ
      ((w.afterCall (SocketEvent.recv w.socket.fSocket buffer size flags)).storeRecv
        buffer size flags cb)
    unfold StreamSocket.AsyncRecv
    simp only [SocketWorld.syscall]
    rw [if_neg hcond]
    exact hw

/-- The three cases of `AsyncRecv_outcomes` on the sample socket. -/
theorem AsyncRecv_outcomes_witness :
    ((kernelReturns3 sampleSocket.calls).ret ≥ 0
      ∧ StreamSocket.AsyncRecv haiku kernelReturns3 (IOCallback.call haiku kernelReturns3 1)
          500 10 0 (IOCallback.fn 1 []) sampleSocket
        = IOCallback.call haiku kernelReturns3 1 (IOCallback.fn 1 [])
            (kernelReturns3 sampleSocket.calls).ret
            (sampleSocket.afterCall (SocketEvent.recv sampleSocket.socket.fSocket 500 10 0)))
    ∧ ((kernelFails sampleSocket.calls).ret < 0
      ∧ StreamSocket.AsyncRecv haiku kernelFails (IOCallback.call haiku kernelFails 1)
          500 10 0 (IOCallback.fn 1 []) sampleSocket
        = IOCallback.call haiku kernelFails 1 (IOCallback.fn 1 [])
            (kernelFails sampleSocket.calls).errno
            (sampleSocket.afterCall (SocketEvent.recv sampleSocket.socket.fSocket 500 10 0)))
    ∧ ((kernelFailsOnce haiku.EAGAIN sampleSocket.calls).ret < 0
      ∧ StreamSocket.AsyncRecv haiku (kernelFailsOnce haiku.EAGAIN)
          (IOCallback.call haiku (kernelFailsOnce haiku.EAGAIN) 1)
          500 10 0 (IOCallback.fn 1 []) sampleSocket
        = Outcome.returned
            (((sampleSocket.afterCall
                (SocketEvent.recv sampleSocket.socket.fSocket 500 10 0)).storeRecv
              500 10 0 (IOCallback.fn 1 [])).afterCall
              (sampleSocket.selectEvent haiku haiku.B_EVENT_READ))) :=
  ⟨⟨by decide, (AsyncRecv_outcomes haiku kernelReturns3 _ 500 10 0 _ sampleSocket).1
      (by decide)⟩,
    ⟨by decide, (AsyncRecv_outcomes haiku kernelFails _ 500 10 0 _ sampleSocket).2.1
      (by decide) (by decide) (by decide)⟩,
    ⟨by decide, ((AsyncRecv_outcomes haiku (kernelFailsOnce haiku.EAGAIN) _ 500 10 0 _
      sampleSocket).2.2 (by decide) (Or.inl (by decide))).2 (by decide) (by decide)⟩⟩

/-- When the `recv` or `send` of an `AsyncRecv`, `AsyncSend`, `_HandleRecv`
or `_HandleSend` returns a count `k >= 0` (whatever the requested size), the
operation makes that one kernel call and then only invokes a callback with
exactly `k`: the callback it was passed on the synchronous path, and on the
readiness path whatever callback the slot holds at that point, which need
not be the callback of the submission.  On the readiness path the waiting
flag is cleared before the callback and the stored callback is reset after
it. -/
theorem partial_transfer_completes (os : OSHeaders) (kernel : Nat → SysResult)
    (call : IOCallback → Int → SocketWorld → Outcome)
    (buffer n : Nat) (flags : Int) (cb : IOCallback) (w : SocketWorld) (k : Int)
    (hk : 0 ≤ k) (hret : (kernel w.calls).ret = k) :
    StreamSocket.AsyncRecv os kernel call buffer n flags cb w
        = call cb k (w.afterCall (SocketEvent.recv w.socket.fSocket buffer n flags))
    ∧ StreamSocket.AsyncSend os kernel call buffer n flags cb w
        = call cb k (w.afterCall (SocketEvent.send w.socket.fSocket buffer n flags))
    ∧ StreamSocket._HandleRecv os kernel call w
        = (call w.socket.fRecvRequest.callback k
            (w.afterCall (SocketEvent.recv w.socket.fSocket w.socket.fRecvRequest.buffer
              w.socket.fRecvRequest.size w.socket.fRecvRequest.flags)).clearWaitingRead).andThen
          (fun w => Outcome.returned w.resetRecvCallback)
    ∧ StreamSocket._HandleSend os kernel call w
        = (call w.socket.fSendRequest.callback k
            (w.afterCall (SocketEvent.send w.socket.fSocket w.socket.fRecvRequest.buffer
              w.socket.fRecvRequest.size w.socket.fRecvRequest.flags)).clearWaitingWrite).andThen
          (fun w => Outcome.returned w.resetSendCallback) := by
  have h : (kernel w.calls).ret ≥ 0 := by rw [hret]; exact hk
  refine ⟨?_, ?_, ?_, ?_⟩
  · unfold StreamSocket.AsyncRecv
    simp only [SocketWorld.syscall]
    rw [if_pos (Or.inl h), if_pos h, hret]
    rfl
  · unfold StreamSocket.AsyncSend
    simp only [SocketWorld.syscall]
    rw [if_pos (Or.inl h), if_pos h, hret]
    rfl
  · unfold StreamSocket._HandleRecv
    simp only [SocketWorld.syscall]
    rw [if_pos (Or.inl h), if_pos h, hret]
    rfl
  · unfold StreamSocket._HandleSend
    simp only [SocketWorld.syscall]
    rw [if_pos (Or.inl h), if_pos h, hret]
    rfl

/-- The statement of `partial_transfer_completes` on the sample socket with
pending operations, for `k = 3`. -/
theorem partial_transfer_completes_witness :
    (0 : Int) ≤ 3 ∧ (kernelReturns3 pendingSocket.calls).ret = 3
    ∧ (StreamSocket.AsyncRecv haiku kernelReturns3 (IOCallback.call haiku kernelReturns3 1)
          500 10 0 (IOCallback.fn 7 []) pendingSocket
        = IOCallback.call haiku kernelReturns3 1 (IOCallback.fn 7 []) 3
            (pendingSocket.afterCall (SocketEvent.recv pendingSocket.socket.fSocket 500 10 0))
      ∧ StreamSocket.AsyncSend haiku kernelReturns3 (IOCallback.call haiku kernelReturns3 1)
          500 10 0 (IOCallback.fn 7 []) pendingSocket
        = IOCallback.call haiku kernelReturns3 1 (IOCallback.fn 7 []) 3
            (pendingSocket.afterCall (SocketEvent.send pendingSocket.socket.fSocket 500 10 0))
      ∧ StreamSocket._HandleRecv haiku kernelReturns3 (IOCallback.call haiku kernelReturns3 1)
          pendingSocket
        = (IOCallback.call haiku kernelReturns3 1 pendingSocket.socket.fRecvRequest.callback 3
            (pendingSocket.afterCall (SocketEvent.recv pendingSocket.socket.fSocket
              pendingSocket.socket.fRecvRequest.buffer pendingSocket.socket.fRecvRequest.size
              pendingSocket.socket.fRecvRequest.flags)).clearWaitingRead).andThen
          (fun w => Outcome.returned w.resetRecvCallback)
      ∧ StreamSocket._HandleSend haiku kernelReturns3 (IOCallback.call haiku kernelReturns3 1)
          pendingSocket
        = (IOCallback.call haiku kernelReturns3 1 pendingSocket.socket.fSendRequest.callback 3
            (pendingSocket.afterCall (SocketEvent.send pendingSocket.socket.fSocket
              pendingSocket.socket.fRecvRequest.buffer pendingSocket.socket.fRecvRequest.size
              pendingSocket.socket.fRecvRequest.flags)).clearWaitingWrite).andThen
          (fun w => Outcome.returned w.resetSendCallback)) :=
  ⟨by decide, rfl,
    partial_transfer_completes haiku kernelReturns3 _ 500 10 0 (IOCallback.fn 7 [])
      pendingSocket 3 (by decide) rfl⟩

/-- C9 (the code at the failing input): `AsyncRecv(500, 10, 0, cb2)`, with
`cb2` named `2`, is submitted by the completion callback of an earlier recv
and would block: it is pending, with its buffer, size and flags stored and a
READ registration made, but with an empty stored callback.  On the READ
delivery for that registration `recv` returns `k = 5`, with `0 <= 5 <= 10`:
the submission does not complete with `5`, since `cb2` is not invoked with
any value and `std::bad_function_call` is thrown.  The same `AsyncRecv`
completes with the count on the synchronous path: with 3 bytes available the
callback is invoked with `3`. -/
theorem resubmitted_partial_recv_not_delivered :
    resubmitFirstDelivery.world?.map
        (fun w => (w.socket.fWaitingRead, w.socket.fRecvRequest.buffer,
          w.socket.fRecvRequest.size, w.socket.fRecvRequest.flags,
          w.socket.fRecvRequest.callback.tag?, w.calls))
      = some (true, 500, 10, 0, none, 5)
    ∧ (resubmitKernel 5).ret = 5
    ∧ resubmitSecondDelivery.exception? = some Exception.bad_function_call
    ∧ resubmitSecondDelivery.trace?.map
        (fun t => (t.drop 6, t.any (fun e =>
          match e with
          | SocketEvent.callback 2 _ => true
          | _ => false)))
      = some ([SocketEvent.recv 5 500 10 0], false)
    ∧ (StreamSocket.AsyncRecv haiku kernelReturns3 (IOCallback.call haiku kernelReturns3 1)
        500 10 0 (IOCallback.fn 2 []) sampleSocket).trace?
      = some [SocketEvent.recv 5 500 10 0, SocketEvent.callback 2 3] := by
  refine ⟨?_, ?_, ?_, ?_, ?_⟩ <;> rfl

/-- C10: `AsyncConnect(peer, cb)` makes one `connect`.  If it returns `0`, the
only further effect is the invocation of `cb` with `0`; if it fails with an
error other than `EINPROGRESS`, the only further effect is the invocation of
`cb` with that error; in both cases on a socket whose fields are unchanged
and with no registration made.  Otherwise `cb` is not invoked: `cb` is
stored, `fWaitingConnect` is set, and one `event_queue_select` is made, for
the descriptor, `B_EVENT_WRITE`, one-shot; when the kernel accepts it the
call returns. -/
theorem AsyncConnect_outcomes (os : OSHeaders) (kernel : Nat → SysResult)
    (call : IOCallback → Int → SocketWorld → Outcome)
    (peer : Nat) (cb : IOCallback) (w : SocketWorld) :
    ((kernel w.calls).ret = 0 →
      StreamSocket.AsyncConnect os kernel call peer cb w
        = call cb 0 (w.afterCall (SocketEvent.connect w.socket.fSocket peer)))
    ∧ ((kernel w.calls).ret ≠ 0 → (kernel w.calls).errno ≠ os.EINPROGRESS →
      StreamSocket.AsyncConnect os kernel call peer cb w
        = call cb (kernel w.calls).errno
            (w.afterCall (SocketEvent.connect w.socket.fSocket peer)))
    ∧ ((kernel w.calls).ret ≠ 0 → (kernel w.calls).errno = os.EINPROGRESS →
      (StreamSocket.AsyncConnect os kernel call peer cb w).world?
          = some (((w.afterCall (SocketEvent.connect w.socket.fSocket peer)).storeConnect
              cb).afterCall (w.selectEvent os os.B_EVENT_WRITE))
        ∧ ((kernel (w.calls + 1)).ret = B_OK → os.B_ERROR ≠ B_OK →
          StreamSocket.AsyncConnect os kernel call peer cb w
            = Outcome.returned
                (((w.afterCall (SocketEvent.connect w.socket.fSocket peer)).storeConnect
                  cb).afterCall (w.selectEvent os os.B_EVENT_WRITE)))) := by
  refine ⟨?_, ?_, ?_⟩
  · intro h
    unfold StreamSocket.AsyncConnect
    simp only [SocketWorld.syscall]
    rw [if_pos (Or.inl h), if_pos h]
    rfl
  · intro h h1
    unfold StreamSocket.AsyncConnect
    simp only [SocketWorld.syscall]
    rw [if_pos (Or.inr h1), if_neg h]
    rfl
  · intro h he
    have hcond : ¬ ((kernel w.calls).ret = 0 ∨ (kernel w.calls).errno ≠ os.EINPROGRESS) := by
      rintro (h0 | h1)
      · exact h h0
      · exact h1 he
    have hw := waitForFD_world os kernel os.B_EVENT_WRITE
      ((w.afterCall (SocketEvent.connect w.socket.fSocket peer)).storeConnect cb)
    unfold StreamSocket.AsyncConnect
    simp only [SocketWorld.syscall]
    rw [if_neg hcond]
    exact hw

/-- The three cases of `AsyncConnect_outcomes` on the sample socket. -/
theorem AsyncConnect_outcomes_witness :
    ((kernelReturns0 sampleSocket.calls).ret = 0
      ∧ StreamSocket.AsyncConnect haiku kernelReturns0 (IOCallback.call haiku kernelReturns0 1)
          80 (IOCallback.fn 1 []) sampleSocket
        = IOCallback.call haiku kernelReturns0 1 (IOCallback.fn 1 []) 0
            (sampleSocket.afterCall (SocketEvent.connect sampleSocket.socket.fSocket 80)))
    ∧ ((kernelFails sampleSocket.calls).ret ≠ 0
      ∧ StreamSocket.AsyncConnect haiku kernelFails (IOCallback.call haiku kernelFails 1)
          80 (IOCallback.fn 1 []) sampleSocket
        = IOCallback.call haiku kernelFails 1 (IOCallback.fn 1 [])
            (kernelFails sampleSocket.calls).errno
            (sampleSocket.afterCall (SocketEvent.connect sampleSocket.socket.fSocket 80)))
    ∧ ((kernelFailsOnce haiku.EINPROGRESS sampleSocket.calls).ret ≠ 0
      ∧ StreamSocket.AsyncConnect haiku (kernelFailsOnce haiku.EINPROGRESS)
          (IOCallback.call haiku (kernelFailsOnce haiku.EINPROGRESS) 1)
          80 (IOCallback.fn 1 []) sampleSocket
        = Outcome.returned
            (((sampleSocket.afterCall
                (SocketEvent.connect sampleSocket.socket.fSocket 80)).storeConnect
              (IOCallback.fn 1 [])).afterCall
              (sampleSocket.selectEvent haiku haiku.B_EVENT_WRITE))) :=
  ⟨⟨by decide, (AsyncConnect_outcomes haiku kernelReturns0 _ 80 _ sampleSocket).1
      (by decide)⟩,
    ⟨by decide, (AsyncConnect_outcomes haiku kernelFails _ 80 _ sampleSocket).2.1
      (by decide) (by decide)⟩,
    ⟨by decide, ((AsyncConnect_outcomes haiku (kernelFailsOnce haiku.EINPROGRESS) _ 80 _
      sampleSocket).2.2 (by decide) (by decide)).2 (by decide) (by decide)⟩⟩

/-! ## StreamSocket: the claims about the readiness path -/

/-- C11 (the code at the failing input): `AsyncConnect` leaves the connect
pending, then write-readiness is delivered while the pending socket-level
error is `-2147454953`.  `_HandleEvents` makes no `getsockopt`, invokes the
connect callback with `0` and clears `fWaitingConnect`. -/
theorem HandleConnect_reports_success :
    refusedConnect.trace?
      = some [SocketEvent.connect 5 80, SocketEvent.select 3 5 0 0x6002 900,
          SocketEvent.callback 1 0]
    ∧ refusedConnect.world?.map (fun w => w.socket.fWaitingConnect) = some false
    ∧ BaseSocket.errorOf (refusedKernel 2) = -2147454953 := by
  refine ⟨?_, ?_, ?_⟩ <;> rfl

/-- C16 (the code at the failing input): with a pending `AsyncRecv(500, 10,
0, cb1)` and a pending `AsyncSend(600, 8, 0, cb2)`, write-readiness makes
`_HandleSend` call `send` with the buffer `500`, the size `10` and the flags
of the recv slot, and complete `cb2` with the `10` that this `send` returned. -/
theorem HandleSend_sends_recv_request :
    pendingSend.trace?
      = some [SocketEvent.recv 5 500 10 0, SocketEvent.select 3 5 0 0x6001 900,
          SocketEvent.send 5 600 8 0, SocketEvent.select 3 5 0 0x6002 900,
          SocketEvent.send 5 500 10 0, SocketEvent.callback 2 10] := by
  rfl

/-! ## BaseSocket: the claims about the lifecycle -/

/-- C20 (the code at the failing input): a socket opened with descriptor `5`
and closed by `Close()` still holds `5` in `fSocket`, and its destruction
calls `close(5)` a second time. -/
theorem Close_keeps_descriptor :
    closedSocket.socket.fSocket = 5
    ∧ closedSocket.trace = [SocketEvent.socket 2 1 0, SocketEvent.close 5]
    ∧ (BaseSocket.destroy closeKernel closedSocket).trace
      = [SocketEvent.socket 2 1 0, SocketEvent.close 5, SocketEvent.close 5] := by
  refine ⟨?_, ?_, ?_⟩ <;> rfl

/-! ## ServerSocket: registration -/

/-- The function `ServerSocket::_WaitForRead` makes exactly one
`event_queue_select`, for the descriptor, `B_EVENT_READ`, one-shot; it
returns when the kernel answers `B_OK` (and the sentinel `B_ERROR` is
distinct from `B_OK`), and throws otherwise. -/
theorem ServerSocket.waitForRead_world (os : OSHeaders) (kernel : Nat → SysResult)
    (w : ServerWorld) :
    (ServerSocket._WaitForRead os kernel w).world? = some (w.afterCall (w.selectEvent os))
      ∧ ((kernel w.calls).ret = B_OK → os.B_ERROR ≠ B_OK →
          ServerSocket._WaitForRead os kernel w
            = ServerOutcome.returned (w.afterCall (w.selectEvent os))) := by
  constructor
  · unfold ServerSocket._WaitForRead
    simp only [ServerWorld.syscall]
    split <;> rfl
  · intro hret hne
    have hne2 : ¬ (B_OK = os.B_ERROR) := fun h => hne h.symm
    unfold ServerSocket._WaitForRead
    simp only [ServerWorld.syscall, EventLoop.WaitForFD, EventLoop._WaitForObject, hret,
      if_neg hne2, ne_eq, not_true_eq_false, if_false]
    rfl

/-! ## ServerSocket: the claims about accept -/

/-- C13: when the `accept` of `AsyncAccept(s, cb)` returns a descriptor
`d >= 0`, the peer socket `s` adopts `d`, and the only further effect is the
invocation of `cb` with `0`: at that point the descriptor of `s` is `d`, the
fields of the server socket (the pending-accept slot among them) are
unchanged and the only kernel call made is the `accept`.  For a callback
that makes no call, `AsyncAccept` returns in exactly that world. -/
theorem AsyncAccept_success (os : OSHeaders) (kernel : Nat → SysResult)
    (call : AcceptCallback → Int → ServerWorld → ServerOutcome)
    (s : Nat) (cb : AcceptCallback) (w : ServerWorld) (d : Int)
    (hd : 0 ≤ d) (hret : (kernel w.calls).ret = d) :
    ServerSocket.AsyncAccept os kernel call s cb w
        = call cb 0 ((w.afterCall (SocketEvent.accept w.server.fSocket)).adopt s d)
    ∧ ((w.afterCall (SocketEvent.accept w.server.fSocket)).adopt s d).peers s = d
    ∧ ((w.afterCall (SocketEvent.accept w.server.fSocket)).adopt s d).trace
        = w.trace ++ [SocketEvent.accept w.server.fSocket]
    ∧ (∀ (fuel tag : Nat),
        ServerSocket.AsyncAccept os kernel (AcceptCallback.call os kernel (fuel + 1)) s
            (AcceptCallback.fn tag []) w
          = ServerOutcome.returned
              { server := w.server
                peers := fun a => if a = s then d else w.peers a
                calls := w.calls + 1
                trace := w.trace ++ [SocketEvent.accept w.server.fSocket]
                  ++ [SocketEvent.callback tag 0] }) := by
  have h1 : ¬ ((kernel w.calls).ret = -1 ∧ (kernel w.calls).errno ≠ os.EAGAIN
      ∧ (kernel w.calls).errno ≠ os.EWOULDBLOCK) := by
    rintro ⟨h, _⟩
    rw [hret] at h
    omega
  have h2 : (kernel w.calls).ret ≥ 0 := by rw [hret]; exact hd
  have key : ∀ (call : AcceptCallback → Int → ServerWorld → ServerOutcome) (cb : AcceptCallback),
      ServerSocket.AsyncAccept os kernel call s cb w
        = call cb 0 ((w.afterCall (SocketEvent.accept w.server.fSocket)).adopt s d) := by
    intro call cb
    unfold ServerSocket.AsyncAccept
    simp only [ServerWorld.syscall]
    rw [if_neg h1, if_pos h2, hret]
    rfl
  refine ⟨key call cb, ?_, rfl, ?_⟩
  · simp [ServerWorld.adopt]
  · intro fuel tag
    rw [key]
    rfl

/-- The statement of `AsyncAccept_success` on the sample server socket, for
the descriptor `9` and the peer socket at address `700`. -/
theorem AsyncAccept_success_witness :
    (0 : Int) ≤ 9 ∧ (kernelReturns9 sampleServer.calls).ret = 9
    ∧ (ServerSocket.AsyncAccept haiku kernelReturns9
          (AcceptCallback.call haiku kernelReturns9 1) 700 (AcceptCallback.fn 1 [])
          sampleServer
        = AcceptCallback.call haiku kernelReturns9 1 (AcceptCallback.fn 1 []) 0
            ((sampleServer.afterCall (SocketEvent.accept sampleServer.server.fSocket)).adopt
              700 9)
      ∧ ((sampleServer.afterCall (SocketEvent.accept sampleServer.server.fSocket)).adopt
          700 9).peers 700 = 9
      ∧ ((sampleServer.afterCall (SocketEvent.accept sampleServer.server.fSocket)).adopt
          700 9).trace = sampleServer.trace ++ [SocketEvent.accept sampleServer.server.fSocket]
      ∧ ServerSocket.AsyncAccept haiku kernelReturns9
            (AcceptCallback.call haiku kernelReturns9 (0 + 1)) 700
            (AcceptCallback.fn 1 []) sampleServer
          = ServerOutcome.returned
              { server := sampleServer.server
                peers := fun a => if a = 700 then 9 else sampleServer.peers a
                calls := sampleServer.calls + 1
                trace := sampleServer.trace
                  ++ [SocketEvent.accept sampleServer.server.fSocket]
                  ++ [SocketEvent.callback 1 0] }) :=
  have h := AsyncAccept_success haiku kernelReturns9
    (AcceptCallback.call haiku kernelReturns9 1) 700 (AcceptCallback.fn 1 []) sampleServer 9
    (by decide) rfl
  ⟨by decide, rfl, h.1, h.2.1, h.2.2.1, h.2.2.2 0 1⟩

/-- C14 (the code at the failing input): an `accept` that fails with the error
`-2147454964`.  `AsyncAccept` invokes the callback with `-1`, the return
value of `accept`; and so does `_HandleEvents` for the `accept` it makes on
read-readiness. -/
theorem accept_failure_reports_minus_one :
    (ServerSocket.AsyncAccept haiku kernelFails (AcceptCallback.call haiku kernelFails 1)
        700 (AcceptCallback.fn 1 []) sampleServer).trace?
      = some [SocketEvent.accept 5, SocketEvent.callback 1 (-1)]
    ∧ (kernelFails 0).errno = -2147454964
    ∧ failedAccept.trace?
      = some [SocketEvent.accept 5, SocketEvent.select 3 5 0 0x6001 900,
          SocketEvent.accept 5, SocketEvent.callback 1 (-1)]
    ∧ (failedAcceptKernel 2).errno = -2147454964 := by
  refine ⟨?_, ?_, ?_, ?_⟩ <;> rfl

/-- C15: on every path of `AsyncAccept(s, cb)` that ends in a completion
other than success, the library leaves the descriptor of every peer socket
object (and so of `s`) as it was.  An immediate `accept` failure only invokes
`cb` with the return value `-1`; a would-block submission only stores the
slot and registers; a failure of the `accept` re-issued on read-readiness
only invokes the stored callback with `-1`; an ERROR event only reads the
socket error and invokes the stored callback with it. -/
theorem failed_accept_leaves_peer (os : OSHeaders) (kernel : Nat → SysResult)
    (call : AcceptCallback → Int → ServerWorld → ServerOutcome)
    (s : Nat) (cb : AcceptCallback) (events : Nat) (w : ServerWorld) :
    ((kernel w.calls).ret = -1 → (kernel w.calls).errno ≠ os.EAGAIN →
        (kernel w.calls).errno ≠ os.EWOULDBLOCK →
      ServerSocket.AsyncAccept os kernel call s cb w
          = call cb (-1) (w.afterCall (SocketEvent.accept w.server.fSocket))
        ∧ (w.afterCall (SocketEvent.accept w.server.fSocket)).peers = w.peers)
    ∧ ((kernel w.calls).ret = -1 →
        ((kernel w.calls).errno = os.EAGAIN ∨ (kernel w.calls).errno = os.EWOULDBLOCK) →
      (ServerSocket.AsyncAccept os kernel call s cb w).world?
          = some (((w.afterCall (SocketEvent.accept w.server.fSocket)).storeAccept
              s cb).afterCall (w.selectEvent os))
        ∧ (((w.afterCall (SocketEvent.accept w.server.fSocket)).storeAccept
              s cb).afterCall (w.selectEvent os)).peers = w.peers)
    ∧ (events &&& os.B_EVENT_ERROR = 0 → events &&& os.B_EVENT_READ ≠ 0 →
        (kernel w.calls).ret = -1 → (kernel w.calls).errno ≠ os.EAGAIN →
        (kernel w.calls).errno ≠ os.EWOULDBLOCK →
      ServerSocket._HandleEvents os kernel call events w
          = call w.server.fAcceptCallback (-1)
              (w.afterCall (SocketEvent.accept w.server.fSocket))
        ∧ (w.afterCall (SocketEvent.accept w.server.fSocket)).peers = w.peers)
    ∧ (events &&& os.B_EVENT_ERROR ≠ 0 →
      ServerSocket._HandleEvents os kernel call events w
          = call w.server.fAcceptCallback (BaseSocket.errorOf (kernel w.calls))
              (w.afterCall (SocketEvent.getsockopt w.server.fSocket))
        ∧ (w.afterCall (SocketEvent.getsockopt w.server.fSocket)).peers = w.peers) := by
  refine ⟨?_, ?_, ?_, ?_⟩
  · intro h h1 h2
    refine ⟨?_, rfl⟩
    unfold ServerSocket.AsyncAccept
    simp only [ServerWorld.syscall]
    rw [if_pos ⟨h, h1, h2⟩, h]
    rfl
  · intro h he
    have hc1 : ¬ ((kernel w.calls).ret = -1 ∧ (kernel w.calls).errno ≠ os.EAGAIN
        ∧ (kernel w.calls).errno ≠ os.EWOULDBLOCK) := by
      rintro ⟨_, h1, h2⟩
      rcases he with he | he
      · exact h1 he
      · exact h2 he
    have hc2 : ¬ ((kernel w.calls).ret ≥ 0) := by rw [h]; decide
    refine ⟨?_, rfl⟩
    have hw := (ServerSocket.waitForRead_world os kernel
      ((w.afterCall (SocketEvent.accept w.server.fSocket)).storeAccept s cb)).1
    unfold ServerSocket.AsyncAccept
    simp only [ServerWorld.syscall]
    rw [if_neg hc1, if_neg hc2]
    exact hw
  · intro hE hR h h1 h2
    refine ⟨?_, rfl⟩
    unfold ServerSocket._HandleEvents
    simp only [ServerWorld.syscall]
    rw [if_neg (not_not.mpr hE), if_neg (not_not.mpr hR), if_pos ⟨h, h1, h2⟩, h]
    rfl
  · intro hE
    refine ⟨?_, rfl⟩
    unfold ServerSocket._HandleEvents
    simp only [ServerSocket.Error, ServerWorld.syscall]
    rw [if_pos hE]
    rfl

/-- The four cases of `failed_accept_leaves_peer` on the sample server
sockets, for the peer socket at address `700`. -/
theorem failed_accept_leaves_peer_witness :
    ((kernelFails sampleServer.calls).ret = -1
      ∧ ServerSocket.AsyncAccept haiku kernelFails (AcceptCallback.call haiku kernelFails 1)
          700 (AcceptCallback.fn 1 []) sampleServer
        = AcceptCallback.call haiku kernelFails 1 (AcceptCallback.fn 1 []) (-1)
            (sampleServer.afterCall (SocketEvent.accept sampleServer.server.fSocket))
      ∧ (sampleServer.afterCall (SocketEvent.accept sampleServer.server.fSocket)).peers
        = sampleServer.peers)
    ∧ ((kernelFailsOnce haiku.EAGAIN sampleServer.calls).ret = -1
      ∧ (ServerSocket.AsyncAccept haiku (kernelFailsOnce haiku.EAGAIN)
          (AcceptCallback.call haiku (kernelFailsOnce haiku.EAGAIN) 1)
          700 (AcceptCallback.fn 1 []) sampleServer).world?
        = some (((sampleServer.afterCall
            (SocketEvent.accept sampleServer.server.fSocket)).storeAccept
              700 (AcceptCallback.fn 1 [])).afterCall (sampleServer.selectEvent haiku))
      ∧ (((sampleServer.afterCall
            (SocketEvent.accept sampleServer.server.fSocket)).storeAccept
              700 (AcceptCallback.fn 1 [])).afterCall (sampleServer.selectEvent haiku)).peers
        = sampleServer.peers)
    ∧ (haiku.B_EVENT_READ &&& haiku.B_EVENT_ERROR = 0
      ∧ ServerSocket._HandleEvents haiku kernelFails (AcceptCallback.call haiku kernelFails 1)
          haiku.B_EVENT_READ pendingServer
        = AcceptCallback.call haiku kernelFails 1 pendingServer.server.fAcceptCallback (-1)
            (pendingServer.afterCall (SocketEvent.accept pendingServer.server.fSocket))
      ∧ (pendingServer.afterCall (SocketEvent.accept pendingServer.server.fSocket)).peers
        = pendingServer.peers)
    ∧ (haiku.B_EVENT_ERROR &&& haiku.B_EVENT_ERROR ≠ 0
      ∧ ServerSocket._HandleEvents haiku kernelFails (AcceptCallback.call haiku kernelFails 1)
          haiku.B_EVENT_ERROR pendingServer
        = AcceptCallback.call haiku kernelFails 1 pendingServer.server.fAcceptCallback
            (BaseSocket.errorOf (kernelFails pendingServer.calls))
            (pendingServer.afterCall (SocketEvent.getsockopt pendingServer.server.fSocket))
      ∧ (pendingServer.afterCall (SocketEvent.getsockopt pendingServer.server.fSocket)).peers
        = pendingServer.peers) :=
  ⟨⟨by decide, (failed_accept_leaves_peer haiku kernelFails _ 700 _ 0 sampleServer).1
      (by decide) (by decide) (by decide)⟩,
    ⟨by decide, (failed_accept_leaves_peer haiku (kernelFailsOnce haiku.EAGAIN) _ 700 _ 0
      sampleServer).2.1 (by decide) (Or.inl (by decide))⟩,
    ⟨by decide, (failed_accept_leaves_peer haiku kernelFails _ 700 (AcceptCallback.fn 1 [])
      haiku.B_EVENT_READ pendingServer).2.2.1 (by decide) (by decide) (by decide)
      (by decide) (by decide)⟩,
    ⟨by decide, (failed_accept_leaves_peer haiku kernelFails _ 700 (AcceptCallback.fn 1 [])
      haiku.B_EVENT_ERROR pendingServer).2.2.2 (by decide)⟩⟩

/-! ## The claims about would-block and in-progress -/

/-- C12 (counterexample): a `connect` that fails with `EAGAIN` is not
absorbed.  `AsyncConnect` makes the `connect`, arms no registration, and
invokes the completion callback with `EAGAIN` as its error. -/
theorem AsyncConnect_completes_with_EAGAIN :
    (kernelFailsOnce haiku.EAGAIN 0).ret = -1
    ∧ (kernelFailsOnce haiku.EAGAIN 0).errno = haiku.EAGAIN
    ∧ (StreamSocket.AsyncConnect haiku (kernelFailsOnce haiku.EAGAIN)
        (IOCallback.call haiku (kernelFailsOnce haiku.EAGAIN) 1) 80 (IOCallback.fn 1 [])
        sampleSocket).trace?
      = some [SocketEvent.connect 5 80, SocketEvent.callback 1 haiku.EAGAIN] := by
  refine ⟨?_, ?_, ?_⟩ <;> rfl

/-- C12 (amended): when the `recv` or `send` of `AsyncRecv`, `AsyncSend`,
`_HandleRecv` or `_HandleSend`, or the `accept` of `AsyncAccept` or of
`ServerSocket::_HandleEvents`, fails with `EAGAIN` or `EWOULDBLOCK`, or the
`connect` of `AsyncConnect` fails with `EINPROGRESS`, the operation adds to
the trace the kernel call and one one-shot registration (READ for recv and
accept, WRITE for send and connect) and nothing else: no callback is invoked.
A `connect` that fails with any other error, `EAGAIN` and `EWOULDBLOCK`
included, completes with that error. -/
theorem retry_errors_arm_wait (os : OSHeaders) (kernel : Nat → SysResult)
    (call : IOCallback → Int → SocketWorld → Outcome)
    (acall : AcceptCallback → Int → ServerWorld → ServerOutcome)
    (buffer size : Nat) (flags : Int) (peer : Nat) (cb : IOCallback) (w : SocketWorld)
    (s : Nat) (acb : AcceptCallback) (events : Nat) (sw : ServerWorld) :
    ((kernel w.calls).ret < 0 →
        ((kernel w.calls).errno = os.EAGAIN ∨ (kernel w.calls).errno = os.EWOULDBLOCK) →
      (StreamSocket.AsyncRecv os kernel call buffer size flags cb w).trace?
          = some (w.trace ++ [SocketEvent.recv w.socket.fSocket buffer size flags,
              w.selectEvent os os.B_EVENT_READ])
      ∧ (StreamSocket.AsyncSend os kernel call buffer size flags cb w).trace?
          = some (w.trace ++ [SocketEvent.send w.socket.fSocket buffer size flags,
              w.selectEvent os os.B_EVENT_WRITE])
      ∧ (StreamSocket._HandleRecv os kernel call w).trace?
          = some (w.trace ++ [SocketEvent.recv w.socket.fSocket w.socket.fRecvRequest.buffer
              w.socket.fRecvRequest.size w.socket.fRecvRequest.flags,
              w.selectEvent os os.B_EVENT_READ])
      ∧ (StreamSocket._HandleSend os kernel call w).trace?
          = some (w.trace ++ [SocketEvent.send w.socket.fSocket w.socket.fRecvRequest.buffer
              w.socket.fRecvRequest.size w.socket.fRecvRequest.flags,
              w.selectEvent os os.B_EVENT_WRITE]))
    ∧ ((kernel w.calls).ret ≠ 0 → (kernel w.calls).errno = os.EINPROGRESS →
      (StreamSocket.AsyncConnect os kernel call peer cb w).trace?
          = some (w.trace ++ [SocketEvent.connect w.socket.fSocket peer,
              w.selectEvent os os.B_EVENT_WRITE]))
    ∧ ((kernel w.calls).ret ≠ 0 → (kernel w.calls).errno ≠ os.EINPROGRESS →
      StreamSocket.AsyncConnect os kernel call peer cb w
          = call cb (kernel w.calls).errno
              (w.afterCall (SocketEvent.connect w.socket.fSocket peer)))
    ∧ ((kernel sw.calls).ret = -1 →
        ((kernel sw.calls).errno = os.EAGAIN ∨ (kernel sw.calls).errno = os.EWOULDBLOCK) →
      (ServerSocket.AsyncAccept os kernel acall s acb sw).trace?
          = some (sw.trace ++ [SocketEvent.accept sw.server.fSocket, sw.selectEvent os])
      ∧ (events &&& os.B_EVENT_ERROR = 0 → events &&& os.B_EVENT_READ ≠ 0 →
        (ServerSocket._HandleEvents os kernel acall events sw).trace?
          = some (sw.trace ++ [SocketEvent.accept sw.server.fSocket, sw.selectEvent os]))) := by
  refine ⟨?_, ?_, ?_, ?_⟩
  · intro h he
    have hcond : ¬ ((kernel w.calls).ret ≥ 0 ∨
        ((kernel w.calls).errno ≠ os.EAGAIN ∧ (kernel w.calls).errno ≠ os.EWOULDBLOCK)) := by
      rintro (h0 | ⟨h1, h2⟩)
      · exact absurd h (not_lt.mpr h0)
      · rcases he with he | he
        · exact h1 he
        · exact h2 he
    refine ⟨?_, ?_, ?_, ?_⟩
    · have hw := (waitForFD_world os kernel os.B_EVENT_READ
        ((w.afterCall (SocketEvent.recv w.socket.fSocket buffer size flags)).storeRecv
          buffer size flags cb)).1
      unfold StreamSocket.AsyncRecv
      simp only [SocketWorld.syscall]
      rw [if_neg hcond]
      unfold Outcome.trace?
      erw [hw]
      simp [SocketWorld.afterCall, SocketWorld.storeRecv, SocketWorld.selectEvent]
    · have hw := (waitForFD_world os kernel os.B_EVENT_WRITE
        ((w.afterCall (SocketEvent.send w.socket.fSocket buffer size flags)).storeSend
          buffer size flags cb)).1
      unfold StreamSocket.AsyncSend
      simp only [SocketWorld.syscall]
      rw [if_neg hcond]
      unfold Outcome.trace?
      erw [hw]
      simp [SocketWorld.afterCall, SocketWorld.storeSend, SocketWorld.selectEvent]
    · have hw := (waitForFD_world os kernel os.B_EVENT_READ
        (w.afterCall (SocketEvent.recv w.socket.fSocket w.socket.fRecvRequest.buffer
          w.socket.fRecvRequest.size w.socket.fRecvRequest.flags))).1
      unfold StreamSocket._HandleRecv
      simp only [SocketWorld.syscall]
      rw [if_neg hcond]
      unfold Outcome.trace?
      erw [hw]
      simp [SocketWorld.afterCall, SocketWorld.selectEvent]
    · have hw := (waitForFD_world os kernel os.B_EVENT_WRITE
        (w.afterCall (SocketEvent.send w.socket.fSocket w.socket.fRecvRequest.buffer
          w.socket.fRecvRequest.size w.socket.fRecvRequest.flags))).1
      unfold StreamSocket._HandleSend
      simp only [SocketWorld.syscall]
      rw [if_neg hcond]
      unfold Outcome.trace?
      erw [hw]
      simp [SocketWorld.afterCall, SocketWorld.selectEvent]
  · intro h he
    have hcond : ¬ ((kernel w.calls).ret = 0 ∨ (kernel w.calls).errno ≠ os.EINPROGRESS) := by
      rintro (h0 | h1)
      · exact h h0
      · exact h1 he
    have hw := (waitForFD_world os kernel os.B_EVENT_WRITE
      ((w.afterCall (SocketEvent.connect w.socket.fSocket peer)).storeConnect cb)).1
    unfold StreamSocket.AsyncConnect
    simp only [SocketWorld.syscall]
    rw [if_neg hcond]
    unfold Outcome.trace?
    erw [hw]
    simp [SocketWorld.afterCall, SocketWorld.storeConnect, SocketWorld.selectEvent]
  · intro h h1
    unfold StreamSocket.AsyncConnect
    simp only [SocketWorld.syscall]
    rw [if_pos (Or.inr h1), if_neg h]
    rfl
  · intro h he
    have hc1 : ¬ ((kernel sw.calls).ret = -1 ∧ (kernel sw.calls).errno ≠ os.EAGAIN
        ∧ (kernel sw.calls).errno ≠ os.EWOULDBLOCK) := by
      rintro ⟨_, h1, h2⟩
      rcases he with he | he
      · exact h1 he
      · exact h2 he
    have hc2 : ¬ ((kernel sw.calls).ret ≥ 0) := by rw [h]; decide
    refine ⟨?_, ?_⟩
    · have hw := (ServerSocket.waitForRead_world os kernel
        ((sw.afterCall (SocketEvent.accept sw.server.fSocket)).storeAccept s acb)).1
      unfold ServerSocket.AsyncAccept
      simp only [ServerWorld.syscall]
      rw [if_neg hc1, if_neg hc2]
      unfold ServerOutcome.trace?
      erw [hw]
      simp [ServerWorld.afterCall, ServerWorld.storeAccept, ServerWorld.selectEvent]
    · intro hE hR
      have hw := (ServerSocket.waitForRead_world os kernel
        (sw.afterCall (SocketEvent.accept sw.server.fSocket))).1
      unfold ServerSocket._HandleEvents
      simp only [ServerWorld.syscall]
      rw [if_neg (not_not.mpr hE), if_neg (not_not.mpr hR), if_neg hc1, if_neg hc2]
      unfold ServerOutcome.trace?
      erw [hw]
      simp [ServerWorld.afterCall, ServerWorld.selectEvent]

/-- The cases of `retry_errors_arm_wait` on the sample sockets: a first
kernel call that fails with `EAGAIN` (and with `EINPROGRESS` for the absorbed
`connect`). -/
theorem retry_errors_arm_wait_witness :
    ((kernelFailsOnce haiku.EAGAIN pendingSocket.calls).ret < 0
      ∧ (kernelFailsOnce haiku.EAGAIN pendingSocket.calls).errno = haiku.EAGAIN
      ∧ (StreamSocket.AsyncRecv haiku (kernelFailsOnce haiku.EAGAIN)
          (IOCallback.call haiku (kernelFailsOnce haiku.EAGAIN) 1) 500 10 0
          (IOCallback.fn 7 []) pendingSocket).trace?
        = some [SocketEvent.recv 5 500 10 0, SocketEvent.select 3 5 0 0x6001 900]
      ∧ (StreamSocket.AsyncSend haiku (kernelFailsOnce haiku.EAGAIN)
          (IOCallback.call haiku (kernelFailsOnce haiku.EAGAIN) 1) 500 10 0
          (IOCallback.fn 7 []) pendingSocket).trace?
        = some [SocketEvent.send 5 500 10 0, SocketEvent.select 3 5 0 0x6002 900]
      ∧ (StreamSocket._HandleRecv haiku (kernelFailsOnce haiku.EAGAIN)
          (IOCallback.call haiku (kernelFailsOnce haiku.EAGAIN) 1) pendingSocket).trace?
        = some [SocketEvent.recv 5 500 10 0, SocketEvent.select 3 5 0 0x6001 900]
      ∧ (StreamSocket._HandleSend haiku (kernelFailsOnce haiku.EAGAIN)
          (IOCallback.call haiku (kernelFailsOnce haiku.EAGAIN) 1) pendingSocket).trace?
        = some [SocketEvent.send 5 500 10 0, SocketEvent.select 3 5 0 0x6002 900])
    ∧ ((kernelFailsOnce haiku.EINPROGRESS sampleSocket.calls).ret ≠ 0
      ∧ (kernelFailsOnce haiku.EINPROGRESS sampleSocket.calls).errno = haiku.EINPROGRESS
      ∧ (StreamSocket.AsyncConnect haiku (kernelFailsOnce haiku.EINPROGRESS)
          (IOCallback.call haiku (kernelFailsOnce haiku.EINPROGRESS) 1) 80
          (IOCallback.fn 7 []) sampleSocket).trace?
        = some [SocketEvent.connect 5 80, SocketEvent.select 3 5 0 0x6002 900])
    ∧ ((kernelFailsOnce haiku.EAGAIN pendingSocket.calls).errno ≠ haiku.EINPROGRESS
      ∧ StreamSocket.AsyncConnect haiku (kernelFailsOnce haiku.EAGAIN)
          (IOCallback.call haiku (kernelFailsOnce haiku.EAGAIN) 1) 80
          (IOCallback.fn 7 []) pendingSocket
        = IOCallback.call haiku (kernelFailsOnce haiku.EAGAIN) 1 (IOCallback.fn 7 [])
            (kernelFailsOnce haiku.EAGAIN pendingSocket.calls).errno
            (pendingSocket.afterCall (SocketEvent.connect pendingSocket.socket.fSocket 80)))
    ∧ ((kernelFailsOnce haiku.EAGAIN pendingServer.calls).ret = -1
      ∧ haiku.B_EVENT_READ &&& haiku.B_EVENT_ERROR = 0
      ∧ haiku.B_EVENT_READ &&& haiku.B_EVENT_READ ≠ 0
      ∧ (ServerSocket.AsyncAccept haiku (kernelFailsOnce haiku.EAGAIN)
          (AcceptCallback.call haiku (kernelFailsOnce haiku.EAGAIN) 1) 700
          (AcceptCallback.fn 1 []) pendingServer).trace?
        = some [SocketEvent.accept 5, SocketEvent.select 3 5 0 0x6001 900]
      ∧ (ServerSocket._HandleEvents haiku (kernelFailsOnce haiku.EAGAIN)
          (AcceptCallback.call haiku (kernelFailsOnce haiku.EAGAIN) 1)
          haiku.B_EVENT_READ pendingServer).trace?
        = some [SocketEvent.accept 5, SocketEvent.select 3 5 0 0x6001 900]) :=
  have h := retry_errors_arm_wait haiku (kernelFailsOnce haiku.EAGAIN)
    (IOCallback.call haiku (kernelFailsOnce haiku.EAGAIN) 1)
    (AcceptCallback.call haiku (kernelFailsOnce haiku.EAGAIN) 1) 500 10 0 80
    (IOCallback.fn 7 []) pendingSocket 700 (AcceptCallback.fn 1 []) haiku.B_EVENT_READ
    pendingServer
  have hc := retry_errors_arm_wait haiku (kernelFailsOnce haiku.EINPROGRESS)
    (IOCallback.call haiku (kernelFailsOnce haiku.EINPROGRESS) 1)
    (AcceptCallback.call haiku (kernelFailsOnce haiku.EINPROGRESS) 1) 500 10 0 80
    (IOCallback.fn 7 []) sampleSocket 700 (AcceptCallback.fn 1 []) haiku.B_EVENT_READ
    pendingServer
  have hs := h.1 (by decide) (Or.inl (by decide))
  have ha := h.2.2.2 (by decide) (Or.inl (by decide))
  ⟨⟨by decide, by decide, hs.1, hs.2.1, hs.2.2.1, hs.2.2.2⟩,
    ⟨by decide, by decide, hc.2.1 (by decide) (by decide)⟩,
    ⟨by decide, h.2.2.1 (by decide) (by decide)⟩,
    ⟨by decide, by decide, by decide, ha.1, ha.2 (by decide) (by decide)⟩⟩

/-! ## EventLoop: the claims about the wait and the registrations -/

/-- Work items and timer firings are neither the wait nor event callbacks. -/
theorem work_fired_not_wait_event (fs : List Function) (ts : List timer) :
    (fs.map (fun f => LoopEvent.work f.tag) ++ ts.map firedEvent).filter
      (fun e => e.isWait || e.isEvent) = [] := by
  rw [List.filter_eq_nil_iff]
  intro e he
  rcases List.mem_append.mp he with h | h
  · obtain ⟨f, _, rfl⟩ := List.mem_map.mp h
    simp [LoopEvent.isWait, LoopEvent.isEvent]
  · obtain ⟨t, _, rfl⟩ := List.mem_map.mp h
    simp [firedEvent, LoopEvent.isWait, LoopEvent.isEvent]

/-- C17: a `RunOnce` that returns has returned the result of the wait, and
its trace is: observations that are neither a wait nor an event callback,
then one `event_queue_wait` asking for at most `50` events, then nothing when
the wait failed (result below `B_OK`), and otherwise the callbacks behind the
cookies of the returned events `0 .. result - 1`, in that order, each with
the `events` mask of its event.  `RunOnce` does return when no registered
timer function enqueues a timer. -/
theorem RunOnce_wait_and_dispatch (os : OSHeaders) (current result : Int)
    (infos : Nat → event_wait_info) (L : EventLoop) :
    (∀ (fuel : Nat) (r : Int) (L' : EventLoop),
      L.RunOnce os fuel current result infos = some (r, L') →
      r = result ∧ ∃ (pre : List LoopEvent) (timeout : Int),
        pre.filter (fun e => e.isWait || e.isEvent) = []
        ∧ L'.trace = L.trace ++ pre
          ++ [LoopEvent.wait L.fEventQueue 50 os.B_ABSOLUTE_REAL_TIME_TIMEOUT timeout]
          ++ (if result < B_OK then []
              else (List.range result.toNat).map (fun i => dispatchedEvent (infos i))))
    ∧ ((∀ t ∈ L._DispatchWork.fTimers, t.function.enqueuesNoTimer) →
      ∃ L', L.RunOnce os L._DispatchWork.fTimers.length current result infos
        = some (result, L')) := by
  have part1 : ∀ (fuel : Nat) (r : Int) (L' : EventLoop),
      L.RunOnce os fuel current result infos = some (r, L') →
      r = result ∧ ∃ (pre : List LoopEvent) (timeout : Int),
        pre.filter (fun e => e.isWait || e.isEvent) = []
        ∧ L'.trace = L.trace ++ pre
          ++ [LoopEvent.wait L.fEventQueue 50 os.B_ABSOLUTE_REAL_TIME_TIMEOUT timeout]
          ++ (if result < B_OK then []
              else (List.range result.toNat).map (fun i => dispatchedEvent (infos i))) := by
    intro fuel r L' h
    unfold EventLoop.RunOnce at h
    simp only at h
    split at h
    · cases h
    · rename_i L1 hT
      obtain ⟨ts, h1, _, h3⟩ := DispatchTimers_trace current fuel _ _ hT
      have hw := DispatchWork_trace L
      split at h
      · rename_i hneg
        cases h
        refine ⟨rfl, L.fWorkQueue.map (fun f => LoopEvent.work f.tag) ++ ts.map firedEvent,
          L1._DetermineTimeout os, work_fired_not_wait_event _ _, ?_⟩
        rw [if_pos hneg]
        simp only
        rw [h1, hw.1, h3, hw.2.1]
        simp [EVENTS_TO_READ]
      · rename_i hneg
        cases h
        refine ⟨rfl, L.fWorkQueue.map (fun f => LoopEvent.work f.tag) ++ ts.map firedEvent,
          L1._DetermineTimeout os, work_fired_not_wait_event _ _, ?_⟩
        rw [if_neg hneg, foldl_dispatch_trace]
        simp only
        rw [h1, hw.1, h3, hw.2.1]
        simp [EVENTS_TO_READ]
  refine ⟨part1, ?_⟩
  intro hq
  obtain ⟨r, L', h⟩ := RunOnce_returns os current result infos L hq
  have hr := (part1 _ r L' h).1
  exact ⟨L', by rw [h, hr]⟩

/-- The statement of `RunOnce_wait_and_dispatch` on the sample loop, for a
wait that fails with `-5`. -/
theorem RunOnce_wait_and_dispatch_witness :
    sampleLoop.RunOnce haiku 5 100 (-5) sampleInfos = some (-5, sampleLoopWaitFailed)
    ∧ ((-5 : Int) = -5 ∧ ∃ (pre : List LoopEvent) (timeout : Int),
        pre.filter (fun e => e.isWait || e.isEvent) = []
        ∧ sampleLoopWaitFailed.trace = sampleLoop.trace ++ pre
          ++ [LoopEvent.wait sampleLoop.fEventQueue 50 haiku.B_ABSOLUTE_REAL_TIME_TIMEOUT
                timeout]
          ++ (if (-5 : Int) < B_OK then []
              else (List.range (-5 : Int).toNat).map
                (fun i => dispatchedEvent (sampleInfos i))))
    ∧ (∀ t ∈ sampleLoop._DispatchWork.fTimers, t.function.enqueuesNoTimer)
    ∧ ∃ L', sampleLoop.RunOnce haiku sampleLoop._DispatchWork.fTimers.length 100 (-5)
        sampleInfos = some (-5, L') :=
  have hq : ∀ t ∈ sampleLoop._DispatchWork.fTimers, t.function.enqueuesNoTimer := by
    intro t ht
    have hT : sampleLoop._DispatchWork.fTimers
        = [{ expiration := 40, function := sampleFn 12 },
           { expiration := 20, function := sampleFn 11 }] := rfl
    rw [hT] at ht
    simp only [List.mem_cons, List.mem_singleton, List.not_mem_nil, or_false] at ht
    rcases ht with rfl | rfl <;> intro c hc <;> simp [sampleFn, Function.body] at hc
  ⟨rfl, (RunOnce_wait_and_dispatch haiku 100 (-5) sampleInfos sampleLoop).1 5 (-5)
      sampleLoopWaitFailed rfl, hq,
    (RunOnce_wait_and_dispatch haiku 100 (-5) sampleInfos sampleLoop).2 hq⟩

/-- The registration built by `_WaitForObject` is the expected one when the
mask, the flags and the type tag fit their `uint16` parameter and field. -/
theorem selectInfo_in_range (os : OSHeaders) (id : Int) (tag : Nat) (mask : Int)
    (callback : EventCallback) (oneShot : Bool)
    (hmask : 0 ≤ mask ∧ mask < 65536) (hsel : os.B_EVENT_SELECT < 65536)
    (hone : os.B_EVENT_ONE_SHOT < 65536) (htag : tag < 65536) :
    EventLoop.selectInfo os id tag mask callback oneShot
      = EventLoop.expectedInfo os id tag mask callback oneShot := by
  have h16 : (65536 : Nat) = 2 ^ 16 := by norm_num
  have hm : mask % 65536 = mask := Int.emod_eq_of_lt hmask.1 hmask.2
  have hmn : mask.toNat < 2 ^ 16 := by omega
  have ht : ((tag : Int) % 65536).toNat = tag := by
    rw [Int.emod_eq_of_lt (by omega) (by omega)]
    exact Int.toNat_natCast tag
  have ho : (if oneShot then os.B_EVENT_ONE_SHOT else 0) < 2 ^ 16 := by
    split <;> omega
  have hlt : mask.toNat ||| os.B_EVENT_SELECT ||| (if oneShot then os.B_EVENT_ONE_SHOT else 0)
      < 65536 := by
    rw [h16]
    exact Nat.or_lt_two_pow (Nat.or_lt_two_pow hmn (by omega)) ho
  unfold EventLoop.selectInfo EventLoop.expectedInfo
  rw [hm, ht, Nat.mod_eq_of_lt hlt]

/-- C18 (counterexample): for the mask `65537`, which is `B_EVENT_READ` with
bit 16 set, the registration of `WaitForFD` holds the events `0x6001`, the
mask reduced modulo `2^16` with the two flags, and not
`mask | B_EVENT_SELECT | B_EVENT_ONE_SHOT`, which is `0x16001`; the select
that echoes its registration shows it through the status. -/
theorem WaitForFD_truncates_mask :
    (EventLoop.selectInfo haiku 5 haiku.B_OBJECT_TYPE_FD 65537 sampleCallback true).events
      = 0x6001
    ∧ (65537 ||| haiku.B_EVENT_SELECT ||| haiku.B_EVENT_ONE_SHOT : Nat) = 0x16001
    ∧ sampleLoop.WaitForFD haiku selectEchoes 5 65537 sampleCallback = 0x6001 := by
  refine ⟨?_, ?_, ?_⟩ <;> rfl

/-- C18 (amended): for every id, callback and `oneShot` flag and every event
mask in `0 .. 65535` (with header constants that fit their `uint16` fields),
each of `WaitForFD`, `WaitForPort`, `WaitForSemaphore` and `WaitForThread`
applies `event_queue_select` once, to the queue of the loop and the
registration with object `id`, the type tag of the object kind, the given
callback as `user_data`, and events `mask | B_EVENT_SELECT |
(B_EVENT_ONE_SHOT when oneShot)`; `oneShot` is `true` when it is left out. -/
theorem WaitFor_registration (os : OSHeaders) (L : EventLoop)
    (select : Int → event_wait_info → Int × Nat)
    (id : Int) (mask : Int) (callback : EventCallback) (oneShot : Bool)
    (hmask : 0 ≤ mask ∧ mask < 65536) (hsel : os.B_EVENT_SELECT < 65536)
    (hone : os.B_EVENT_ONE_SHOT < 65536)
    (htags : os.B_OBJECT_TYPE_FD < 65536 ∧ os.B_OBJECT_TYPE_PORT < 65536
      ∧ os.B_OBJECT_TYPE_SEMAPHORE < 65536 ∧ os.B_OBJECT_TYPE_THREAD < 65536) :
    (L.WaitForFD os select id mask callback oneShot
        = EventLoop.selectStatus os (select L.fEventQueue
            (EventLoop.expectedInfo os id os.B_OBJECT_TYPE_FD mask callback oneShot))
      ∧ L.WaitForPort os select id mask callback oneShot
        = EventLoop.selectStatus os (select L.fEventQueue
            (EventLoop.expectedInfo os id os.B_OBJECT_TYPE_PORT mask callback oneShot))
      ∧ L.WaitForSemaphore os select id mask callback oneShot
        = EventLoop.selectStatus os (select L.fEventQueue
            (EventLoop.expectedInfo os id os.B_OBJECT_TYPE_SEMAPHORE mask callback oneShot))
      ∧ L.WaitForThread os select id mask callback oneShot
        = EventLoop.selectStatus os (select L.fEventQueue
            (EventLoop.expectedInfo os id os.B_OBJECT_TYPE_THREAD mask callback oneShot)))
    ∧ (L.WaitForFD os select id mask callback
        = L.WaitForFD os select id mask callback true
      ∧ L.WaitForPort os select id mask callback
        = L.WaitForPort os select id mask callback true
      ∧ L.WaitForSemaphore os select id mask callback
        = L.WaitForSemaphore os select id mask callback true
      ∧ L.WaitForThread os select id mask callback
        = L.WaitForThread os select id mask callback true) := by
  have key : ∀ tag : Nat, tag < 65536 →
      L._WaitForObject os select id tag mask callback oneShot
        = EventLoop.selectStatus os (select L.fEventQueue
            (EventLoop.expectedInfo os id tag mask callback oneShot)) := by
    intro tag htag
    unfold EventLoop._WaitForObject EventLoop.selectStatus
    rw [selectInfo_in_range os id tag mask callback oneShot hmask hsel hone htag]
  exact ⟨⟨key _ htags.1, key _ htags.2.1, key _ htags.2.2.1, key _ htags.2.2.2⟩,
    rfl, rfl, rfl, rfl⟩

/-- The statement of `WaitFor_registration` for the mask `B_EVENT_READ`, the
id `5` and the select that echoes its registration. -/
theorem WaitFor_registration_witness :
    ((0 : Int) ≤ haiku.B_EVENT_READ ∧ (haiku.B_EVENT_READ : Int) < 65536)
    ∧ haiku.B_EVENT_SELECT < 65536 ∧ haiku.B_EVENT_ONE_SHOT < 65536
    ∧ (haiku.B_OBJECT_TYPE_FD < 65536 ∧ haiku.B_OBJECT_TYPE_PORT < 65536
      ∧ haiku.B_OBJECT_TYPE_SEMAPHORE < 65536 ∧ haiku.B_OBJECT_TYPE_THREAD < 65536)
    ∧ sampleLoop.WaitForFD haiku selectEchoes 5 haiku.B_EVENT_READ sampleCallback false
      = EventLoop.selectStatus haiku (selectEchoes sampleLoop.fEventQueue
          (EventLoop.expectedInfo haiku 5 haiku.B_OBJECT_TYPE_FD haiku.B_EVENT_READ
            sampleCallback false))
    ∧ sampleLoop.WaitForThread haiku selectEchoes 5 haiku.B_EVENT_READ sampleCallback
      = sampleLoop.WaitForThread haiku selectEchoes 5 haiku.B_EVENT_READ sampleCallback
          true :=
  have h := WaitFor_registration haiku sampleLoop selectEchoes 5 haiku.B_EVENT_READ
    sampleCallback false (by decide) (by decide) (by decide) (by decide)
  ⟨by decide, by decide, by decide, by decide, h.1.1, h.2.2.2.2⟩

/-- C19 (counterexample): when `event_queue_select` returns the sentinel
`B_ERROR` and leaves `0` in the `events` field, `_WaitForObject` returns
`B_OK` although the select did not return `B_OK`. -/
theorem WaitForObject_returns_OK_on_failure :
    sampleLoop._WaitForObject haiku selectFailsWithZero 5 haiku.B_OBJECT_TYPE_FD
        haiku.B_EVENT_READ sampleCallback true = B_OK
    ∧ (selectFailsWithZero sampleLoop.fEventQueue
        (EventLoop.selectInfo haiku 5 haiku.B_OBJECT_TYPE_FD haiku.B_EVENT_READ
          sampleCallback true)).1 = haiku.B_ERROR
    ∧ haiku.B_ERROR ≠ B_OK := by
  refine ⟨?_, ?_, ?_⟩ <;> decide

/-- C19 (amended): with the sentinel `B_ERROR` distinct from `B_OK`,
`_WaitForObject` returns `B_OK` exactly when `event_queue_select` returned
`B_OK`, or returned `B_ERROR` and left `0` in the `events` field; when select
returns `B_ERROR` the status is the value select left in the `events` field;
for any other failure it is the result of select; and each `WaitFor*` returns
what `_WaitForObject` returns for its type tag. -/
theorem WaitForObject_status (os : OSHeaders) (L : EventLoop)
    (select : Int → event_wait_info → Int × Nat)
    (object type events : Int) (callback : EventCallback) (oneShot : Bool)
    (hne : os.B_ERROR ≠ B_OK) :
    (L._WaitForObject os select object type events callback oneShot = B_OK ↔
      ((select L.fEventQueue
          (EventLoop.selectInfo os object type events callback oneShot)).1 = B_OK
        ∨ ((select L.fEventQueue
            (EventLoop.selectInfo os object type events callback oneShot)).1 = os.B_ERROR
          ∧ (select L.fEventQueue
            (EventLoop.selectInfo os object type events callback oneShot)).2 = 0)))
    ∧ ((select L.fEventQueue
          (EventLoop.selectInfo os object type events callback oneShot)).1 = os.B_ERROR →
        L._WaitForObject os select object type events callback oneShot
          = (select L.fEventQueue
              (EventLoop.selectInfo os object type events callback oneShot)).2)
    ∧ ((select L.fEventQueue
          (EventLoop.selectInfo os object type events callback oneShot)).1 ≠ os.B_ERROR →
        (select L.fEventQueue
          (EventLoop.selectInfo os object type events callback oneShot)).1 ≠ B_OK →
        L._WaitForObject os select object type events callback oneShot
          = (select L.fEventQueue
              (EventLoop.selectInfo os object type events callback oneShot)).1)
    ∧ (L.WaitForFD os select object events callback oneShot
          = L._WaitForObject os select object os.B_OBJECT_TYPE_FD events callback oneShot
      ∧ L.WaitForPort os select object events callback oneShot
          = L._WaitForObject os select object os.B_OBJECT_TYPE_PORT events callback oneShot
      ∧ L.WaitForSemaphore os select object events callback oneShot
          = L._WaitForObject os select object os.B_OBJECT_TYPE_SEMAPHORE events callback
              oneShot
      ∧ L.WaitForThread os select object events callback oneShot
          = L._WaitForObject os select object os.B_OBJECT_TYPE_THREAD events callback
              oneShot) := by
  generalize hsel : select L.fEventQueue
    (EventLoop.selectInfo os object type events callback oneShot) = reply
  have hdef : L._WaitForObject os select object type events callback oneShot
      = if reply.1 = os.B_ERROR then (reply.2 : Int)
        else if reply.1 ≠ B_OK then reply.1 else B_OK := by
    unfold EventLoop._WaitForObject
    simp only [hsel]
  refine ⟨?_, ?_, ?_, rfl, rfl, rfl, rfl⟩
  · rw [hdef]
    constructor
    · intro h
      by_cases h1 : reply.1 = os.B_ERROR
      · rw [if_pos h1] at h
        right
        refine ⟨h1, ?_⟩
        have : (reply.2 : Int) = 0 := h
        exact_mod_cast this
      · rw [if_neg h1] at h
        by_cases h2 : reply.1 = B_OK
        · exact Or.inl h2
        · rw [if_pos h2] at h
          exact absurd h h2
    · rintro (h | ⟨h1, h2⟩)
      · have h1 : reply.1 ≠ os.B_ERROR := by rw [h]; exact fun e => hne e.symm
        rw [if_neg h1, if_neg (not_not.mpr h)]
      · rw [if_pos h1, h2]
        rfl
  · intro h1
    rw [hdef, if_pos h1]
  · intro h1 h2
    rw [hdef, if_neg h1, if_pos h2]

/-- The statement of `WaitForObject_status` for the select that returns
`B_OK`. -/
theorem WaitForObject_status_witness :
    haiku.B_ERROR ≠ B_OK
    ∧ (sampleLoop._WaitForObject haiku selectSucceeds 5 haiku.B_OBJECT_TYPE_FD
          haiku.B_EVENT_READ sampleCallback true = B_OK ↔
        ((selectSucceeds sampleLoop.fEventQueue
            (EventLoop.selectInfo haiku 5 haiku.B_OBJECT_TYPE_FD haiku.B_EVENT_READ
              sampleCallback true)).1 = B_OK
          ∨ ((selectSucceeds sampleLoop.fEventQueue
              (EventLoop.selectInfo haiku 5 haiku.B_OBJECT_TYPE_FD haiku.B_EVENT_READ
                sampleCallback true)).1 = haiku.B_ERROR
            ∧ (selectSucceeds sampleLoop.fEventQueue
              (EventLoop.selectInfo haiku 5 haiku.B_OBJECT_TYPE_FD haiku.B_EVENT_READ
                sampleCallback true)).2 = 0))) :=
  ⟨by decide, (WaitForObject_status haiku sampleLoop selectSucceeds 5
    haiku.B_OBJECT_TYPE_FD haiku.B_EVENT_READ sampleCallback true (by decide)).1⟩

/-! ## BaseSocket: the claims about the status of the synchronous operations -/

/-- C21: each of `Open`, `Close`, `Bind`, `SetNonBlocking` and `Listen` returns
`0` when its kernel call succeeds (`socket` returns a descriptor `>= 0`, the
others return `0`) and the `errno` of the call when it fails (returns `-1`),
so with a non-zero `errno` the status is not `0` then; `Open` stores the
descriptor on success and leaves `fSocket` at `-1` on failure. -/
theorem sync_operations_status (kernel : Nat → SysResult) (protocol : SocketProtocol)
    (address : AddressType) (nonBlocking : Bool) (backlog : Int)
    (w : BaseWorld) (sw : ServerWorld) :
    ((0 ≤ (kernel w.calls).ret →
        (BaseSocket.Open kernel protocol w).1 = 0
        ∧ (BaseSocket.Open kernel protocol w).2.socket.fSocket = (kernel w.calls).ret)
      ∧ ((kernel w.calls).ret = -1 →
        (BaseSocket.Open kernel protocol w).1 = (kernel w.calls).errno
        ∧ (BaseSocket.Open kernel protocol w).2.socket.fSocket = -1))
    ∧ (((kernel w.calls).ret = 0 →
        (BaseSocket.Close kernel w).1 = 0
        ∧ (BaseSocket.Bind kernel address w).1 = 0
        ∧ (BaseSocket.SetNonBlocking kernel nonBlocking w).1 = 0)
      ∧ ((kernel w.calls).ret = -1 →
        (BaseSocket.Close kernel w).1 = (kernel w.calls).errno
        ∧ (BaseSocket.Bind kernel address w).1 = (kernel w.calls).errno
        ∧ (BaseSocket.SetNonBlocking kernel nonBlocking w).1 = (kernel w.calls).errno))
    ∧ (((kernel sw.calls).ret = 0 → (ServerSocket.Listen kernel backlog sw).1 = 0)
      ∧ ((kernel sw.calls).ret = -1 →
        (ServerSocket.Listen kernel backlog sw).1 = (kernel sw.calls).errno))
    ∧ ((kernel w.calls).ret = -1 → (kernel w.calls).errno ≠ 0 →
        (BaseSocket.Open kernel protocol w).1 ≠ 0
        ∧ (BaseSocket.Close kernel w).1 ≠ 0
        ∧ (BaseSocket.Bind kernel address w).1 ≠ 0
        ∧ (BaseSocket.SetNonBlocking kernel nonBlocking w).1 ≠ 0)
    ∧ ((kernel sw.calls).ret = -1 → (kernel sw.calls).errno ≠ 0 →
        (ServerSocket.Listen kernel backlog sw).1 ≠ 0) := by
  have hOpenF : (kernel w.calls).ret = -1 →
      (BaseSocket.Open kernel protocol w).1 = (kernel w.calls).errno
      ∧ (BaseSocket.Open kernel protocol w).2.socket.fSocket = -1 := by
    intro h
    unfold BaseSocket.Open
    simp only [BaseWorld.syscall]
    rw [if_pos h]
    exact ⟨rfl, h⟩
  have hRestF : (kernel w.calls).ret = -1 →
      (BaseSocket.Close kernel w).1 = (kernel w.calls).errno
      ∧ (BaseSocket.Bind kernel address w).1 = (kernel w.calls).errno
      ∧ (BaseSocket.SetNonBlocking kernel nonBlocking w).1 = (kernel w.calls).errno := by
    intro h
    have hne : (kernel w.calls).ret ≠ 0 := by rw [h]; decide
    refine ⟨?_, ?_, ?_⟩
    · unfold BaseSocket.Close
      simp only [BaseWorld.syscall]
      rw [if_pos hne]
    · unfold BaseSocket.Bind
      simp only [BaseWorld.syscall]
      rw [if_pos h]
    · unfold BaseSocket.SetNonBlocking
      simp only [BaseWorld.syscall]
      rw [if_pos hne]
  have hListenF : (kernel sw.calls).ret = -1 →
      (ServerSocket.Listen kernel backlog sw).1 = (kernel sw.calls).errno := by
    intro h
    have hne : (kernel sw.calls).ret ≠ 0 := by rw [h]; decide
    unfold ServerSocket.Listen
    simp only [ServerWorld.syscall]
    rw [if_pos hne]
  refine ⟨⟨?_, hOpenF⟩, ⟨?_, hRestF⟩, ⟨?_, hListenF⟩, ?_, ?_⟩
  · intro h
    have hne : ¬ ((kernel w.calls).ret = -1) := by omega
    unfold BaseSocket.Open
    simp only [BaseWorld.syscall]
    rw [if_neg hne]
    exact ⟨rfl, rfl⟩
  · intro h
    have hne : ¬ ((kernel w.calls).ret = -1) := by rw [h]; decide
    refine ⟨?_, ?_, ?_⟩
    · unfold BaseSocket.Close
      simp only [BaseWorld.syscall]
      rw [if_neg (not_not.mpr h)]
    · unfold BaseSocket.Bind
      simp only [BaseWorld.syscall]
      rw [if_neg hne]
    · unfold BaseSocket.SetNonBlocking
      simp only [BaseWorld.syscall]
      rw [if_neg (not_not.mpr h)]
  · intro h
    unfold ServerSocket.Listen
    simp only [ServerWorld.syscall]
    rw [if_neg (not_not.mpr h)]
  · intro h he
    have h1 := hOpenF h
    have h2 := hRestF h
    rw [h1.1, h2.1, h2.2.1, h2.2.2]
    exact ⟨he, he, he, he⟩
  · intro h he
    rw [hListenF h]
    exact he

/-- The cases of `sync_operations_status` on the sample sockets: a kernel
call that returns `9`, one that returns `0`, and one that fails with the
error `-2147454964`. -/
theorem sync_operations_status_witness :
    ((0 : Int) ≤ (kernelReturns9 sampleBase.calls).ret
      ∧ (BaseSocket.Open kernelReturns9 sampleProtocol sampleBase).1 = 0
      ∧ (BaseSocket.Open kernelReturns9 sampleProtocol sampleBase).2.socket.fSocket
        = (kernelReturns9 sampleBase.calls).ret)
    ∧ ((kernelReturns0 sampleBase.calls).ret = 0
      ∧ (BaseSocket.Close kernelReturns0 sampleBase).1 = 0
      ∧ (BaseSocket.Bind kernelReturns0 sampleAddress sampleBase).1 = 0
      ∧ (BaseSocket.SetNonBlocking kernelReturns0 true sampleBase).1 = 0
      ∧ (ServerSocket.Listen kernelReturns0 8 sampleServer).1 = 0)
    ∧ ((kernelFails sampleBase.calls).ret = -1 ∧ (kernelFails sampleBase.calls).errno ≠ 0
      ∧ ((BaseSocket.Open kernelFails sampleProtocol sampleBase).1
          = (kernelFails sampleBase.calls).errno
        ∧ (BaseSocket.Open kernelFails sampleProtocol sampleBase).2.socket.fSocket = -1)
      ∧ ((BaseSocket.Close kernelFails sampleBase).1 = (kernelFails sampleBase.calls).errno
        ∧ (BaseSocket.Bind kernelFails sampleAddress sampleBase).1
          = (kernelFails sampleBase.calls).errno
        ∧ (BaseSocket.SetNonBlocking kernelFails true sampleBase).1
          = (kernelFails sampleBase.calls).errno)
      ∧ (ServerSocket.Listen kernelFails 8 sampleServer).1
          = (kernelFails sampleServer.calls).errno
      ∧ ((BaseSocket.Open kernelFails sampleProtocol sampleBase).1 ≠ 0
        ∧ (BaseSocket.Close kernelFails sampleBase).1 ≠ 0
        ∧ (BaseSocket.Bind kernelFails sampleAddress sampleBase).1 ≠ 0
        ∧ (BaseSocket.SetNonBlocking kernelFails true sampleBase).1 ≠ 0)
      ∧ (ServerSocket.Listen kernelFails 8 sampleServer).1 ≠ 0) :=
  have h9 := sync_operations_status kernelReturns9 sampleProtocol sampleAddress true 8
    sampleBase sampleServer
  have h0 := sync_operations_status kernelReturns0 sampleProtocol sampleAddress true 8
    sampleBase sampleServer
  have hf := sync_operations_status kernelFails sampleProtocol sampleAddress true 8
    sampleBase sampleServer
  have h0c := h0.2.1.1 (by decide)
  ⟨⟨by decide, h9.1.1 (by decide)⟩,
    ⟨by decide, h0c.1, h0c.2.1, h0c.2.2, h0.2.2.1.1 (by decide)⟩,
    ⟨by decide, by decide, hf.1.2 (by decide), hf.2.1.2 (by decide),
      hf.2.2.1.2 (by decide), hf.2.2.2.1 (by decide) (by decide),
      hf.2.2.2.2 (by decide) (by decide)⟩⟩

/-! ## EventLoop: the claims about the timer vector -/

/-- C22 (the code at the failing input): after `ExecuteAt(f, 50)` and
`ExecuteAt(g, 300)` on an empty loop the timer vector is `[300, 50]`, which
violates the min-heap property at index `1`; a `_DispatchTimers` at time
`10` leaves that vector; and so is the vector `[1200, 1050, 1100]` of the
three-timer scenario. -/
theorem timer_vector_not_min_heap :
    twoTimers.timerTags = [(2, 300), (1, 50)]
    ∧ timersMinHeap twoTimers.fTimers = false
    ∧ (twoTimers._DispatchTimers 0 10).map (fun L => timersMinHeap L.fTimers) = some false
    ∧ threeTimers.timerTags = [(200, 1200), (50, 1050), (100, 1100)]
    ∧ timersMinHeap threeTimers.fTimers = false := by
  refine ⟨?_, ?_, ?_, ?_, ?_⟩ <;> rfl

/-- The loop of `_DispatchTimers` is the repetition of `dispatchTimerOnce`:
it ends when the body reports the end, and out of fuel it does not return. -/
theorem DispatchTimers_step (current : Int) (L : EventLoop) :
    (∀ fuel : Nat, L._DispatchTimers (fuel + 1) current
      = match L.dispatchTimerOnce current with
        | none => some L
        | some L1 => L1._DispatchTimers fuel current)
    ∧ L._DispatchTimers 0 current
      = match L.dispatchTimerOnce current with
        | none => some L
        | some _ => none := by
  constructor
  · intro fuel
    rw [EventLoop._DispatchTimers]
    unfold EventLoop.dispatchTimerOnce
    split
    · rfl
    · split <;> rfl
  · rw [EventLoop._DispatchTimers]
    unfold EventLoop.dispatchTimerOnce
    split
    · rfl
    · split <;> rfl

/-- When `_DispatchTimers` returns, the vector is empty or `fTimers[0]` has
not expired: the loop body reports the end on the returned loop. -/
theorem DispatchTimers_post (current : Int) :
    ∀ (fuel : Nat) (L L' : EventLoop), L._DispatchTimers fuel current = some L' →
      L'.dispatchTimerOnce current = none := by
  intro fuel
  induction fuel with
  | zero =>
    intro L L' h
    rw [(DispatchTimers_step current L).2] at h
    split at h
    · rename_i hnone
      cases h
      exact hnone
    · cases h
  | succ n ih =>
    intro L L' h
    rw [(DispatchTimers_step current L).1 n] at h
    split at h
    · rename_i hnone
      cases h
      exact hnone
    · exact ih _ _ h

/-- In the displacement scenario the loop of `_DispatchTimers` never ends,
whatever the fuel. -/
theorem displacedLoop_diverges :
    ∀ (fuel : Nat) (tr : List LoopEvent), (displacedLoop tr)._DispatchTimers fuel 100 = none := by
  intro fuel
  induction fuel with
  | zero => intro tr; rfl
  | succ n ih =>
    intro tr
    have h : (displacedLoop tr).dispatchTimerOnce 100
        = some (displacedLoop (tr ++ [LoopEvent.fired 1 50])) := by
      simp [EventLoop.dispatchTimerOnce, displacedLoop, EventLoop.fire, runCalls,
        LoopCall.run, enqueuesLater, Function.body, Function.tag, EventLoop.ExecuteAt,
        EventLoop._ExecuteAt]
      rfl
    rw [(DispatchTimers_step 100 (displacedLoop tr)).1 n, h]
    exact ih (tr ++ [LoopEvent.fired 1 50])

/-- C23 (the code at the failing input): the only registered timer `f`, at
`50`, calls `ExecuteAt(h, 300)` when it fires at time `100`.  When `f` has
run, `h` is at the front of the vector; the removal takes `h`, which never
ran, and leaves `f` registered; the next iteration fires `f` a second time;
and `_DispatchTimers` does not return, whatever the fuel. -/
theorem DispatchTimers_removes_enqueued_timer :
    ((displacedLoop []).fire { expiration := 50, function := enqueuesLater }).timerTags
      = [(2, 300), (1, 50)]
    ∧ ((displacedLoop []).dispatchTimerOnce 100).map (fun L => (L.trace, L.timerTags))
      = some ([LoopEvent.fired 1 50], [(1, 50)])
    ∧ (((displacedLoop []).dispatchTimerOnce 100).bind
        (fun L => L.dispatchTimerOnce 100)).map (fun L => (L.trace, L.timerTags))
      = some ([LoopEvent.fired 1 50, LoopEvent.fired 1 50], [(1, 50)])
    ∧ ∀ fuel : Nat, (displacedLoop [])._DispatchTimers fuel 100 = none := by
  refine ⟨?_, ?_, ?_, ?_⟩
  · rfl
  · rfl
  · rfl
  · intro fuel
    exact displacedLoop_diverges fuel []

/-- With an empty work queue the work dispatch leaves the loop as it is. -/
theorem DispatchWork_of_empty (L : EventLoop) (h : L.fWorkQueue = []) :
    L._DispatchWork = L := by
  cases L
  simp only at h
  subst h
  rfl

/-- When the only registered timer `f`, with expiration `e <= now`, calls
`ExecuteAt(h, t)` with `t <= e`, and `h` enqueues no timer, two iterations of
the loop of `_DispatchTimers` fire `f` and then `h` and empty the vector. -/
theorem DispatchTimers_fires_enqueued (L : EventLoop) (now e t : Int) (tag : Nat)
    (h : Function)
    (hT : L.fTimers = [⟨e, Function.mk tag [LoopCall.ExecuteAt h t]⟩])
    (hte : t ≤ e) (hen : e ≤ now) (hq : h.enqueuesNoTimer) :
    ∃ L', L._DispatchTimers 2 now = some L'
      ∧ L'.trace = L.trace ++ [LoopEvent.fired tag e, LoopEvent.fired h.tag t]
      ∧ L'.fTimers = [] ∧ L'.fEventQueue = L.fEventQueue := by
  have hlt : ¬ (e < t) := not_lt.mpr hte
  have hfire : (L.fire ⟨e, Function.mk tag [LoopCall.ExecuteAt h t]⟩).fTimers
      = [⟨e, Function.mk tag [LoopCall.ExecuteAt h t]⟩, ⟨t, h⟩] := by
    simp [EventLoop.fire, runCalls, LoopCall.run, Function.body, EventLoop.ExecuteAt,
      EventLoop._ExecuteAt, hT, push_heap, __push_heap, timer.lt, hlt]
  have h1 : L.dispatchTimerOnce now
      = some { L.fire ⟨e, Function.mk tag [LoopCall.ExecuteAt h t]⟩ with
          fTimers := [⟨t, h⟩] } := by
    simp only [EventLoop.dispatchTimerOnce, hT]
    rw [if_neg (not_lt.mpr hen), hfire]
    simp [pop_heap, __adjust_heap, __adjust_heap_down, __push_heap]
  have hfire2 : ∀ M : EventLoop, (M.fire ⟨t, h⟩).fTimers = M.fTimers := fun M =>
    runCalls_fTimers h.body hq _
  have h2 : ∀ M : EventLoop, M.fTimers = [⟨t, h⟩] →
      M.dispatchTimerOnce now = some { M.fire ⟨t, h⟩ with fTimers := [] } := by
    intro M hM
    simp only [EventLoop.dispatchTimerOnce, hM]
    rw [if_neg (not_lt.mpr (le_trans hte hen)), hfire2, hM]
    simp [pop_heap]
  refine ⟨{ ({ L.fire ⟨e, Function.mk tag [LoopCall.ExecuteAt h t]⟩ with
      fTimers := [⟨t, h⟩] } : EventLoop).fire ⟨t, h⟩ with fTimers := [] }, ?_, ?_, rfl, ?_⟩
  · rw [(DispatchTimers_step now L).1 1, h1]
    simp only
    rw [(DispatchTimers_step now _).1 0, h2 _ rfl]
    simp only
    rw [(DispatchTimers_step now _).2]
    rfl
  · simp only
    rw [(EventLoop.fire_trace _ _).1]
    simp only
    rw [(EventLoop.fire_trace _ _).1]
    simp [firedEvent, Function.tag]
  · simp only
    rw [(EventLoop.fire_trace _ _).2]
    simp only
    rw [(EventLoop.fire_trace _ _).2]

/-- C24 (counterexample): the only registered timer, at `50`, calls
`ExecuteAt(h, 40)` when it fires in a `RunOnce` at time `100`.  That same
`RunOnce` fires `h` (named `2`) before its wait, and the next `RunOnce`
fires nothing. -/
theorem RunOnce_fires_timer_enqueued_during_dispatch :
    (enqueuesExpired.RunOnce haiku 2 100 0 sampleInfos).map (fun p => p.2.trace)
      = some [LoopEvent.fired 1 50, LoopEvent.fired 2 40,
          LoopEvent.wait 3 50 haiku.B_ABSOLUTE_REAL_TIME_TIMEOUT haiku.B_INFINITE_TIMEOUT]
    ∧ ((enqueuesExpired.RunOnce haiku 2 100 0 sampleInfos).bind
        (fun p => p.2.RunOnce haiku 2 200 0 sampleInfos)).map (fun p => p.2.trace)
      = some [LoopEvent.fired 1 50, LoopEvent.fired 2 40,
          LoopEvent.wait 3 50 haiku.B_ABSOLUTE_REAL_TIME_TIMEOUT haiku.B_INFINITE_TIMEOUT,
          LoopEvent.wait 3 50 haiku.B_ABSOLUTE_REAL_TIME_TIMEOUT haiku.B_INFINITE_TIMEOUT] := by
  constructor <;> rfl

/-- C24 (amended): the loop of `_DispatchTimers` examines `fTimers[0]` again
after every removal, so whenever it returns the vector is empty or
`fTimers[0]` has not expired, timers enqueued by the fired functions
included.  When the firing timer `f` (expiration `e <= now`) is the only
registered timer and calls `ExecuteAt(h, t)` with `t <= e`, where `h`
enqueues no timer, the current `RunOnce` fires `f` and then `h`, before its
wait, and leaves no timer registered for the next `RunOnce`. -/
theorem timer_enqueued_during_dispatch_fires (os : OSHeaders) (L : EventLoop)
    (now e t result : Int) (infos : Nat → event_wait_info) (tag : Nat) (h : Function)
    (hW : L.fWorkQueue = [])
    (hT : L.fTimers = [⟨e, Function.mk tag [LoopCall.ExecuteAt h t]⟩])
    (hte : t ≤ e) (hen : e ≤ now) (hq : h.enqueuesNoTimer) :
    (∃ L', L._DispatchTimers 2 now = some L'
      ∧ L'.trace = L.trace ++ [LoopEvent.fired tag e, LoopEvent.fired h.tag t]
      ∧ L'.fTimers = [])
    ∧ (∃ L', L.RunOnce os 2 now result infos = some (result, L')
      ∧ L'.trace = L.trace ++ [LoopEvent.fired tag e, LoopEvent.fired h.tag t]
        ++ [LoopEvent.wait L.fEventQueue EVENTS_TO_READ os.B_ABSOLUTE_REAL_TIME_TIMEOUT
              os.B_INFINITE_TIMEOUT]
        ++ (if result < B_OK then []
            else (List.range result.toNat).map (fun i => dispatchedEvent (infos i))))
    ∧ (∀ (fuel : Nat) (M M' : EventLoop), M._DispatchTimers fuel now = some M' →
      M'.fTimers = [] ∨ ∃ t0 rest, M'.fTimers = t0 :: rest ∧ now < t0.expiration) := by
  obtain ⟨L1, h1, h2, h3, h4⟩ := DispatchTimers_fires_enqueued L now e t tag h hT hte hen hq
  refine ⟨⟨L1, h1, h2, h3⟩, ?_, ?_⟩
  · unfold EventLoop.RunOnce
    simp only [DispatchWork_of_empty L hW, h1, EventLoop._DetermineTimeout, h3]
    split
    · refine ⟨_, rfl, ?_⟩
      simp only
      rw [h2, h4]
      simp
    · refine ⟨_, rfl, ?_⟩
      rw [foldl_dispatch_trace]
      simp only
      rw [h2, h4]
  · intro fuel M M' hM
    have hpost := DispatchTimers_post now fuel M M' hM
    unfold EventLoop.dispatchTimerOnce at hpost
    split at hpost
    · rename_i hnil
      exact Or.inl hnil
    · rename_i t0 rest hcons
      split at hpost
      · rename_i hgt
        exact Or.inr ⟨t0, rest, hcons, hgt⟩
      · cases hpost

/-- The statement of `timer_enqueued_during_dispatch_fires` on the loop of
the expired-timer scenario, at time `100`. -/
theorem timer_enqueued_during_dispatch_fires_witness :
    enqueuesExpired.fWorkQueue = []
    ∧ enqueuesExpired.fTimers = [⟨50, Function.mk 1 [LoopCall.ExecuteAt (sampleFn 2) 40]⟩]
    ∧ (40 : Int) ≤ 50 ∧ (50 : Int) ≤ 100 ∧ (sampleFn 2).enqueuesNoTimer
    ∧ (∃ L', enqueuesExpired._DispatchTimers 2 100 = some L'
      ∧ L'.trace = enqueuesExpired.trace
        ++ [LoopEvent.fired 1 50, LoopEvent.fired (sampleFn 2).tag 40]
      ∧ L'.fTimers = []) :=
  have hq : (sampleFn 2).enqueuesNoTimer := by
    intro c hc
    simp [sampleFn, Function.body] at hc
  ⟨rfl, rfl, by decide, by decide, hq,
    (timer_enqueued_during_dispatch_fires haiku enqueuesExpired 100 50 40 0 sampleInfos 1
      (sampleFn 2) rfl rfl (by decide) (by decide) hq).1⟩

/-! ## StreamSocket: the claims about event dispatch -/

/-- A statement sequence that ends by returning the world changes nothing. -/
theorem Outcome.andThen_returned (o : Outcome) :
    o.andThen (fun w => Outcome.returned w) = o := by
  cases o <;> rfl

/-- C25 (counterexample): with a connect and a send both pending, one
delivery of write-readiness fires the connect callback and then also makes
the `send` of `_HandleSend` (with the fields of the recv slot) and completes
the send callback: both slots are driven. -/
theorem write_readiness_drives_both_slots :
    bothPending.world?.map
        (fun w => (w.socket.fWaitingConnect, w.socket.fWaitingWrite, w.trace))
      = some (true, true,
          [SocketEvent.connect 5 80, SocketEvent.select 3 5 0 0x6002 900,
            SocketEvent.send 5 600 8 0, SocketEvent.select 3 5 0 0x6002 900])
    ∧ bothPendingWritable.world?.map
        (fun w => (w.socket.fWaitingConnect, w.socket.fWaitingWrite, w.trace))
      = some (false, false,
          [SocketEvent.connect 5 80, SocketEvent.select 3 5 0 0x6002 900,
            SocketEvent.send 5 600 8 0, SocketEvent.select 3 5 0 0x6002 900,
            SocketEvent.callback 1 0, SocketEvent.send 5 0 0 0,
            SocketEvent.callback 2 8]) := by
  constructor <;> rfl

/-- C25 (amended): on a delivery with WRITE set (and no recv to drive), when
`fWaitingConnect` is set the connect slot is driven first, and then the send
slot is driven as well when `fWaitingWrite` is set once the connect callback
has returned.  In particular, when both flags are set and the connect
callback makes no call, the delivery is the completion of the connect
followed by `_HandleSend`. -/
theorem write_readiness_connect_then_send (os : OSHeaders) (kernel : Nat → SysResult)
    (call : IOCallback → Int → SocketWorld → Outcome) (events : Nat) (w : SocketWorld)
    (hW : events &&& os.B_EVENT_WRITE ≠ 0)
    (hR : events &&& os.B_EVENT_READ = 0 ∨ w.socket.fWaitingRead = false)
    (hc : w.socket.fWaitingConnect = true) :
    StreamSocket._HandleEvents os kernel call events w
        = (StreamSocket._HandleConnect call w).andThen
            (fun w => if w.socket.fWaitingWrite = true
              then StreamSocket._HandleSend os kernel call w else Outcome.returned w)
    ∧ (∀ (fuel tag : Nat), w.socket.fWaitingWrite = true →
        w.socket.fConnectCallback = IOCallback.fn tag [] →
        StreamSocket._HandleEvents os kernel (IOCallback.call os kernel (fuel + 1)) events w
          = StreamSocket._HandleSend os kernel (IOCallback.call os kernel (fuel + 1))
              (w.connectCompleted tag)) := by
  have hRead : ¬ (events &&& os.B_EVENT_READ ≠ 0 ∧ w.socket.fWaitingRead = true) := by
    rintro ⟨h1, h2⟩
    rcases hR with h | h
    · exact h1 h
    · rw [h] at h2
      cases h2
  have key : ∀ call : IOCallback → Int → SocketWorld → Outcome,
      StreamSocket._HandleEvents os kernel call events w
        = (StreamSocket._HandleConnect call w).andThen
            (fun w => if w.socket.fWaitingWrite = true
              then StreamSocket._HandleSend os kernel call w else Outcome.returned w) := by
    intro call
    unfold StreamSocket._HandleEvents
    simp only
    rw [if_neg hRead]
    simp only [Outcome.andThen]
    rw [if_pos hW, if_pos hc]
  refine ⟨key call, ?_⟩
  intro fuel tag hw hcb
  rw [key]
  unfold StreamSocket._HandleConnect
  simp only [hcb, IOCallback.call, runSocketCalls, Outcome.andThen]
  rw [if_pos hw]
  rfl

/-- The statement of `write_readiness_connect_then_send` on the sample world
with a connect and a send pending. -/
theorem write_readiness_connect_then_send_witness :
    haiku.B_EVENT_WRITE &&& haiku.B_EVENT_WRITE ≠ 0
    ∧ haiku.B_EVENT_WRITE &&& haiku.B_EVENT_READ = 0
    ∧ connectAndSendPending.socket.fWaitingConnect = true
    ∧ connectAndSendPending.socket.fWaitingWrite = true
    ∧ StreamSocket._HandleEvents haiku kernelReturns3 (IOCallback.call haiku kernelReturns3 1)
        haiku.B_EVENT_WRITE connectAndSendPending
      = (StreamSocket._HandleConnect (IOCallback.call haiku kernelReturns3 1)
          connectAndSendPending).andThen
          (fun w => if w.socket.fWaitingWrite = true
            then StreamSocket._HandleSend haiku kernelReturns3
              (IOCallback.call haiku kernelReturns3 1) w
            else Outcome.returned w)
    ∧ StreamSocket._HandleEvents haiku kernelReturns3
          (IOCallback.call haiku kernelReturns3 (0 + 1)) haiku.B_EVENT_WRITE
          connectAndSendPending
        = StreamSocket._HandleSend haiku kernelReturns3
            (IOCallback.call haiku kernelReturns3 (0 + 1))
            (connectAndSendPending.connectCompleted 1) :=
  have h := write_readiness_connect_then_send haiku kernelReturns3
    (IOCallback.call haiku kernelReturns3 1) haiku.B_EVENT_WRITE connectAndSendPending
    (by decide) (Or.inl (by decide)) rfl
  ⟨by decide, by decide, rfl, rfl, h.1, h.2 0 1 rfl rfl⟩

/-- C26 (the code at the failing input): a socket with a recv and a send
pending, while the socket-level error is `-2147454953`.  A delivery of
`B_EVENT_ERROR` alone makes no kernel call and invokes no callback, and
both operations stay pending; a delivery of `B_EVENT_ERROR | B_EVENT_READ`
re-issues the `recv` and completes it with the `3` that `recv` returned.
No `getsockopt` is made. -/
theorem HandleEvents_ignores_error_event :
    (StreamSocket._HandleEvents haiku kernelWithSocketError
        (IOCallback.call haiku kernelWithSocketError 1) haiku.B_EVENT_ERROR
        pendingSocket).world?.map
        (fun w => (w.socket.fWaitingRead, w.socket.fWaitingWrite, w.trace))
      = some (true, true, [])
    ∧ BaseSocket.errorOf (kernelWithSocketError 0) = -2147454953
    ∧ (StreamSocket._HandleEvents haiku kernelRecvWithSocketError
        (IOCallback.call haiku kernelRecvWithSocketError 1)
        (haiku.B_EVENT_ERROR ||| haiku.B_EVENT_READ) pendingSocket).trace?
      = some [SocketEvent.recv 5 500 10 0, SocketEvent.callback 1 3]
    ∧ BaseSocket.errorOf (kernelRecvWithSocketError 1) = -2147454953 := by
  refine ⟨?_, ?_, ?_, ?_⟩ <;> rfl

/-- A delivery with READ set and WRITE clear on a socket with a pending recv
is `_HandleRecv`. -/
theorem HandleEvents_read_only (os : OSHeaders) (kernel : Nat → SysResult)
    (call : IOCallback → Int → SocketWorld → Outcome) (events : Nat) (w : SocketWorld)
    (hR : events &&& os.B_EVENT_READ ≠ 0) (hW : events &&& os.B_EVENT_WRITE = 0)
    (hwait : w.socket.fWaitingRead = true) :
    StreamSocket._HandleEvents os kernel call events w
      = StreamSocket._HandleRecv os kernel call w := by
  unfold StreamSocket._HandleEvents
  simp only
  rw [if_pos ⟨hR, hwait⟩]
  simp only [if_neg (not_not.mpr hW)]
  exact Outcome.andThen_returned _

/-- A delivery with READ set on a socket with a pending recv is
`_HandleRecv` followed by what a delivery of the WRITE bit alone does (READ
and WRITE being distinct bits). -/
theorem HandleEvents_read_then_write (os : OSHeaders) (kernel : Nat → SysResult)
    (call : IOCallback → Int → SocketWorld → Outcome) (events : Nat) (w : SocketWorld)
    (hdisj : os.B_EVENT_WRITE &&& os.B_EVENT_READ = 0)
    (hR : events &&& os.B_EVENT_READ ≠ 0) (hwait : w.socket.fWaitingRead = true) :
    StreamSocket._HandleEvents os kernel call events w
      = (StreamSocket._HandleRecv os kernel call w).andThen
          (fun v => StreamSocket._HandleEvents os kernel call
            (events &&& os.B_EVENT_WRITE) v) := by
  have h0 : (events &&& os.B_EVENT_WRITE) &&& os.B_EVENT_READ = 0 := by
    rw [Nat.land_assoc, hdisj]
    simp
  have h1 : (events &&& os.B_EVENT_WRITE) &&& os.B_EVENT_WRITE
      = events &&& os.B_EVENT_WRITE := by
    rw [Nat.land_assoc]
    simp
  unfold StreamSocket._HandleEvents
  simp only [h0, h1, if_pos (And.intro hR hwait), ne_eq, not_true_eq_false, false_and,
    if_false]
  rfl

/-- C27 (counterexample): on the sample socket with a recv and a send
pending, a delivery of `READ | WRITE` whose re-issued `recv` fails with
`EAGAIN` does invoke a user callback: after the `recv` and the READ
registration, the WRITE part of the same delivery makes the `send` and
invokes the send callback `2` with its result.  The recv callback `1` is not
invoked and stays stored, and `fWaitingRead` stays set. -/
theorem spurious_readiness_fires_send_callback :
    (spuriousKernel pendingSocket.calls).ret = -1
    ∧ (spuriousKernel pendingSocket.calls).errno = haiku.EAGAIN
    ∧ (StreamSocket._HandleEvents haiku spuriousKernel
        (IOCallback.call haiku spuriousKernel 1)
        (haiku.B_EVENT_READ ||| haiku.B_EVENT_WRITE) pendingSocket).world?.map
        (fun w => (w.trace, w.socket.fWaitingRead, w.socket.fRecvRequest.callback.tag?))
      = some ([SocketEvent.recv 5 500 10 0, SocketEvent.select 3 5 0 0x6001 900,
          SocketEvent.send 5 500 10 0, SocketEvent.callback 2 3], true, some 1) := by
  refine ⟨?_, ?_, ?_⟩ <;> rfl

/-- C27 (amended): on a socket with a pending recv, in a delivery with READ
set (whatever the other bits of the mask) whose `recv` fails with
`EAGAIN`/`EWOULDBLOCK`, the READ part, `_HandleRecv`, only makes that `recv`
and one READ registration: it invokes no callback and leaves the fields of
the socket (`fWaitingRead` and the stored request among them) unchanged.  The
delivery then does what a delivery of the WRITE bit alone does, and nothing
more when WRITE is clear.  In a later delivery with READ set, with
`fWaitingRead` still set and the stored request unchanged, when `recv`
returns `n >= 0` the READ part clears `fWaitingRead` and invokes the stored
callback with `n`, before the WRITE part of that delivery. -/
theorem spurious_readiness (os : OSHeaders) (kernel : Nat → SysResult)
    (call : IOCallback → Int → SocketWorld → Outcome) (events events2 : Nat)
    (w w2 : SocketWorld) (n : Int)
    (hdisj : os.B_EVENT_WRITE &&& os.B_EVENT_READ = 0)
    (hR : events &&& os.B_EVENT_READ ≠ 0)
    (hwait : w.socket.fWaitingRead = true)
    (hret : (kernel w.calls).ret < 0)
    (herr : (kernel w.calls).errno = os.EAGAIN ∨ (kernel w.calls).errno = os.EWOULDBLOCK)
    (hsel : (kernel (w.calls + 1)).ret = B_OK) (hne : os.B_ERROR ≠ B_OK)
    (hR2 : events2 &&& os.B_EVENT_READ ≠ 0)
    (hwait2 : w2.socket.fWaitingRead = true)
    (hreq : w2.socket.fRecvRequest = w.socket.fRecvRequest)
    (hn : 0 ≤ n) (hret2 : (kernel w2.calls).ret = n) :
    StreamSocket._HandleRecv os kernel call w = Outcome.returned (w.reRegistered os)
    ∧ (w.reRegistered os).socket = w.socket
    ∧ (w.reRegistered os).trace
        = w.trace ++ [w.recvEvent, w.selectEvent os os.B_EVENT_READ]
    ∧ StreamSocket._HandleEvents os kernel call events w
        = StreamSocket._HandleEvents os kernel call (events &&& os.B_EVENT_WRITE)
            (w.reRegistered os)
    ∧ (events &&& os.B_EVENT_WRITE = 0 →
        StreamSocket._HandleEvents os kernel call events w
          = Outcome.returned (w.reRegistered os))
    ∧ StreamSocket._HandleEvents os kernel call events2 w2
        = ((call w.socket.fRecvRequest.callback n
              (w2.afterCall w2.recvEvent).clearWaitingRead).andThen
            (fun v => Outcome.returned v.resetRecvCallback)).andThen
          (fun v => StreamSocket._HandleEvents os kernel call
            (events2 &&& os.B_EVENT_WRITE) v)
    ∧ (w2.afterCall w2.recvEvent).clearWaitingRead.socket.fWaitingRead = false := by
  have hcond : ¬ ((kernel w.calls).ret ≥ 0 ∨
      ((kernel w.calls).errno ≠ os.EAGAIN ∧ (kernel w.calls).errno ≠ os.EWOULDBLOCK)) := by
    rintro (h0 | ⟨h1, h2⟩)
    · exact absurd hret (not_lt.mpr h0)
    · rcases herr with he | he
      · exact h1 he
      · exact h2 he
  have h2 : (kernel w2.calls).ret ≥ 0 := by
    rw [hret2]
    exact hn
  have hrecv : StreamSocket._HandleRecv os kernel call w
      = Outcome.returned (w.reRegistered os) := by
    have hw := (waitForFD_world os kernel os.B_EVENT_READ (w.afterCall w.recvEvent)).2
      hsel hne
    unfold StreamSocket._HandleRecv
    simp only [SocketWorld.syscall]
    rw [if_neg hcond]
    exact hw
  have hfirst := HandleEvents_read_then_write os kernel call events w hdisj hR hwait
  rw [hrecv] at hfirst
  refine ⟨hrecv, rfl, ?_, hfirst, fun hW => ?_, ?_, rfl⟩
  · simp [SocketWorld.reRegistered, SocketWorld.afterCall]
  · rw [HandleEvents_read_only os kernel call events w hR hW hwait]
    exact hrecv
  · rw [HandleEvents_read_then_write os kernel call events2 w2 hdisj hR2 hwait2, ← hreq]
    congr 1
    unfold StreamSocket._HandleRecv
    simp only [SocketWorld.syscall]
    rw [if_pos (Or.inl h2), if_pos h2, hret2]
    rfl

/-- The statement of `spurious_readiness` on the sample socket with a recv
and a send pending, for a first delivery of `READ | WRITE` whose `recv` fails
with `EAGAIN`, and a second delivery of READ, right after the READ part of
the first one, whose `recv` returns `3`. -/
theorem spurious_readiness_witness :
    haiku.B_EVENT_WRITE &&& haiku.B_EVENT_READ = 0
    ∧ (haiku.B_EVENT_READ ||| haiku.B_EVENT_WRITE) &&& haiku.B_EVENT_READ ≠ 0
    ∧ pendingSocket.socket.fWaitingRead = true
    ∧ (spuriousKernel pendingSocket.calls).ret < 0
    ∧ (spuriousKernel pendingSocket.calls).errno = haiku.EAGAIN
    ∧ (spuriousKernel (pendingSocket.calls + 1)).ret = B_OK
    ∧ (pendingSocket.reRegistered haiku).socket.fRecvRequest
        = pendingSocket.socket.fRecvRequest
    ∧ (spuriousKernel (pendingSocket.reRegistered haiku).calls).ret = 3
    ∧ StreamSocket._HandleRecv haiku spuriousKernel (IOCallback.call haiku spuriousKernel 1)
        pendingSocket
      = Outcome.returned (pendingSocket.reRegistered haiku)
    ∧ StreamSocket._HandleEvents haiku spuriousKernel (IOCallback.call haiku spuriousKernel 1)
        (haiku.B_EVENT_READ ||| haiku.B_EVENT_WRITE) pendingSocket
      = StreamSocket._HandleEvents haiku spuriousKernel
          (IOCallback.call haiku spuriousKernel 1)
          ((haiku.B_EVENT_READ ||| haiku.B_EVENT_WRITE) &&& haiku.B_EVENT_WRITE)
          (pendingSocket.reRegistered haiku)
    ∧ StreamSocket._HandleEvents haiku spuriousKernel (IOCallback.call haiku spuriousKernel 1)
        haiku.B_EVENT_READ (pendingSocket.reRegistered haiku)
      = ((IOCallback.call haiku spuriousKernel 1 pendingSocket.socket.fRecvRequest.callback 3
            ((pendingSocket.reRegistered haiku).afterCall
              (pendingSocket.reRegistered haiku).recvEvent).clearWaitingRead).andThen
          (fun v => Outcome.returned v.resetRecvCallback)).andThen
        (fun v => StreamSocket._HandleEvents haiku spuriousKernel
          (IOCallback.call haiku spuriousKernel 1)
          (haiku.B_EVENT_READ &&& haiku.B_EVENT_WRITE) v) :=
  have h := spurious_readiness haiku spuriousKernel (IOCallback.call haiku spuriousKernel 1)
    (haiku.B_EVENT_READ ||| haiku.B_EVENT_WRITE) haiku.B_EVENT_READ pendingSocket
    (pendingSocket.reRegistered haiku) 3 (by decide) (by decide) rfl (by decide)
    (Or.inl (by decide)) (by decide) (by decide) (by decide) rfl rfl (by decide) (by decide)
  ⟨by decide, by decide, rfl, by decide, by decide, by decide, rfl, by decide,
    h.1, h.2.2.2.1, h.2.2.2.2.2.1⟩

/-- C29 (the code at the failing input): a completion callback invoked from
`_HandleRecv`, `_HandleSend` or `_HandleConnect` submits the next operation
on the same slot, and that operation would block.  When `_HandleEvents`
returns, the waiting flag of the slot is set and a registration was made for
the new submission, but the callback stored in the slot is empty, not the
callback `2` of the most recent submission. -/
theorem slot_callback_erased_after_resubmission :
    resubmitFirstDelivery.world?.map
        (fun w => (w.socket.fWaitingRead, w.socket.fRecvRequest.callback.tag?))
      = some (true, none)
    ∧ resubmitSend.world?.map
        (fun w => (w.socket.fWaitingWrite, w.socket.fSendRequest.callback.tag?))
      = some (true, none)
    ∧ resubmitSend.trace?
      = some [SocketEvent.send 5 600 8 0, SocketEvent.select 3 5 0 0x6002 900,
          SocketEvent.send 5 0 0 0, SocketEvent.callback 1 3,
          SocketEvent.send 5 600 8 0, SocketEvent.select 3 5 0 0x6002 900]
    ∧ resubmitConnect.world?.map
        (fun w => (w.socket.fWaitingConnect, w.socket.fConnectCallback.tag?))
      = some (true, none)
    ∧ resubmitConnect.trace?
      = some [SocketEvent.connect 5 80, SocketEvent.select 3 5 0 0x6002 900,
          SocketEvent.callback 1 0,
          SocketEvent.connect 5 81, SocketEvent.select 3 5 0 0x6002 900] := by
  refine ⟨?_, ?_, ?_, ?_, ?_⟩ <;> rfl

/-! ## ServerSocket: the claims about event dispatch -/

/-- A field update of the server socket after a statement sequence changes
neither the trace nor the peer descriptors that the sequence leaves. -/
theorem ServerOutcome.andThen_server_update (o : ServerOutcome)
    (f : ServerWorld → ServerWorld)
    (hf : ∀ w, (f w).trace = w.trace ∧ (f w).peers = w.peers) :
    (o.andThen (fun w => ServerOutcome.returned (f w))).trace? = o.trace?
      ∧ (o.andThen (fun w => ServerOutcome.returned (f w))).peers? = o.peers? := by
  cases o with
  | returned w =>
    simp [ServerOutcome.andThen, ServerOutcome.trace?, ServerOutcome.peers?,
      ServerOutcome.world?, hf w]
  | threw e w => exact ⟨rfl, rfl⟩
  | aborted w => exact ⟨rfl, rfl⟩
  | exhausted => exact ⟨rfl, rfl⟩

/-- C28: for a server socket whose pending-accept slot holds the peer `s` and
the callback `cb`, a delivery with READ set (and ERROR clear) leaves, for
every result of the `accept`, the same trace (kernel calls, callback
invocations with their arguments, registrations) and the same descriptors of
the peer socket objects as `AsyncAccept(s, cb)` does in the same world. -/
theorem HandleEvents_accept_like_AsyncAccept (os : OSHeaders) (kernel : Nat → SysResult)
    (call : AcceptCallback → Int → ServerWorld → ServerOutcome)
    (events : Nat) (s : Nat) (cb : AcceptCallback) (w : ServerWorld)
    (hE : events &&& os.B_EVENT_ERROR = 0) (hR : events &&& os.B_EVENT_READ ≠ 0)
    (hs : w.server.fAcceptSocket = some s) (hcb : w.server.fAcceptCallback = cb) :
    (ServerSocket._HandleEvents os kernel call events w).trace?
        = (ServerSocket.AsyncAccept os kernel call s cb w).trace?
    ∧ (ServerSocket._HandleEvents os kernel call events w).peers?
        = (ServerSocket.AsyncAccept os kernel call s cb w).peers? := by
  obtain ⟨srv, peers, calls, trace⟩ := w
  obtain ⟨fd, loop, ecb, slot, scb⟩ := srv
  simp only at hs hcb
  subst hs hcb
  unfold ServerSocket._HandleEvents ServerSocket.AsyncAccept
  simp only [ServerWorld.syscall]
  rw [if_neg (not_not.mpr hE), if_neg (not_not.mpr hR)]
  by_cases hA : (kernel calls).ret = -1 ∧ (kernel calls).errno ≠ os.EAGAIN
      ∧ (kernel calls).errno ≠ os.EWOULDBLOCK
  · rw [if_pos hA, if_pos hA]
    exact ⟨rfl, rfl⟩
  · rw [if_neg hA, if_neg hA]
    by_cases hB : (kernel calls).ret ≥ 0
    · rw [if_pos hB, if_pos hB]
      exact ServerOutcome.andThen_server_update _
        (fun v => { v with server := { v.server with
          fAcceptSocket := none, fAcceptCallback := AcceptCallback.null } })
        (fun v => ⟨rfl, rfl⟩)
    · rw [if_neg hB, if_neg hB]
      exact ⟨rfl, rfl⟩

/-- The statement of `HandleEvents_accept_like_AsyncAccept` on the sample
server socket with a pending accept, for an `accept` that returns `9`. -/
theorem HandleEvents_accept_like_AsyncAccept_witness :
    haiku.B_EVENT_READ &&& haiku.B_EVENT_ERROR = 0
    ∧ haiku.B_EVENT_READ &&& haiku.B_EVENT_READ ≠ 0
    ∧ pendingServer.server.fAcceptSocket = some 700
    ∧ pendingServer.server.fAcceptCallback = AcceptCallback.fn 1 []
    ∧ (ServerSocket._HandleEvents haiku kernelReturns9
          (AcceptCallback.call haiku kernelReturns9 1) haiku.B_EVENT_READ pendingServer).trace?
        = (ServerSocket.AsyncAccept haiku kernelReturns9
          (AcceptCallback.call haiku kernelReturns9 1) 700 (AcceptCallback.fn 1 [])
          pendingServer).trace?
    ∧ (ServerSocket._HandleEvents haiku kernelReturns9
          (AcceptCallback.call haiku kernelReturns9 1) haiku.B_EVENT_READ pendingServer).peers?
        = (ServerSocket.AsyncAccept haiku kernelReturns9
          (AcceptCallback.call haiku kernelReturns9 1) 700 (AcceptCallback.fn 1 [])
          pendingServer).peers? :=
  have h := HandleEvents_accept_like_AsyncAccept haiku kernelReturns9
    (AcceptCallback.call haiku kernelReturns9 1) haiku.B_EVENT_READ 700
    (AcceptCallback.fn 1 []) pendingServer (by decide) (by decide) rfl rfl
  ⟨by decide, by decide, rfl, rfl, h.1, h.2⟩

/-- C30 (the code at the failing input): the accept callback invoked by
`_HandleEvents` after a successful accept calls `AsyncAccept(s2, cb2)`, whose
`accept` would block.  When `_HandleEvents` returns, a READ registration was
made for that `AsyncAccept`, but the pending-accept slot holds no peer socket
and no callback.  On the next READ delivery `accept` returns the descriptor
`10`; the null peer pointer is dereferenced, `s2` (at address `701`) is not
opened and `cb2` is not invoked. -/
theorem accept_loop_slot_erased :
    acceptLoopFirstDelivery.world?.map
        (fun w => (w.server.fAcceptSocket, w.server.fAcceptCallback.tag?, w.peers 700,
          w.trace))
      = some (none, none, 9,
          [SocketEvent.accept 5, SocketEvent.select 3 5 0 0x6001 900,
            SocketEvent.accept 5, SocketEvent.callback 1 0,
            SocketEvent.accept 5, SocketEvent.select 3 5 0 0x6001 900])
    ∧ acceptLoopSecondDelivery.isAborted = true
    ∧ acceptLoopSecondDelivery.world?.map (fun w => (w.peers 701, w.trace))
      = some (-1,
          [SocketEvent.accept 5, SocketEvent.select 3 5 0 0x6001 900,
            SocketEvent.accept 5, SocketEvent.callback 1 0,
            SocketEvent.accept 5, SocketEvent.select 3 5 0 0x6001 900,
            SocketEvent.accept 5]) := by
  refine ⟨?_, ?_, ?_⟩ <;> rfl

/-! ## Kernel trim support: the claim about the size check -/

/-- Where nothing wraps (a count of at least one, and an exact size that fits
in `size_t`), the machine computation of the byte size is exact. -/
theorem trimBytes_exact (w sizeofTrimData count : Nat) (h1 : 1 ≤ count)
    (h32 : count < 2 ^ 32) (hw : 16 * (count - 1) + sizeofTrimData < 2 ^ w) :
    (trimBytes w sizeofTrimData count : Int) = trimBytesExact sizeofTrimData count := by
  have e1 : (count % 2 ^ 32 + 2 ^ 32 - 1) % 2 ^ 32 = count - 1 := by
    rw [Nat.mod_eq_of_lt h32]
    have : count + 2 ^ 32 - 1 = (count - 1) + 2 ^ 32 := by omega
    rw [this, Nat.add_mod_right]
    exact Nat.mod_eq_of_lt (by omega)
  have e2 : (count - 1) * 8 % 2 ^ w = (count - 1) * 8 := Nat.mod_eq_of_lt (by omega)
  have e3 : (count - 1) * 8 * 2 % 2 ^ w = (count - 1) * 8 * 2 := Nat.mod_eq_of_lt (by omega)
  unfold trimBytes trimBytesExact
  rw [e1, e2, e3, Nat.mod_eq_of_lt (by omega)]
  omega

/-- With a 32-bit `size_t`, a count of zero makes the byte size wrap to
`sizeof(fs_trim_data) - 16`, whatever the size of the structure is. -/
theorem trimBytes_count_zero (sizeofTrimData : Nat) (h1 : 16 ≤ sizeofTrimData)
    (h2 : sizeofTrimData < 2 ^ 32) : trimBytes 32 sizeofTrimData 0 = sizeofTrimData - 16 := by
  unfold trimBytes
  norm_num
  omega

/-- Whenever `copy_trim_data_from_user` assigns `_trimData`, it returned
`B_OK` and copied the machine value of the byte size, which is at most
`size`. -/
theorem copy_trim_data_from_user_copies (st : StatusCodes) (w sizeofTrimData : Nat)
    (buffer : UserBuffer) (size n : Nat)
    (h : (copy_trim_data_from_user st w sizeofTrimData buffer size).2 = some n) :
    copy_trim_data_from_user st w sizeofTrimData buffer size = (B_OK, some n)
      ∧ n = trimBytes w sizeofTrimData buffer.count ∧ n ≤ size := by
  unfold copy_trim_data_from_user at h ⊢
  simp only at h ⊢
  split_ifs at h ⊢ with h1 h2 h3 h4 h5
  all_goals first
    | (simp at h; done)
    | (simp only [Option.some.injEq] at h
       exact ⟨by rw [h], h.symm, by omega⟩)

/-- C33: `copy_trim_data_from_user` returns `B_OK` for range counts whose
byte size wraps.  With a 32-bit `size_t` and `sizeof(fs_trim_data) = 28`: a
count of `0` with `size = 16` copies 12 bytes, and a count of `2^28 + 1` with
`size = 28` copies 28 bytes, while the exact size is `2^32 + 28`.  With a
64-bit `size_t` and `sizeof(fs_trim_data) = 32`: a count of `0` with
`size = 2^36 + 16` is accepted.  In none of these cases is the count at least
one with an exact size of at most `size`. -/
theorem copy_trim_data_accepts_wrapped_count :
    copy_trim_data_from_user haikuStatus 32 28 (sampleTrimBuffer 0) 16 = (B_OK, some 12)
    ∧ copy_trim_data_from_user haikuStatus 32 28 (sampleTrimBuffer 268435457) 28
        = (B_OK, some 28)
    ∧ trimBytesExact 28 268435457 = 4294967324
    ∧ copy_trim_data_from_user haikuStatus 64 32 (sampleTrimBuffer 0) 68719476752
        = (B_OK, some 68719476752)
    ∧ haikuStatus.B_BAD_VALUE ≠ B_OK := by
  refine ⟨?_, ?_, ?_, ?_, ?_⟩ <;> decide

/-! ## Text documents: the claim about `Insert` -/

/-- C32: `Insert` loses the character that follows a line break.  Inserting
`a`, line break, `b` (three characters) at offset 1 of the document `xy`
returns `B_OK` and leaves the text `x`, `a`, line break, `y` of length 4: the
`b` is gone, where the length should be `2 + 3`.  With two line breaks in a
row the second one is lost in the same way.  A text without line break is
inserted whole. -/
theorem Insert_loses_character_after_line_break :
    sampleDocument.Text = ['x', 'y'] ∧ sampleDocument.Length = 2
    ∧ BString.CountChars ['a', '\n', 'b'] = 3
    ∧ (TextDocument.Insert haikuStatus sampleDocument 1 ['a', '\n', 'b'] 7 3).map
        (fun r => (r.1, r.2.Text, r.2.Length))
      = some (B_OK, ['x', 'a', '\n', 'y'], 4)
    ∧ BString.CountChars ['a', '\n', '\n', 'b', 'c'] = 5
    ∧ (TextDocument.Insert haikuStatus sampleDocument 1 ['a', '\n', '\n', 'b', 'c'] 7 3).map
        (fun r => (r.1, r.2.Text, r.2.Length))
      = some (B_OK, ['x', 'a', '\n', 'b', 'c', 'y'], 6)
    ∧ (TextDocument.Insert haikuStatus sampleDocument 1 ['a', 'b'] 7 3).map
        (fun r => (r.1, r.2.Text, r.2.Length))
      = some (B_OK, ['x', 'a', 'b', 'y'], 4) := by
  refine ⟨?_, ?_, ?_, ?_, ?_, ?_, ?_⟩ <;> decide

/-! ## Text documents: the claim about `ParagraphIndexFor` -/

/-- The length of a paragraph is not negative. -/
theorem Paragraph.Length_nonneg (p : Paragraph) : 0 ≤ p.Length := by
  unfold Paragraph.Length
  apply List.sum_nonneg
  intro x hx
  obtain ⟨span, -, rfl⟩ := List.mem_map.mp hx
  simp [TextSpan.CountChars, BString.CountChars]

/-- The sum of the lengths of a list of paragraphs is not negative. -/
theorem sum_Length_nonneg (ps : List Paragraph) : 0 ≤ (ps.map Paragraph.Length).sum := by
  apply List.sum_nonneg
  intro x hx
  obtain ⟨p, -, rfl⟩ := List.mem_map.mp hx
  exact p.Length_nonneg

/-- The accumulation of `Length()` is the sum of the lengths. -/
theorem foldl_Length (ps : List Paragraph) (acc : Int) :
    ps.foldl (fun textLength paragraph => textLength + paragraph.Length) acc
      = acc + (ps.map Paragraph.Length).sum := by
  induction ps generalizing acc with
  | nil => simp
  | cons p rest ih => simp [ih, add_assoc]

/-- The function `TextDocument::Length()` returns the sum of the lengths of
the paragraphs. -/
theorem TextDocument.Length_eq_sum (doc : TextDocument) :
    doc.Length = (doc.fParagraphs.map Paragraph.Length).sum := by
  unfold TextDocument.Length
  rw [foldl_Length]
  simp

/-- What the loop of `ParagraphIndexFor` computes from index `i` on, where
`S` is the sum of the lengths of the paragraphs before `i` (the common value
of `textLength` and `paragraphOffset` at the head of the loop), which the
earlier iterations found to be at most `textOffset`. -/
theorem ParagraphIndexFor_loop_spec (textOffset count : Int) :
    ∀ (ps : List Paragraph) (i S : Int), 0 ≤ i → S ≤ textOffset → count = i + ps.length →
      ((TextDocument.ParagraphIndexFor_loop textOffset count ps i S S).1 = -1
          ↔ ps = [] ∨ textOffset > S + (ps.map Paragraph.Length).sum)
      ∧ ((TextDocument.ParagraphIndexFor_loop textOffset count ps i S S).1 ≠ -1 →
          ∃ (j : Nat) (q : Paragraph), ps[j]? = some q
            ∧ (TextDocument.ParagraphIndexFor_loop textOffset count ps i S S).1 = i + j
            ∧ (TextDocument.ParagraphIndexFor_loop textOffset count ps i S S).2
                = S + ((ps.take j).map Paragraph.Length).sum
            ∧ (TextDocument.ParagraphIndexFor_loop textOffset count ps i S S).2 ≤ textOffset
            ∧ textOffset
                ≤ (TextDocument.ParagraphIndexFor_loop textOffset count ps i S S).2 + q.Length
            ∧ (j + 1 ≠ ps.length → textOffset
                < (TextDocument.ParagraphIndexFor_loop textOffset count ps i S S).2
                  + q.Length)) := by
  intro ps
  induction ps with
  | nil =>
    intro i S _ _ _
    simp [TextDocument.ParagraphIndexFor_loop]
  | cons p rest ih =>
    intro i S hi hS hcount
    have hp := p.Length_nonneg
    have hrest := sum_Length_nonneg rest
    simp only [List.length_cons, Nat.cast_add, Nat.cast_one] at hcount
    unfold TextDocument.ParagraphIndexFor_loop
    simp only [List.map_cons, List.sum_cons]
    by_cases hc : S + p.Length > textOffset ∨ (i = count - 1 ∧ S + p.Length = textOffset)
    · rw [if_pos hc]
      have hlast : i = count - 1 → rest.length = 0 := by intro h; omega
      refine ⟨⟨fun h => by simp only at h; omega, fun h => ?_⟩, fun _ => ?_⟩
      · rcases h with h | h
        · exact absurd h (List.cons_ne_nil _ _)
        · rcases hc with hc | hc <;> omega
      · refine ⟨0, p, by simp, by simp, by simp, hS, ?_, ?_⟩
        · simp only
          rcases hc with hc | hc <;> omega
        · intro hne
          simp only [List.length_cons] at hne
          simp only
          rcases hc with hc | hc
          · omega
          · exact absurd (hlast hc.1) (by omega)
    · rw [if_neg hc]
      have hS' : S + p.Length ≤ textOffset := by
        by_contra h
        exact hc (Or.inl (by omega))
      obtain ⟨ih1, ih2⟩ := ih (i + 1) (S + p.Length) (by omega) hS' (by omega)
      refine ⟨?_, fun hne => ?_⟩
      · rw [ih1]
        constructor
        · intro h
          right
          rcases h with h | h
          · subst h
            have : ¬ (i = count - 1 ∧ S + p.Length = textOffset) := fun h => hc (Or.inr h)
            simp only [List.length_nil, Nat.cast_zero] at hcount
            simp only [List.map_nil, List.sum_nil]
            by_contra hcon
            exact this ⟨by omega, by omega⟩
          · omega
        · intro h
          rcases h with h | h
          · exact absurd h (List.cons_ne_nil _ _)
          · right
            omega
      · obtain ⟨j, q, hq, h1, h2, h3, h4, h5⟩ := ih2 hne
        refine ⟨j + 1, q, by simpa using hq, ?_, ?_, h3, h4, ?_⟩
        · rw [h1]
          push_cast
          omega
        · rw [h2]
          simp only [List.take_succ_cons, List.map_cons, List.sum_cons]
          omega
        · intro hne2
          apply h5
          simp only [List.length_cons] at hne2
          omega

/-- The function `ParagraphAt(index)` returns the paragraph stored at a valid
index. -/
theorem TextDocument.ParagraphAt_of_getElem (doc : TextDocument) (j : Nat) (q : Paragraph)
    (hq : doc.fParagraphs[j]? = some q) : doc.ParagraphAt (j : Int) = q := by
  have hj : j < doc.fParagraphs.length := by
    by_contra hcon
    rw [List.getElem?_eq_none (by omega)] at hq
    exact absurd hq (by simp)
  unfold TextDocument.ParagraphAt
  rw [if_pos ⟨by omega, by exact_mod_cast hj⟩]
  simp [List.getD, hq]

/-- C31: for every document (the length of a paragraph is the number of its
characters, hence not negative) and every `textOffset >= 0`,
`ParagraphIndexFor` returns `-1` exactly when the document has no paragraph
or `textOffset > Length()`.  Otherwise it returns a valid index `i` and
leaves in `paragraphOffset` the sum of the lengths of the paragraphs before
`i`, with `paragraphOffset <= textOffset <= paragraphOffset + length(i)`,
where the upper bound is strict unless `i` is the last index. -/
theorem ParagraphIndexFor_spec (doc : TextDocument) (textOffset : Int)
    (h : 0 ≤ textOffset) :
    ((doc.ParagraphIndexFor textOffset).1 = -1
        ↔ doc.fParagraphs = [] ∨ textOffset > doc.Length)
    ∧ ((doc.ParagraphIndexFor textOffset).1 ≠ -1 →
        0 ≤ (doc.ParagraphIndexFor textOffset).1
        ∧ (doc.ParagraphIndexFor textOffset).1 < doc.fParagraphs.length
        ∧ (doc.ParagraphIndexFor textOffset).2
            = doc.lengthBefore (doc.ParagraphIndexFor textOffset).1
        ∧ (doc.ParagraphIndexFor textOffset).2 ≤ textOffset
        ∧ textOffset ≤ (doc.ParagraphIndexFor textOffset).2
            + (doc.ParagraphAt (doc.ParagraphIndexFor textOffset).1).Length
        ∧ ((doc.ParagraphIndexFor textOffset).1 ≠ (doc.fParagraphs.length : Int) - 1 →
            textOffset < (doc.ParagraphIndexFor textOffset).2
              + (doc.ParagraphAt (doc.ParagraphIndexFor textOffset).1).Length)) := by
  obtain ⟨k1, k2⟩ := ParagraphIndexFor_loop_spec textOffset doc.fParagraphs.length
    doc.fParagraphs 0 0 le_rfl h (by simp)
  unfold TextDocument.ParagraphIndexFor
  refine ⟨?_, fun hne => ?_⟩
  · rw [k1, doc.Length_eq_sum]
    simp
  · obtain ⟨j, q, hq, h1, h2, h3, h4, h5⟩ := k2 hne
    have hj : j < doc.fParagraphs.length := by
      by_contra hcon
      rw [List.getElem?_eq_none (by omega)] at hq
      exact absurd hq (by simp)
    have hat := doc.ParagraphAt_of_getElem j q hq
    rw [zero_add] at h1 h2
    rw [h1, hat]
    refine ⟨by omega, by exact_mod_cast hj, ?_, h3, h4, fun hlast => h5 (by omega)⟩
    rw [h2]
    simp [TextDocument.lengthBefore]

/-- The statement `ParagraphIndexFor_spec` at the document of two paragraphs
and the offset 4, which lies in the second paragraph. -/
theorem ParagraphIndexFor_spec_witness :
    (0 : Int) ≤ 4
    ∧ (((twoParagraphs.ParagraphIndexFor 4).1 = -1
        ↔ twoParagraphs.fParagraphs = [] ∨ (4 : Int) > twoParagraphs.Length)
    ∧ ((twoParagraphs.ParagraphIndexFor 4).1 ≠ -1 →
        0 ≤ (twoParagraphs.ParagraphIndexFor 4).1
        ∧ (twoParagraphs.ParagraphIndexFor 4).1 < twoParagraphs.fParagraphs.length
        ∧ (twoParagraphs.ParagraphIndexFor 4).2
            = twoParagraphs.lengthBefore (twoParagraphs.ParagraphIndexFor 4).1
        ∧ (twoParagraphs.ParagraphIndexFor 4).2 ≤ 4
        ∧ 4 ≤ (twoParagraphs.ParagraphIndexFor 4).2
            + (twoParagraphs.ParagraphAt (twoParagraphs.ParagraphIndexFor 4).1).Length
        ∧ ((twoParagraphs.ParagraphIndexFor 4).1
              ≠ (twoParagraphs.fParagraphs.length : Int) - 1 →
            4 < (twoParagraphs.ParagraphIndexFor 4).2
              + (twoParagraphs.ParagraphAt (twoParagraphs.ParagraphIndexFor 4).1).Length))) :=
  ⟨by decide, ParagraphIndexFor_spec twoParagraphs 4 (by decide)⟩

/-- The chunk loop of `Insert` ends within the fuel it is given: every
iteration advances `chunkStart` by at least one. -/
theorem Insert_chunks_returns (st : StatusCodes) (text : BString)
    (characterStyle paragraphStyle : Nat) (length : Int) :
    ∀ (fuel : Nat) (fParagraphs : List Paragraph) (index : Int)
      (paragraph1 paragraph2 : Paragraph) (chunkStart : Int),
      (length - chunkStart).toNat ≤ fuel →
      TextDocument.Insert_chunks st text characterStyle paragraphStyle length fuel
        fParagraphs index paragraph1 paragraph2 chunkStart ≠ none := by
  intro fuel
  induction fuel with
  | zero =>
    intro fParagraphs index paragraph1 paragraph2 chunkStart hfuel
    unfold TextDocument.Insert_chunks
    rw [if_neg (by omega)]
    simp
  | succ fuel ih =>
    intro fParagraphs index paragraph1 paragraph2 chunkStart hfuel
    unfold TextDocument.Insert_chunks
    by_cases hlt : chunkStart < length
    · rw [if_pos hlt]
      simp only [Paragraph.Append, Paragraph.Prepend]
      by_cases hfound : BString.FindFirst text '\n' chunkStart ≥ chunkStart
      · simp only [hfound, decide_True, if_true]
        split
        · split
          · simp
          · exact ih _ _ _ _ _ (by omega)
        · exact ih _ _ _ _ _ (by omega)
      · simp only [hfound, decide_False, if_false, Bool.false_eq_true]
        exact ih _ _ _ _ _ (by omega)
    · rw [if_neg hlt]
      simp

/-- The function `Insert` returns: the fuel of its chunk loop never runs
out. -/
theorem Insert_returns (st : StatusCodes) (doc : TextDocument) (textOffset : Int)
    (text : BString) (characterStyle paragraphStyle : Nat) :
    TextDocument.Insert st doc textOffset text characterStyle paragraphStyle ≠ none := by
  unfold TextDocument.Insert
  simp only
  split_ifs with h1 h2
  · simp
  · have hret := Insert_chunks_returns st text characterStyle paragraphStyle
      (BString.CountChars text) text.length
    split
    · rename_i heq
      exact absurd heq (hret _ _ _ _ _ (by simp [BString.CountChars]))
    · split_ifs
      · simp
      · split <;> simp
      · split <;> simp
  · split <;> simp

end io
